import Mathlib

/-!
# Course-management SPA: router, session and CRUD handlers

Shallow embedding of the JavaScript sources

* `plantilla_vercel/spa-gestion-cursos (1)/utils/navigation-service.js`
* `plantilla_vercel/spa-gestion-cursos (1)/services/auth-service.js`
* `plantilla_vercel/spa-gestion-cursos (1)/services/api-service.js`
* `plantilla_vercel/spa-gestion-cursos (1)/utils/validation-utils.js`
* `plantilla_vercel/spa-gestion-cursos (1)/main.js`
* `explicacion/main.js`

Conventions of the embedding.

* Records are the typed records of the data model: ids, capacities and counts
  are integers, the other fields are strings.  On such values `===` is
  equality and `Number(x)`, `Number.parseInt(x)` are the identity on an
  integer `x`.
* Global mutable objects (`estadoAplicacion`, `appState`, the DOM, the two
  browser stores, the history) are fields of an explicit world that every
  operation takes and returns.
* An `async` function is run to completion: each `await` is a sequence point
  and no other event handler is interleaved.
* A thrown JavaScript error is a value of `Fallo`; `try / catch / finally`
  is a `match` on the outcome.
* The REST backend and the network are outside the repository.  The world
  carries the backend tables and a script `red` with the outcome of the next
  HTTP exchanges (an exhausted script answers 200).
* `new Date().toLocaleDateString("es-ES")` reads the field `fecha` of the world.
* The DOM contract holds: the elements with the fixed ids exist.
-/

namespace Simulacro

/-! ## Data model -/

/-- User record of the `/users` resource. -/
structure User where
  id : Int
  name : String
  email : String
  password : String
  role : String
  phone : String
  enrollNumber : String
  dateOfAdmission : String
deriving DecidableEq

/-- Course record of the `/courses` resource. -/
structure Course where
  id : Int
  title : String
  description : String
  instructor : String
  startDate : String
  duration : String
  capacity : Int
deriving DecidableEq

/-- Enrollment record of the `/enrollments` resource. -/
structure Enrollment where
  id : Int
  userId : Int
  courseId : Int
  enrollmentDate : String
  status : String
deriving DecidableEq

/-- Object literal with the fields of a user and no `id`: what a form or a
caller hands to the create operation. -/
structure DatosUsuario where
  name : String
  email : String
  password : String
  role : String
  phone : String
  enrollNumber : String
  dateOfAdmission : String
deriving DecidableEq

/-- Object literal with the fields of a course and no `id`. -/
structure DatosCurso where
  title : String
  description : String
  instructor : String
  startDate : String
  duration : String
  capacity : Int
deriving DecidableEq

/-- Object literal with the fields of an enrollment and no `id`. -/
structure DatosInscripcion where
  userId : Int
  courseId : Int
  enrollmentDate : String
  status : String
deriving DecidableEq

/-- Object literal that the user form of the modal submits: five fields, and
the field `password` only when the password input was not empty (`none`: the
object has no such field). -/
structure DatosFormularioUsuario where
  name : String
  email : String
  role : String
  phone : String
  enrollNumber : String
  password : Option String
deriving DecidableEq

/-- The record with the given id and the fields of the object literal of the
user form.  A field that the object does not carry is absent from the record;
the typed record shows an absent field as the empty string. -/
def DatosFormularioUsuario.registro (d : DatosFormularioUsuario) (id : Int) : User :=
  { id := id, name := d.name, email := d.email, password := d.password.getD "",
    role := d.role, phone := d.phone, enrollNumber := d.enrollNumber, dateOfAdmission := "" }

/-! ## Errors, alerts, views -/

/-- A thrown JavaScript error. -/
inductive Fallo
  /-- The error that an HTTP wrapper creates for a non-success status, with
  its message. -/
  | http (status : Nat) (texto : String)
  /-- A rejected `fetch` (no connection). -/
  | sinConexion
  /-- An error `new Error(texto)` thrown by application code. -/
  | mensaje (texto : String)
  /-- A `TypeError` raised by a property access on `null` or `undefined`. -/
  | typeError
deriving DecidableEq

/-- The `message` property of an error. -/
def Fallo.message : Fallo → String
  | .http _ texto => texto
  | .sinConexion => "Failed to fetch"
  | .mensaje texto => texto
  | .typeError => "Cannot read properties of null"

/-- An alert element inserted at the top of `mainContent`. -/
structure Alerta where
  mensaje : String
  tipo : String
deriving DecidableEq

/-- The page renderers of `renderizadorPaginas`. -/
inductive Vista
  | login
  | registro
  | dashboard
  | usuarios
  | cursos
  | inscripciones
  | pagina404
deriving DecidableEq

/-- An anchor of `.nav-menu`. -/
structure Enlace where
  href : String
  activo : Bool
deriving DecidableEq

/-- The part of the document that the router and the HTTP wrapper touch:
the `hidden` / `full-width` / `active` classes, the welcome text. -/
structure Dom where
  headerOculto : Bool
  sidebarOculto : Bool
  mainFullWidth : Bool
  userWelcome : String
  usersNavItemOculto : Bool
  enrollmentsNavItemOculto : Bool
  loadingSpinnerOculto : Bool
  enlaces : List Enlace
deriving DecidableEq

/-! ## Browser storage -/

/-- A JSON document kept in `localStorage` / `sessionStorage`. -/
inductive ValorJson
  | usuario (u : User)
  | booleano (b : Bool)
  | nulo
deriving DecidableEq

/-- A browser store: key / serialized value pairs. -/
abbrev Almacen := List (String × ValorJson)

/-- The call `setItem(key, JSON.stringify(value))`. -/
def Almacen.setItem (a : Almacen) (clave : String) (valor : ValorJson) : Almacen :=
  (clave, valor) :: a.filter (fun p => p.1 != clave)

/-- The call `getItem(key)`. -/
def Almacen.getItem (a : Almacen) (clave : String) : Option ValorJson :=
  (a.find? (fun p => p.1 == clave)).map (fun p => p.2)

/-- The call `removeItem(key)`. -/
def Almacen.removeItem (a : Almacen) (clave : String) : Almacen :=
  a.filter (fun p => p.1 != clave)

/-! ## REST backend and network -/

/-- The three resources of the backend. -/
inductive Recurso
  | users
  | courses
  | enrollments
deriving DecidableEq

/-- The stored record type of a resource. -/
abbrev Recurso.Registro : Recurso → Type
  | .users => User
  | .courses => Course
  | .enrollments => Enrollment

/-- The type of the object literal posted to a resource. -/
abbrev Recurso.Datos : Recurso → Type
  | .users => DatosUsuario
  | .courses => DatosCurso
  | .enrollments => DatosInscripcion

/-- The JSON body of a POST or PUT. -/
inductive Cuerpo
  | usuario (d : DatosUsuario)
  | curso (d : DatosCurso)
  | inscripcion (d : DatosInscripcion)
  | usuarioFormulario (d : DatosFormularioUsuario)
deriving DecidableEq

/-- The call `JSON.stringify(data)` for the body of a request. -/
def Recurso.cuerpo : (r : Recurso) → r.Datos → Cuerpo
  | .users, d => .usuario d
  | .courses, d => .curso d
  | .enrollments, d => .inscripcion d

/-- The record with the given id and the fields of the object literal. -/
def Recurso.registro : (r : Recurso) → Int → r.Datos → r.Registro
  | .users, id, d =>
    { id := id, name := d.name, email := d.email, password := d.password, role := d.role,
      phone := d.phone, enrollNumber := d.enrollNumber, dateOfAdmission := d.dateOfAdmission }
  | .courses, id, d =>
    { id := id, title := d.title, description := d.description, instructor := d.instructor,
      startDate := d.startDate, duration := d.duration, capacity := d.capacity }
  | .enrollments, id, d =>
    { id := id, userId := d.userId, courseId := d.courseId,
      enrollmentDate := d.enrollmentDate, status := d.status }

/-- An HTTP request issued through `fetch`. -/
inductive Peticion
  | get (r : Recurso)
  | post (r : Recurso) (cuerpo : Cuerpo)
  | put (r : Recurso) (id : Int) (cuerpo : Cuerpo)
  | delete (r : Recurso) (id : Int)
deriving DecidableEq

/-- The outcome of one HTTP exchange. -/
inductive Respuesta
  | estado (status : Nat)
  | sinConexion
deriving DecidableEq

/-- The property `response.ok`: a status in the range 200-299. -/
def Respuesta.ok : Respuesta → Bool
  | .estado status => decide (200 ≤ status) && decide (status ≤ 299)
  | .sinConexion => false

/-- The tables of the backend. -/
structure Servidor where
  users : List User
  courses : List Course
  enrollments : List Enrollment
deriving DecidableEq

/-- The table of a resource: the body of the answer to `GET /resource`. -/
def Servidor.tabla (s : Servidor) : (r : Recurso) → List r.Registro
  | .users => s.users
  | .courses => s.courses
  | .enrollments => s.enrollments

/-- A fresh id: one more than the largest id in use. -/
def siguienteId (ids : List Int) : Int :=
  ids.foldl max 0 + 1

/-- The id that the backend gives to the next record of a resource. -/
def Servidor.idNuevo (s : Servidor) : Recurso → Int
  | .users => siguienteId (s.users.map (fun u => u.id))
  | .courses => siguienteId (s.courses.map (fun c => c.id))
  | .enrollments => siguienteId (s.enrollments.map (fun e => e.id))

/-- Modelled from the spec: the REST backend (section 6, resources `/users`,
`/courses`, `/enrollments` with GET, POST, PUT and DELETE).  Effect of a
request that the backend answers with success: a POST appends the body under a
fresh id, a PUT replaces the record carrying the id, a DELETE removes the
record carrying the id, a GET changes nothing. -/
def Servidor.aplicar (s : Servidor) : Peticion → Servidor
  | .get _ => s
  | .post .users (.usuario d) =>
    { s with users := s.users ++ [Recurso.registro .users (s.idNuevo .users) d] }
  | .post .courses (.curso d) =>
    { s with courses := s.courses ++ [Recurso.registro .courses (s.idNuevo .courses) d] }
  | .post .enrollments (.inscripcion d) =>
    { s with enrollments :=
        s.enrollments ++ [Recurso.registro .enrollments (s.idNuevo .enrollments) d] }
  | .post .users (.usuarioFormulario d) =>
    { s with users := s.users ++ [d.registro (s.idNuevo .users)] }
  | .post _ _ => s
  | .put .users id (.usuario d) =>
    { s with users := s.users.map (fun u =>
        if u.id = id then Recurso.registro .users id d else u) }
  | .put .users id (.usuarioFormulario d) =>
    { s with users := s.users.map (fun u => if u.id = id then d.registro id else u) }
  | .put .courses id (.curso d) =>
    { s with courses := s.courses.map (fun c =>
        if c.id = id then Recurso.registro .courses id d else c) }
  | .put .enrollments id (.inscripcion d) =>
    { s with enrollments := s.enrollments.map (fun e =>
        if e.id = id then Recurso.registro .enrollments id d else e) }
  | .put _ _ _ => s
  | .delete .users id => { s with users := s.users.filter (fun u => u.id != id) }
  | .delete .courses id => { s with courses := s.courses.filter (fun c => c.id != id) }
  | .delete .enrollments id =>
    { s with enrollments := s.enrollments.filter (fun e => e.id != id) }

/-! ## The world -/

/-- The global object `estadoAplicacion`. -/
structure EstadoAplicacion where
  usuarioActual : Option User
  rutaActual : String
  estaAutenticado : Bool
deriving DecidableEq

/-- The global object `appState` of `main.js`. -/
structure AppState where
  currentRoute : String
  isAuthenticated : Bool
  currentUser : Option User
deriving DecidableEq

/-- Everything the program reads or writes. -/
structure Mundo where
  estadoAplicacion : EstadoAplicacion
  appState : AppState
  localStorage : Almacen
  sessionStorage : Almacen
  dom : Dom
  /-- The paths handed to `history.pushState`, oldest first. -/
  historial : List String
  /-- The page renderers called, oldest first. -/
  vistas : List Vista
  /-- The alerts shown, oldest first. -/
  alertas : List Alerta
  /-- The list views asked to reload after a CRUD operation, oldest first. -/
  recargas : List Vista
  servidor : Servidor
  /-- The outcome of the next HTTP exchanges. -/
  red : List Respuesta
  /-- The HTTP requests issued, oldest first. -/
  peticiones : List Peticion
  /-- The current date in the format of the `es-ES` locale. -/
  fecha : String
deriving DecidableEq

/-- A call of one of the page renderers of `renderizadorPaginas`. -/
def renderizar (v : Vista) (w : Mundo) : Mundo :=
  { w with vistas := w.vistas ++ [v] }

/-- The call `history.pushState(null, null, ruta)`. -/
def pushState (ruta : String) (w : Mundo) : Mundo :=
  { w with historial := w.historial ++ [ruta] }

/-- The outcome of the next HTTP exchange: the head of the script, status 200
when the script is exhausted. -/
def proximaRespuesta (red : List Respuesta) : Respuesta :=
  red.headD (.estado 200)

/-- Modelled from the spec: the network and the backend behind `fetch`.  The
request is logged, the next scripted outcome is consumed (200 when the script
is exhausted), and a request answered with a success status takes effect on
the backend; any other outcome leaves the backend as it was. -/
def fetch (p : Peticion) (w : Mundo) : Respuesta × Mundo :=
  let respuesta := proximaRespuesta w.red
  let w1 : Mundo := { w with peticiones := w.peticiones ++ [p], red := w.red.tail }
  if respuesta.ok then (respuesta, { w1 with servidor := w1.servidor.aplicar p })
  else (respuesta, w1)

/-- The next HTTP exchange is answered with a success status. -/
def Mundo.respuestaOk (w : Mundo) : Bool :=
  (proximaRespuesta w.red).ok

/-- The world after a request that was answered with success and whose
wrapper has returned: request logged, one outcome consumed, effect applied,
spinner hidden. -/
def Mundo.trasExito (w : Mundo) (p : Peticion) : Mundo :=
  { w with peticiones := w.peticiones ++ [p], red := w.red.tail,
           servidor := w.servidor.aplicar p,
           dom := { w.dom with loadingSpinnerOculto := true } }

/-- The world after a request that failed and whose wrapper has rethrown:
request logged, one outcome consumed, the error alert of the wrapper shown,
spinner hidden. -/
def Mundo.trasFallo (w : Mundo) (p : Peticion) (alerta : String) : Mundo :=
  { w with peticiones := w.peticiones ++ [p], red := w.red.tail,
           alertas := w.alertas ++ [{ mensaje := alerta, tipo := "error" }],
           dom := { w.dom with loadingSpinnerOculto := true } }

/-- The request is a read (a GET). -/
def Peticion.esLectura : Peticion → Bool
  | .get _ => true
  | _ => false

/-- The errors that an HTTP wrapper throws: no connection, or a non-success
status. -/
def Fallo.esDeRed : Fallo → Bool
  | .http _ _ => true
  | .sinConexion => true
  | _ => false

/-! ## utils/navigation-service.js -/

namespace NavigationServiceJs

namespace navegacionService

/-- Source: `esRutaPublica`, lines 61-64. -/
def esRutaPublica (ruta : String) : Bool :=
  ["/login", "/register"].contains ruta

/-- Source: `esUsuarioAdministrador`, lines 67-69
(`usuarioActual?.role === "admin"`). -/
def esUsuarioAdministrador (w : Mundo) : Bool :=
  match w.estadoAplicacion.usuarioActual with
  | some u => u.role == "admin"
  | none => false

/-- Source: `esUsuarioVisitante`, lines 72-74
(`usuarioActual?.role === "visitor"`). -/
def esUsuarioVisitante (w : Mundo) : Bool :=
  match w.estadoAplicacion.usuarioActual with
  | some u => u.role == "visitor"
  | none => false

/-- Source: `actualizarEnlaceActivo`, lines 111-119. -/
def actualizarEnlaceActivo (w : Mundo) : Mundo :=
  { w with dom := { w.dom with
      enlaces := w.dom.enlaces.map (fun enlace =>
        { enlace with activo := enlace.href == w.estadoAplicacion.rutaActual }) } }

/-- Source: `actualizarNavegacion`, lines 77-108.  Reading
`usuarioActual.name` of a `null` user raises a `TypeError`. -/
def actualizarNavegacion (w : Mundo) : Except Fallo Mundo :=
  if w.estadoAplicacion.estaAutenticado then
    match w.estadoAplicacion.usuarioActual with
    | none => .error .typeError
    | some u =>
      let w1 : Mundo := { w with dom := { w.dom with
        headerOculto := false, sidebarOculto := false, mainFullWidth := false,
        userWelcome := "Bienvenido, " ++ u.name } }
      let w2 : Mundo :=
        if esUsuarioAdministrador w1 then
          { w1 with dom := { w1.dom with
              usersNavItemOculto := false, enrollmentsNavItemOculto := true } }
        else
          { w1 with dom := { w1.dom with
              usersNavItemOculto := true, enrollmentsNavItemOculto := false } }
      .ok (actualizarEnlaceActivo w2)
  else
    .ok { w with dom := { w.dom with
      headerOculto := true, sidebarOculto := true, mainFullWidth := true } }

/-- The first two statements of `navegarA` (lines 8-9): push the history
entry and set the current route. -/
def fijarRuta (rutaDestino : String) (w : Mundo) : Mundo :=
  let w1 := pushState rutaDestino w
  { w1 with estadoAplicacion := { w1.estadoAplicacion with rutaActual := rutaDestino } }

/-- Source: `renderizarContenido`, lines 14-58.  The calls `this.navegarA(r)`
in its body are `fijarRuta r` followed by the recursive call.  The first
argument bounds the number of nested calls; `none` means the bound was
reached. -/
def renderizarContenido : Nat → Mundo → Option (Except Fallo Mundo)
  | 0, _ => none
  | n + 1, w =>
    let rutaActual := w.estadoAplicacion.rutaActual
    if !esRutaPublica rutaActual && !w.estadoAplicacion.estaAutenticado then
      renderizarContenido n (fijarRuta "/login" w)
    else
      match actualizarNavegacion w with
      | .error e => some (.error e)
      | .ok w1 =>
        if rutaActual = "/login" then some (.ok (renderizar .login w1))
        else if rutaActual = "/register" then some (.ok (renderizar .registro w1))
        else if rutaActual = "/" ∨ rutaActual = "/dashboard" then
          some (.ok (renderizar .dashboard w1))
        else if rutaActual = "/users" then
          if esUsuarioAdministrador w1 then some (.ok (renderizar .usuarios w1))
          else renderizarContenido n (fijarRuta "/" w1)
        else if rutaActual = "/courses" then some (.ok (renderizar .cursos w1))
        else if rutaActual = "/enrollments" then
          if esUsuarioVisitante w1 then some (.ok (renderizar .inscripciones w1))
          else renderizarContenido n (fijarRuta "/" w1)
        else some (.ok (renderizar .pagina404 w1))

/-- Source: `navegarA`, lines 7-11. -/
def navegarA (n : Nat) (rutaDestino : String) (w : Mundo) : Option (Except Fallo Mundo) :=
  renderizarContenido n (fijarRuta rutaDestino w)

end navegacionService

end NavigationServiceJs

/-! ## services/api-service.js -/

namespace ApiServiceJs

namespace apiService

/-- Source: `mostrarCargando`, lines 56-63. -/
def mostrarCargando (mostrar : Bool) (w : Mundo) : Mundo :=
  { w with dom := { w.dom with loadingSpinnerOculto := !mostrar } }

/-- Source: `mostrarAlerta`, lines 66-80 (the removal after three seconds is
not part of the model). -/
def mostrarAlerta (mensaje : String) (tipo : String) (w : Mundo) : Mundo :=
  { w with alertas := w.alertas ++ [{ mensaje := mensaje, tipo := tipo }] }

/-- Source: `realizarPeticion`, lines 6-23.  The argument `json` is the call
`respuesta.json()`: the parsed body of the answer. -/
def realizarPeticion {α : Type} (p : Peticion) (json : Servidor → α) (w : Mundo) :
    Except Fallo α × Mundo :=
  let w1 := mostrarCargando true w
  match fetch p w1 with
  | (.sinConexion, w2) =>
    (.error .sinConexion,
      mostrarCargando false (mostrarAlerta "Error en la operación" "error" w2))
  | (.estado status, w2) =>
    if (Respuesta.estado status).ok then (.ok (json w2.servidor), mostrarCargando false w2)
    else
      (.error (.http status ("Error HTTP: " ++ toString status)),
        mostrarCargando false (mostrarAlerta "Error en la operación" "error" w2))

/-- Source: `obtenerDatos`, lines 26-28. -/
def obtenerDatos (r : Recurso) (w : Mundo) : Except Fallo (List r.Registro) × Mundo :=
  realizarPeticion (.get r) (fun s => s.tabla r) w

/-- Source: `crearDatos`, lines 31-37.  The answer is the created record. -/
def crearDatos (r : Recurso) (datos : r.Datos) (w : Mundo) :
    Except Fallo r.Registro × Mundo :=
  realizarPeticion (.post r (r.cuerpo datos))
    (fun _ => r.registro (w.servidor.idNuevo r) datos) w

/-- Source: `actualizarDatos`, lines 40-46.  The answer is the updated record. -/
def actualizarDatos (r : Recurso) (id : Int) (datos : r.Datos) (w : Mundo) :
    Except Fallo r.Registro × Mundo :=
  realizarPeticion (.put r id (r.cuerpo datos)) (fun _ => r.registro id datos) w

/-- Source: `eliminarDatos`, lines 49-53. -/
def eliminarDatos (r : Recurso) (id : Int) (w : Mundo) : Except Fallo Unit × Mundo :=
  realizarPeticion (.delete r id) (fun _ => ()) w

end apiService

end ApiServiceJs

/-! ## services/storage-service.js -/

namespace StorageServiceJs

namespace almacenamientoService

/-- Source: `guardarEnLocal`, lines 4-10. -/
def guardarEnLocal (clave : String) (valor : ValorJson) (w : Mundo) : Mundo :=
  { w with localStorage := w.localStorage.setItem clave valor }

/-- Source: `obtenerDeLocal`, lines 12-20. -/
def obtenerDeLocal (clave : String) (w : Mundo) : ValorJson :=
  match w.localStorage.getItem clave with
  | some elemento => elemento
  | none => .nulo

/-- Source: `eliminarDeLocal`, lines 22-28. -/
def eliminarDeLocal (clave : String) (w : Mundo) : Mundo :=
  { w with localStorage := w.localStorage.removeItem clave }

/-- Source: `guardarEnSesion`, lines 31-37. -/
def guardarEnSesion (clave : String) (valor : ValorJson) (w : Mundo) : Mundo :=
  { w with sessionStorage := w.sessionStorage.setItem clave valor }

/-- Source: `obtenerDeSesion`, lines 39-47. -/
def obtenerDeSesion (clave : String) (w : Mundo) : ValorJson :=
  match w.sessionStorage.getItem clave with
  | some elemento => elemento
  | none => .nulo

/-- Source: `eliminarDeSesion`, lines 49-55. -/
def eliminarDeSesion (clave : String) (w : Mundo) : Mundo :=
  { w with sessionStorage := w.sessionStorage.removeItem clave }

end almacenamientoService

end StorageServiceJs

/-! ## services/auth-service.js

The injected collaborators are the `apiService` of `api-service.js`, the
`almacenamientoService` of `storage-service.js` and the global
`estadoAplicacion`. -/

namespace AuthServiceJs

open ApiServiceJs StorageServiceJs

namespace autenticacionService

/-- The `catch` block of `iniciarSesion` and `registrarUsuario` (lines 30-33,
55-58): show the message of the error and rethrow it. -/
def alCapturar {α : Type} (error : Fallo) (w : Mundo) : Except Fallo α × Mundo :=
  (.error error, apiService.mostrarAlerta error.message "error" w)

/-- Source: `autenticacionService.iniciarSesion`, lines 9-34. -/
def iniciarSesion (correoElectronico contrasena : String) (w : Mundo) :
    Except Fallo User × Mundo :=
  match apiService.obtenerDatos .users w with
  | (.error error, w1) => alCapturar error w1
  | (.ok usuarios, w1) =>
    match usuarios.find? (fun usuario =>
        usuario.email == correoElectronico && usuario.password == contrasena) with
    | some usuarioEncontrado =>
      let w2 := almacenamientoService.guardarEnLocal "usuarioActual"
        (.usuario usuarioEncontrado) w1
      let w3 := almacenamientoService.guardarEnSesion "estaAutenticado" (.booleano true) w2
      let w4 : Mundo := { w3 with
        estadoAplicacion := { w3.estadoAplicacion with
          usuarioActual := some usuarioEncontrado, estaAutenticado := true } }
      (.ok usuarioEncontrado, apiService.mostrarAlerta "Inicio de sesión exitoso" "success" w4)
    | none => alCapturar (.mensaje "Credenciales inválidas") w1

/-- Source: `autenticacionService.registrarUsuario`, lines 37-59. -/
def registrarUsuario (datosUsuario : DatosUsuario) (w : Mundo) : Except Fallo User × Mundo :=
  match apiService.obtenerDatos .users w with
  | (.error error, w1) => alCapturar error w1
  | (.ok usuarios, w1) =>
    match usuarios.find? (fun usuario => usuario.email == datosUsuario.email) with
    | some _ => alCapturar (.mensaje "El correo electrónico ya está registrado") w1
    | none =>
      let nuevoUsuario : DatosUsuario :=
        { datosUsuario with role := "visitor", dateOfAdmission := w1.fecha }
      match apiService.crearDatos .users nuevoUsuario w1 with
      | (.error error, w2) => alCapturar error w2
      | (.ok usuarioCreado, w2) =>
        (.ok usuarioCreado,
          apiService.mostrarAlerta "Usuario registrado exitosamente" "success" w2)

end autenticacionService

end AuthServiceJs

/-! ## main.js of plantilla_vercel -/

namespace PlantillaMainJs

/-- Source: `showLoading`, lines 311-318. -/
def showLoading (mostrar : Bool) (w : Mundo) : Mundo :=
  { w with dom := { w.dom with loadingSpinnerOculto := !mostrar } }

/-- Source: `showAlert`, lines 320-336 (the removal after three seconds is
not part of the model). -/
def showAlert (message : String) (type : String) (w : Mundo) : Mundo :=
  { w with alertas := w.alertas ++ [{ mensaje := message, tipo := type }] }

namespace storage

/-- Source: `storage.setLocal`, lines 21-23. -/
def setLocal (key : String) (value : ValorJson) (w : Mundo) : Mundo :=
  { w with localStorage := w.localStorage.setItem key value }

/-- Source: `storage.getLocal`, lines 26-29 (`item ? JSON.parse(item) : null`). -/
def getLocal (key : String) (w : Mundo) : ValorJson :=
  match w.localStorage.getItem key with
  | some item => item
  | none => .nulo

/-- Source: `storage.removeLocal`, lines 32-34. -/
def removeLocal (key : String) (w : Mundo) : Mundo :=
  { w with localStorage := w.localStorage.removeItem key }

/-- Source: `storage.setSession`, lines 37-39. -/
def setSession (key : String) (value : ValorJson) (w : Mundo) : Mundo :=
  { w with sessionStorage := w.sessionStorage.setItem key value }

/-- Source: `storage.getSession`, lines 42-45. -/
def getSession (key : String) (w : Mundo) : ValorJson :=
  match w.sessionStorage.getItem key with
  | some item => item
  | none => .nulo

/-- Source: `storage.removeSession`, lines 48-50. -/
def removeSession (key : String) (w : Mundo) : Mundo :=
  { w with sessionStorage := w.sessionStorage.removeItem key }

end storage

namespace apiService

/-- The common body of `get`, `post`, `put` and `delete` (lines 56-131):
show the spinner, `fetch`, throw `new Error("Error " + status)` on a
non-success status, otherwise return the value `json` computes from the
answer; the `catch` shows the alert `alerta` and rethrows, the `finally`
hides the spinner. -/
def solicitar {α : Type} (p : Peticion) (json : Servidor → α) (alerta : String)
    (w : Mundo) : Except Fallo α × Mundo :=
  let w1 := showLoading true w
  match fetch p w1 with
  | (.sinConexion, w2) =>
    (.error .sinConexion, showLoading false (showAlert alerta "error" w2))
  | (.estado status, w2) =>
    if (Respuesta.estado status).ok then (.ok (json w2.servidor), showLoading false w2)
    else
      (.error (.http status ("Error " ++ toString status)),
        showLoading false (showAlert alerta "error" w2))

/-- Source: `apiService.get`, lines 56-69. -/
def get (r : Recurso) (w : Mundo) : Except Fallo (List r.Registro) × Mundo :=
  solicitar (.get r) (fun s => s.tabla r) "Error al cargar los datos" w

/-- Source: `apiService.post`, lines 72-91.  The answer is the created record. -/
def post (r : Recurso) (data : r.Datos) (w : Mundo) : Except Fallo r.Registro × Mundo :=
  solicitar (.post r (r.cuerpo data))
    (fun _ => r.registro (w.servidor.idNuevo r) data) "Error al guardar los datos" w

/-- Source: `apiService.put`, lines 94-113.  The answer is the updated record. -/
def put (r : Recurso) (id : Int) (data : r.Datos) (w : Mundo) :
    Except Fallo r.Registro × Mundo :=
  solicitar (.put r id (r.cuerpo data))
    (fun _ => r.registro id data) "Error al actualizar los datos" w

/-- Source: `apiService.delete`, lines 116-131. -/
def delete (r : Recurso) (id : Int) (w : Mundo) : Except Fallo Bool × Mundo :=
  solicitar (.delete r id) (fun _ => true) "Error al eliminar los datos" w

/-- Source: `apiService.mostrarAlerta`, lines 133-149 (the removal after three
seconds is not part of the model). -/
def mostrarAlerta (message : String) (type : String) (w : Mundo) : Mundo :=
  { w with alertas := w.alertas ++ [{ mensaje := message, tipo := type }] }

end apiService

namespace autenticacionService

/-- Source: `autenticacionService.iniciarSesion`, lines 155-175. -/
def iniciarSesion (email password : String) (w : Mundo) : Except Fallo User × Mundo :=
  match apiService.get .users w with
  | (.error e, w1) => (.error e, w1)
  | (.ok users, w1) =>
    match users.find? (fun u => u.email == email && u.password == password) with
    | some user =>
      let w2 := storage.setLocal "currentUser" (.usuario user) w1
      let w3 := storage.setSession "isAuthenticated" (.booleano true) w2
      let w4 : Mundo := { w3 with
        estadoAplicacion := { w3.estadoAplicacion with
          usuarioActual := some user, estaAutenticado := true },
        appState := { w3.appState with isAuthenticated := true, currentUser := some user } }
      (.ok user, apiService.mostrarAlerta "Inicio de sesión exitoso" "success" w4)
    | none => (.error (.mensaje "Credenciales inválidas"), w1)

/-- Source: `autenticacionService.registrarUsuario`, lines 178-197. -/
def registrarUsuario (userData : DatosUsuario) (w : Mundo) : Except Fallo User × Mundo :=
  match apiService.get .users w with
  | (.error e, w1) => (.error e, w1)
  | (.ok users, w1) =>
    match users.find? (fun u => u.email == userData.email) with
    | some _ => (.error (.mensaje "El email ya está registrado"), w1)
    | none =>
      let newUser : DatosUsuario :=
        { userData with role := "visitor", dateOfAdmission := w1.fecha }
      match apiService.post .users newUser w1 with
      | (.error e, w2) => (.error e, w2)
      | (.ok createdUser, w2) =>
        (.ok createdUser, apiService.mostrarAlerta "Usuario registrado exitosamente" "success" w2)

end autenticacionService

namespace navegacionService

/-- Source: `esUsuarioAdministrador`, lines 1352-1354. -/
def esUsuarioAdministrador (w : Mundo) : Bool :=
  match w.estadoAplicacion.usuarioActual with
  | some u => u.role == "admin"
  | none => false

/-- Source: `actualizarEnlaceActivo`, lines 1341-1349. -/
def actualizarEnlaceActivo (w : Mundo) : Mundo :=
  { w with dom := { w.dom with
      enlaces := w.dom.enlaces.map (fun enlace =>
        { enlace with activo := enlace.href == w.estadoAplicacion.rutaActual }) } }

/-- Source: `actualizarInterfazUsuario`, lines 1306-1338.  Reading
`usuarioActual.name` of a `null` user raises a `TypeError`. -/
def actualizarInterfazUsuario (w : Mundo) : Except Fallo Mundo :=
  if w.estadoAplicacion.estaAutenticado then
    match w.estadoAplicacion.usuarioActual with
    | none => .error .typeError
    | some u =>
      let w1 : Mundo := { w with dom := { w.dom with
        headerOculto := false, sidebarOculto := false, mainFullWidth := false,
        userWelcome := "Bienvenido, " ++ u.name } }
      let w2 : Mundo :=
        if esUsuarioAdministrador w1 then
          { w1 with dom := { w1.dom with
              usersNavItemOculto := false, enrollmentsNavItemOculto := true } }
        else
          { w1 with dom := { w1.dom with
              usersNavItemOculto := true, enrollmentsNavItemOculto := false } }
      .ok (actualizarEnlaceActivo w2)
  else
    .ok { w with dom := { w.dom with
      headerOculto := true, sidebarOculto := true, mainFullWidth := true } }

/-- The first two statements of `navegarA` (lines 1252-1253): push the
history entry and set `appState.currentRoute`. -/
def fijarRuta (ruta : String) (w : Mundo) : Mundo :=
  let w1 := pushState ruta w
  { w1 with appState := { w1.appState with currentRoute := ruta } }

/-- Source: `renderizarContenido`, lines 1258-1303.  The calls
`this.navegarA(r)` in its body are `fijarRuta r` followed by the recursive
call.  The first argument bounds the number of nested calls; `none` means the
bound was reached. -/
def renderizarContenido : Nat → Mundo → Option (Except Fallo Mundo)
  | 0, _ => none
  | n + 1, w =>
    let ruta := w.appState.currentRoute
    let esAutenticado := w.appState.isAuthenticated
    if !esAutenticado && ruta != "/login" && ruta != "/register" then
      renderizarContenido n (fijarRuta "/login" w)
    else
      match actualizarInterfazUsuario w with
      | .error e => some (.error e)
      | .ok w1 =>
        if ruta = "/login" then some (.ok (renderizar .login w1))
        else if ruta = "/register" then some (.ok (renderizar .registro w1))
        else if ruta = "/" ∨ ruta = "/dashboard" then some (.ok (renderizar .dashboard w1))
        else if ruta = "/users" then
          if esUsuarioAdministrador w1 then some (.ok (renderizar .usuarios w1))
          else renderizarContenido n (fijarRuta "/" w1)
        else if ruta = "/courses" then some (.ok (renderizar .cursos w1))
        else if ruta = "/enrollments" then
          if !esUsuarioAdministrador w1 then some (.ok (renderizar .inscripciones w1))
          else renderizarContenido n (fijarRuta "/" w1)
        else some (.ok (renderizar .pagina404 w1))

/-- Source: `navegarA`, lines 1251-1255. -/
def navegarA (n : Nat) (ruta : String) (w : Mundo) : Option (Except Fallo Mundo) :=
  renderizarContenido n (fijarRuta ruta w)

end navegacionService

end PlantillaMainJs

/-! ## main.js of explicacion

An object literal that defines a method twice keeps the last definition, so
the methods of `inscripcionService` and `cursoService` that run are those of
lines 696-720 and 623-645.  They call `apiService.get`, `apiService.post` and
`apiService.delete`.  The object `apiService` of this file (lines 174-306)
defines `realizarPeticionHttp`, `obtenerDatos`, `crearDatos`,
`actualizarDatos`, `eliminarDatos`, `mostrarIndicadorCarga` and `mostrarAlerta`
and nothing else, and no statement of the file adds a property to it: the
three names are `undefined`, and calling one raises a `TypeError` before any
request is made. -/

namespace ExplicacionMainJs

namespace apiService

/-- The call `apiService.get(endpoint)` (lines 624, 697): the object has no
property `get`, so the call raises a `TypeError` and nothing else happens. -/
def get (r : Recurso) (w : Mundo) : Except Fallo (List r.Registro) × Mundo :=
  (.error .typeError, w)

/-- The call `apiService.post(endpoint, data)` (line 708): the object has no
property `post`, so the call raises a `TypeError` and nothing else happens;
the argument is evaluated and dropped. -/
def post (r : Recurso) (_data : r.Datos) (w : Mundo) : Except Fallo r.Registro × Mundo :=
  (.error .typeError, w)

/-- The call `apiService.delete(endpoint)` (lines 639, 713): the object has no
property `delete`, so the call raises a `TypeError` and nothing else
happens. -/
def delete (_r : Recurso) (_id : Int) (w : Mundo) : Except Fallo Bool × Mundo :=
  (.error .typeError, w)

/-- Source: `apiService.mostrarAlerta`, lines 289-305, the later of the two
definitions (the removal after three seconds is not part of the model). -/
def mostrarAlerta (message : String) (type : String) (w : Mundo) : Mundo :=
  { w with alertas := w.alertas ++ [{ mensaje := message, tipo := type }] }

end apiService

namespace inscripcionService

/-- Source: `obtenerTodasLasInscripciones`, lines 696-698. -/
def obtenerTodasLasInscripciones (w : Mundo) : Except Fallo (List Enrollment) × Mundo :=
  apiService.get .enrollments w

/-- Source: `inscribirUsuarioEnCurso`, lines 701-709. -/
def inscribirUsuarioEnCurso (userId courseId : Int) (w : Mundo) :
    Except Fallo Enrollment × Mundo :=
  let enrollmentData : DatosInscripcion :=
    { userId := userId, courseId := courseId, enrollmentDate := w.fecha, status := "active" }
  apiService.post .enrollments enrollmentData w

/-- Source: `cancelarInscripcion`, lines 712-714. -/
def cancelarInscripcion (enrollmentId : Int) (w : Mundo) : Except Fallo Bool × Mundo :=
  apiService.delete .enrollments enrollmentId w

/-- Source: `obtenerInscripcionesDeUsuario`, lines 717-720. -/
def obtenerInscripcionesDeUsuario (userId : Int) (w : Mundo) :
    Except Fallo (List Enrollment) × Mundo :=
  match obtenerTodasLasInscripciones w with
  | (.error e, w1) => (.error e, w1)
  | (.ok enrollments, w1) => (.ok (enrollments.filter (fun e => e.userId == userId)), w1)

/-- Source: `verificarInscripcionUsuario`, lines 687-693. -/
def verificarInscripcionUsuario (idUsuario idCurso : Int) (w : Mundo) :
    Except Fallo Bool × Mundo :=
  match obtenerInscripcionesDeUsuario idUsuario w with
  | (.error e, w1) => (.error e, w1)
  | (.ok inscripcionesUsuario, w1) =>
    (.ok (inscripcionesUsuario.any (fun inscripcion => inscripcion.courseId == idCurso)), w1)

end inscripcionService

namespace cursoService

/-- Source: `obtenerTodosLosCursos`, lines 623-625. -/
def obtenerTodosLosCursos (w : Mundo) : Except Fallo (List Course) × Mundo :=
  apiService.get .courses w

/-- Source: `eliminarCurso`, lines 638-640. -/
def eliminarCurso (id : Int) (w : Mundo) : Except Fallo Bool × Mundo :=
  apiService.delete .courses id w

/-- Source: `obtenerCursoPorId`, lines 642-645; `none` is `undefined`. -/
def obtenerCursoPorId (idCurso : Int) (w : Mundo) : Except Fallo (Option Course) × Mundo :=
  match obtenerTodosLosCursos w with
  | (.error e, w1) => (.error e, w1)
  | (.ok cursos, w1) => (.ok (cursos.find? (fun curso => curso.id == idCurso)), w1)

end cursoService

namespace renderizadorPaginas

/-- The call `renderizadorPaginas.cargarYMostrarCursos()` that ends a CRUD
handler: the course list is asked to reload.  The call is not awaited; its
own requests (reads of `/courses` and `/enrollments`) are not part of the
model. -/
def cargarYMostrarCursos (w : Mundo) : Mundo :=
  { w with recargas := w.recargas ++ [Vista.cursos] }

end renderizadorPaginas

namespace gestorCrud

/-- The loop of `confirmarEliminacionCurso`, lines 2182-2184: cancel the
enrollments one after the other; the first rejected request ends the loop. -/
def cancelarCadaInscripcion : List Enrollment → Mundo → Except Fallo Unit × Mundo
  | [], w => (.ok (), w)
  | inscripcion :: resto, w =>
    match inscripcionService.cancelarInscripcion inscripcion.id w with
    | (.error e, w1) => (.error e, w1)
    | (.ok _, w1) => cancelarCadaInscripcion resto w1

/-- Source: `gestorCrud.confirmarEliminacionCurso`, lines 2164-2202.  The
argument `confirmacion` is the answer of the `confirm` dialog; an error caught
by the `catch` block only goes to the console. -/
def confirmarEliminacionCurso (confirmacion : Bool) (idCurso : Int) (w : Mundo) : Mundo :=
  if confirmacion then
    match inscripcionService.obtenerTodasLasInscripciones w with
    | (.error _, w1) => w1
    | (.ok todasLasInscripciones, w1) =>
      let inscripcionesDelCurso :=
        todasLasInscripciones.filter (fun inscripcion => inscripcion.courseId == idCurso)
      match cancelarCadaInscripcion inscripcionesDelCurso w1 with
      | (.error _, w2) => w2
      | (.ok _, w2) =>
        match cursoService.eliminarCurso idCurso w2 with
        | (.error _, w3) => w3
        | (.ok _, w3) =>
          renderizadorPaginas.cargarYMostrarCursos
            (apiService.mostrarAlerta
              ("Curso eliminado exitosamente junto con " ++
                toString inscripcionesDelCurso.length ++ " inscripciones")
              "success" w3)
  else w

/-- Source: `gestorCrud.procesarInscripcionEnCurso`, lines 2207-2244.  Reading
`.id` of a `null` user or `.capacity` of an `undefined` course raises a
`TypeError` inside the `try`; an error caught by the `catch` block only goes
to the console. -/
def procesarInscripcionEnCurso (idCurso : Int) (w : Mundo) : Mundo :=
  match w.estadoAplicacion.usuarioActual with
  | none => w
  | some usuarioActual =>
    match inscripcionService.verificarInscripcionUsuario usuarioActual.id idCurso w with
    | (.error _, w1) => w1
    | (.ok yaEstaInscrito, w1) =>
      if yaEstaInscrito then
        apiService.mostrarAlerta "Ya estás inscrito en este curso" "warning" w1
      else
        match cursoService.obtenerCursoPorId idCurso w1 with
        | (.error _, w2) => w2
        | (.ok informacionCurso, w2) =>
          match inscripcionService.obtenerTodasLasInscripciones w2 with
          | (.error _, w3) => w3
          | (.ok todasLasInscripciones, w3) =>
            let inscripcionesEnCurso : Int :=
              (todasLasInscripciones.filter
                (fun inscripcion => inscripcion.courseId == idCurso)).length
            match informacionCurso with
            | none => w3
            | some curso =>
              if inscripcionesEnCurso ≥ curso.capacity then
                apiService.mostrarAlerta "Este curso ya alcanzó su capacidad máxima" "warning" w3
              else
                match inscripcionService.inscribirUsuarioEnCurso usuarioActual.id idCurso w3 with
                | (.error _, w4) => w4
                | (.ok _, w4) =>
                  renderizadorPaginas.cargarYMostrarCursos
                    (apiService.mostrarAlerta "¡Inscripción realizada exitosamente!" "success" w4)

end gestorCrud

end ExplicacionMainJs

/-! ## Session restore and logout -/

/-- JavaScript truthiness of a parsed JSON document: an object is truthy,
`null` is falsy, a boolean is its own value. -/
def ValorJson.truthy : ValorJson → Bool
  | .usuario _ => true
  | .booleano b => b
  | .nulo => false

/-- The user record that a parsed JSON document is, if it is one.  The typed
session holds a user record or nothing: a truthy document of another shape
under the key of the user is outside the persisted layout and is kept as
nothing. -/
def ValorJson.comoUsuario : ValorJson → Option User
  | .usuario u => some u
  | _ => none

/-- The persisted state layout of section 6 of the spec: whatever the durable
store holds under the key of the user is not a boolean, and whatever the
session store holds under the key of the flag is not a user record. -/
def Mundo.layoutValido (w : Mundo) (claveUsuario claveFlag : String) : Bool :=
  (match w.localStorage.getItem claveUsuario with
    | some (.booleano _) => false
    | _ => true) &&
  (match w.sessionStorage.getItem claveFlag with
    | some (.usuario _) => false
    | _ => true)

namespace PlantillaMainJs

namespace autenticacionService

/-- Source: `autenticacionService.cerrarSesion`, lines 200-209.  The first
argument bounds the nested calls of the router. -/
def cerrarSesion (n : Nat) (w : Mundo) : Option (Except Fallo Mundo) :=
  let w1 := storage.removeLocal "currentUser" w
  let w2 := storage.removeSession "isAuthenticated" w1
  let w3 : Mundo := { w2 with
    estadoAplicacion := { w2.estadoAplicacion with
      usuarioActual := none, estaAutenticado := false },
    appState := { w2.appState with isAuthenticated := false, currentUser := none } }
  match navegacionService.navegarA n "/login" w3 with
  | none => none
  | some (.error e) => some (.error e)
  | some (.ok w4) => some (.ok (apiService.mostrarAlerta "Sesión cerrada" "success" w4))

/-- Source: `autenticacionService.verificarAutenticacion`, lines 212-224. -/
def verificarAutenticacion (w : Mundo) : Bool × Mundo :=
  let user := storage.getLocal "currentUser" w
  let isAuth := storage.getSession "isAuthenticated" w
  if user.truthy && isAuth.truthy then
    (true, { w with
      estadoAplicacion := { w.estadoAplicacion with
        usuarioActual := user.comoUsuario, estaAutenticado := true },
      appState := { w.appState with isAuthenticated := true, currentUser := user.comoUsuario } })
  else (false, w)

end autenticacionService

namespace cursoService

/-- Source: `cursoService.obtenerTodosLosCursos`, lines 256-258. -/
def obtenerTodosLosCursos (w : Mundo) : Except Fallo (List Course) × Mundo :=
  apiService.get .courses w

/-- Source: `cursoService.eliminarCurso`, lines 271-273. -/
def eliminarCurso (id : Int) (w : Mundo) : Except Fallo Bool × Mundo :=
  apiService.delete .courses id w

end cursoService

namespace inscripcionService

/-- Source: `inscripcionService.obtenerTodasLasInscripciones`, lines 283-285. -/
def obtenerTodasLasInscripciones (w : Mundo) : Except Fallo (List Enrollment) × Mundo :=
  apiService.get .enrollments w

/-- Source: `inscripcionService.inscribirUsuarioEnCurso`, lines 288-296. -/
def inscribirUsuarioEnCurso (userId courseId : Int) (w : Mundo) :
    Except Fallo Enrollment × Mundo :=
  let enrollmentData : DatosInscripcion :=
    { userId := userId, courseId := courseId, enrollmentDate := w.fecha, status := "active" }
  apiService.post .enrollments enrollmentData w

/-- Source: `inscripcionService.cancelarInscripcion`, lines 299-301. -/
def cancelarInscripcion (enrollmentId : Int) (w : Mundo) : Except Fallo Bool × Mundo :=
  apiService.delete .enrollments enrollmentId w

/-- Source: `inscripcionService.obtenerInscripcionesDeUsuario`, lines 304-307. -/
def obtenerInscripcionesDeUsuario (userId : Int) (w : Mundo) :
    Except Fallo (List Enrollment) × Mundo :=
  match obtenerTodasLasInscripciones w with
  | (.error e, w1) => (.error e, w1)
  | (.ok enrollments, w1) => (.ok (enrollments.filter (fun e => e.userId == userId)), w1)

end inscripcionService

namespace renderizadorPaginas

/-- The call `renderizadorPaginas.cargarListaCursos()` that ends a CRUD
handler: the course list is asked to reload.  The call is not awaited; its
own requests (reads of `/courses` and `/enrollments`) are not part of the
model. -/
def cargarListaCursos (w : Mundo) : Mundo :=
  { w with recargas := w.recargas ++ [Vista.cursos] }

end renderizadorPaginas

namespace gestorCrud

/-- Source: `gestorCrud.eliminarCurso`, lines 987-997.  The argument
`confirmacion` is the answer of the `confirm` dialog; an error caught by the
`catch` block only goes to the console. -/
def eliminarCurso (confirmacion : Bool) (idCurso : Int) (w : Mundo) : Mundo :=
  if confirmacion then
    match cursoService.eliminarCurso idCurso w with
    | (.error _, w1) => w1
    | (.ok _, w1) =>
      renderizadorPaginas.cargarListaCursos
        (apiService.mostrarAlerta "Curso eliminado exitosamente" "success" w1)
  else w

/-- Source: `gestorCrud.inscribirEnCurso`, lines 1000-1008.  Reading `.id` of
a `null` user raises a `TypeError` inside the `try`; an error caught by the
`catch` block only goes to the console. -/
def inscribirEnCurso (idCurso : Int) (w : Mundo) : Mundo :=
  match w.estadoAplicacion.usuarioActual with
  | none => w
  | some usuarioActual =>
    match inscripcionService.inscribirUsuarioEnCurso usuarioActual.id idCurso w with
    | (.error _, w1) => w1
    | (.ok _, w1) =>
      renderizadorPaginas.cargarListaCursos
        (apiService.mostrarAlerta "Inscripción realizada exitosamente" "success" w1)

end gestorCrud

end PlantillaMainJs

namespace AuthServiceJs

open ApiServiceJs StorageServiceJs

namespace autenticacionService

/-- Source: `autenticacionService.cerrarSesion`, lines 62-69.  The injected
`navegacionService` is the one of navigation-service.js; the first argument
bounds the nested calls of the router. -/
def cerrarSesion (n : Nat) (w : Mundo) : Option (Except Fallo Mundo) :=
  let w1 := almacenamientoService.eliminarDeLocal "usuarioActual" w
  let w2 := almacenamientoService.eliminarDeSesion "estaAutenticado" w1
  let w3 : Mundo := { w2 with
    estadoAplicacion := { w2.estadoAplicacion with
      usuarioActual := none, estaAutenticado := false } }
  match NavigationServiceJs.navegacionService.navegarA n "/login" w3 with
  | none => none
  | some (.error e) => some (.error e)
  | some (.ok w4) =>
    some (.ok (apiService.mostrarAlerta "Sesión cerrada exitosamente" "success" w4))

/-- Source: `autenticacionService.verificarAutenticacion`, lines 72-82. -/
def verificarAutenticacion (w : Mundo) : Bool × Mundo :=
  let usuario := almacenamientoService.obtenerDeLocal "usuarioActual" w
  let estaAutenticado := almacenamientoService.obtenerDeSesion "estaAutenticado" w
  if usuario.truthy && estaAutenticado.truthy then
    (true, { w with
      estadoAplicacion := { w.estadoAplicacion with
        usuarioActual := usuario.comoUsuario, estaAutenticado := true } })
  else (false, w)

end autenticacionService

end AuthServiceJs

/-! ## services/enrollment-service.js of explicacion

The module `./apiService` that the file requires has the methods of
`api-service.js`. -/

namespace EnrollmentServiceJs

open ApiServiceJs

namespace inscripcionService

/-- Source: `obtenerTodasLasInscripciones`, lines 7-9. -/
def obtenerTodasLasInscripciones (w : Mundo) : Except Fallo (List Enrollment) × Mundo :=
  apiService.obtenerDatos .enrollments w

/-- Source: `inscribirUsuarioEnCurso`, lines 12-20. -/
def inscribirUsuarioEnCurso (idUsuario idCurso : Int) (w : Mundo) :
    Except Fallo Enrollment × Mundo :=
  let datosInscripcion : DatosInscripcion :=
    { userId := idUsuario, courseId := idCurso, enrollmentDate := w.fecha,
      status := "active" }
  apiService.crearDatos .enrollments datosInscripcion w

/-- Source: `cancelarInscripcion`, lines 23-25. -/
def cancelarInscripcion (idInscripcion : Int) (w : Mundo) : Except Fallo Unit × Mundo :=
  apiService.eliminarDatos .enrollments idInscripcion w

/-- Source: `obtenerInscripcionesDeUsuario`, lines 28-31. -/
def obtenerInscripcionesDeUsuario (idUsuario : Int) (w : Mundo) :
    Except Fallo (List Enrollment) × Mundo :=
  match obtenerTodasLasInscripciones w with
  | (.error e, w1) => (.error e, w1)
  | (.ok inscripciones, w1) =>
    (.ok (inscripciones.filter (fun inscripcion => inscripcion.userId == idUsuario)), w1)

/-- Source: `verificarInscripcionUsuario`, lines 34-37. -/
def verificarInscripcionUsuario (idUsuario idCurso : Int) (w : Mundo) :
    Except Fallo Bool × Mundo :=
  match obtenerInscripcionesDeUsuario idUsuario w with
  | (.error e, w1) => (.error e, w1)
  | (.ok inscripciones, w1) =>
    (.ok (inscripciones.any (fun inscripcion => inscripcion.courseId == idCurso)), w1)

end inscripcionService

end EnrollmentServiceJs

/-! ## Form validation

Strings are sequences of Unicode characters.  The white space of JavaScript
lies in the basic plane, so a regular expression without the flag `u` that
only tests for white space, "@" and "." accepts the same strings whether it
reads characters or UTF-16 code units; the property `length` counts code
units. -/

/-- The characters of the class `\s` of a regular expression; `trim` removes
the same characters (WhiteSpace and LineTerminator of ECMAScript). -/
def esEspacio (c : Char) : Bool :=
  let n := c.toNat
  n == 0x09 || n == 0x0A || n == 0x0B || n == 0x0C || n == 0x0D || n == 0x20 ||
  n == 0xA0 || n == 0x1680 || (decide (0x2000 ≤ n) && decide (n ≤ 0x200A)) ||
  n == 0x2028 || n == 0x2029 || n == 0x202F || n == 0x205F || n == 0x3000 || n == 0xFEFF

/-- The method `trim` of a string. -/
def trim (s : String) : String :=
  String.mk ((s.data.dropWhile esEspacio).reverse.dropWhile esEspacio).reverse

/-- The property `length` of a string: its number of UTF-16 code units. -/
def longitud (s : String) : Nat :=
  (s.data.map (fun c => if c.toNat < 0x10000 then 1 else 2)).sum

/-- A form object: property names with their string values. -/
abbrev Formulario := List (String × String)

/-- The property read `datos[campo]`; `none` is `undefined`. -/
def Formulario.campo (datos : Formulario) (campo : String) : Option String :=
  List.lookup campo datos

/-- Backtracking matchers of regular expressions: a matcher takes the rest of
the input and answers whether the rest of the pattern matches it. -/
abbrev Coincidencia := List Char → Bool

namespace Patron

/-- The pattern `[clase]+` followed by the pattern `resto`. -/
def unoOMas (clase : Char → Bool) (resto : Coincidencia) : Coincidencia
  | [] => false
  | c :: cs => clase c && (unoOMas clase resto cs || resto cs)

/-- A literal character followed by the pattern `resto`. -/
def literal (c : Char) (resto : Coincidencia) : Coincidencia
  | [] => false
  | d :: ds => d == c && resto ds

/-- The assertion `$` (without the flag `m`): the input ends here. -/
def fin : Coincidencia
  | [] => true
  | _ :: _ => false

/-- The class `[^\s@]`. -/
def niEspacioNiArroba (c : Char) : Bool :=
  !esEspacio c && c != '@'

/-- The regular expression `/^[^\s@]+@[^\s@]+\.[^\s@]+$/`, which the three
email validators of the repository use. -/
def correo : Coincidencia :=
  unoOMas niEspacioNiArroba (literal '@'
    (unoOMas niEspacioNiArroba (literal '.' (unoOMas niEspacioNiArroba fin))))

end Patron

namespace ValidationUtilsJs

namespace validacionUtils

/-- Source: `validarCorreoElectronico`, lines 4-7 of validation-utils.js. -/
def validarCorreoElectronico (correo : String) : Bool :=
  Patron.correo correo.data

/-- Source: `validarCamposRequeridos`, lines 10-20. -/
def validarCamposRequeridos (datosFormulario : Formulario) (camposRequeridos : List String) :
    List String :=
  camposRequeridos.foldl (fun erroresEncontrados campo =>
    if (match datosFormulario.campo campo with
        | none => true
        | some valor => valor == "" || trim valor == "") then
      erroresEncontrados ++ ["El campo " ++ campo ++ " es requerido"]
    else erroresEncontrados) []

/-- Source: `validarFormularioCompleto`, lines 23-37. -/
def validarFormularioCompleto (datosFormulario : Formulario) (camposRequeridos : List String) :
    List String :=
  let errores := validarCamposRequeridos datosFormulario camposRequeridos
  let errores1 :=
    match datosFormulario.campo "email" with
    | none => errores
    | some email =>
      if email != "" && !validarCorreoElectronico email then
        errores ++ ["El formato del correo electrónico no es válido"]
      else errores
  match datosFormulario.campo "password" with
  | none => errores1
  | some password =>
    if password != "" && decide (longitud password < 6) then
      errores1 ++ ["La contraseña debe tener al menos 6 caracteres"]
    else errores1

end validacionUtils

end ValidationUtilsJs

namespace PlantillaMainJs

/-- Source: `validateEmail`, lines 338-341 of main.js. -/
def validateEmail (email : String) : Bool :=
  Patron.correo email.data

namespace validacionUtils

/-- Source: `validacionUtils.validarCorreoElectronico`, lines 1360-1363. -/
def validarCorreoElectronico (email : String) : Bool :=
  Patron.correo email.data

/-- Source: `validacionUtils.validarCampoRequerido`, lines 1366-1368
(`valor && valor.trim() !== ""`, read as a condition). -/
def validarCampoRequerido (valor : Option String) : Bool :=
  match valor with
  | none => false
  | some valor => valor != "" && trim valor != ""

/-- Source: `validacionUtils.validarFormularioCompleto`, lines 1371-1385. -/
def validarFormularioCompleto (datos : Formulario) (camposRequeridos : List String) :
    List String :=
  let errores := camposRequeridos.foldl (fun errores campo =>
    if !validarCampoRequerido (datos.campo campo) then
      errores ++ ["El campo " ++ campo ++ " es requerido"]
    else errores) []
  match datos.campo "email" with
  | none => errores
  | some email =>
    if email != "" && !validarCorreoElectronico email then
      errores ++ ["El email no tiene un formato válido"]
    else errores

end validacionUtils

namespace manejadorEventos

/-- The inputs of the registration form (lines 490-528), as `FormData` reads
them. -/
structure FormularioRegistro where
  name : String
  email : String
  password : String
  phone : String
  enrollNumber : String
deriving DecidableEq

/-- The object `datosUsuario` that `manejarRegistro` builds (lines 930-936). -/
def datosUsuario (f : FormularioRegistro) : Formulario :=
  [("name", f.name), ("email", f.email), ("password", f.password), ("phone", f.phone),
   ("enrollNumber", f.enrollNumber)]

/-- The separator-joined text `errores.join(", ")`. -/
def unir (errores : List String) : String :=
  ", ".intercalate errores

/-- Source: `manejadorEventos.manejarRegistro`, lines 926-958.  The first
argument bounds the nested calls of the router; an error caught by the `catch`
block only goes to the console. -/
def manejarRegistro (n : Nat) (f : FormularioRegistro) (w : Mundo) :
    Option (Except Fallo Mundo) :=
  let erroresValidacion := validacionUtils.validarFormularioCompleto (datosUsuario f)
    ["name", "email", "password", "phone", "enrollNumber"]
  if erroresValidacion.length > 0 then
    some (.ok (apiService.mostrarAlerta (unir erroresValidacion) "error" w))
  else
    match autenticacionService.registrarUsuario
        { name := f.name, email := f.email, password := f.password, role := "",
          phone := f.phone, enrollNumber := f.enrollNumber, dateOfAdmission := "" } w with
    | (.error _, w1) => some (.ok w1)
    | (.ok _, w1) => navegacionService.navegarA n "/login" w1

end manejadorEventos

end PlantillaMainJs

/-- The field is present in the form object and its content is neither empty
nor white space only: it holds a character that is not white space. -/
def Formulario.tieneContenido (datos : Formulario) (campo : String) : Bool :=
  match datos.campo campo with
  | none => false
  | some valor => valor.data.any (fun c => !esEspacio c)

/-! ## main.js of plantilla_vercel: the functions `navigateTo` and `renderContent` -/

namespace PlantillaMainJs

/-- Source: `updateActiveNavLink`, lines 448-456. -/
def updateActiveNavLink (w : Mundo) : Mundo :=
  { w with dom := { w.dom with
      enlaces := w.dom.enlaces.map (fun link =>
        { link with activo := link.href == w.appState.currentRoute }) } }

/-- Source: `updateNavigation`, lines 414-446.  Reading `currentUser.name` of
a `null` user raises a `TypeError`. -/
def updateNavigation (w : Mundo) : Except Fallo Mundo :=
  if w.appState.isAuthenticated then
    match w.appState.currentUser with
    | none => .error .typeError
    | some currentUser =>
      let w1 : Mundo := { w with dom := { w.dom with
        headerOculto := false, sidebarOculto := false, mainFullWidth := false,
        userWelcome := "Bienvenido, " ++ currentUser.name } }
      let w2 : Mundo :=
        if currentUser.role = "admin" then
          { w1 with dom := { w1.dom with
              usersNavItemOculto := false, enrollmentsNavItemOculto := true } }
        else
          { w1 with dom := { w1.dom with
              usersNavItemOculto := true, enrollmentsNavItemOculto := false } }
      .ok (updateActiveNavLink w2)
  else
    .ok { w with dom := { w.dom with
      headerOculto := true, sidebarOculto := true, mainFullWidth := true } }

/-- The condition `appState.currentUser?.role === rol`. -/
def rolActualEs (rol : String) (w : Mundo) : Bool :=
  match w.appState.currentUser with
  | some currentUser => currentUser.role == rol
  | none => false

/-- Source: `renderContent`, lines 367-412.  The calls `navigateTo(p)` in its
body are the first two statements of `navigateTo` (lines 362-363, the same as
those of `navegacionService.navegarA`) followed by the recursive call.  The
first argument bounds the number of nested calls; `none` means the bound was
reached. -/
def renderContent : Nat → Mundo → Option (Except Fallo Mundo)
  | 0, _ => none
  | n + 1, w =>
    let path := w.appState.currentRoute
    if path != "/login" && path != "/register" && !w.appState.isAuthenticated then
      renderContent n (navegacionService.fijarRuta "/login" w)
    else
      match updateNavigation w with
      | .error e => some (.error e)
      | .ok w1 =>
        if path = "/login" then some (.ok (renderizar .login w1))
        else if path = "/register" then some (.ok (renderizar .registro w1))
        else if path = "/" ∨ path = "/dashboard" then some (.ok (renderizar .dashboard w1))
        else if path = "/users" then
          if rolActualEs "admin" w1 then some (.ok (renderizar .usuarios w1))
          else renderContent n (navegacionService.fijarRuta "/" w1)
        else if path = "/courses" then some (.ok (renderizar .cursos w1))
        else if path = "/enrollments" then
          if rolActualEs "visitor" w1 then some (.ok (renderizar .inscripciones w1))
          else renderContent n (navegacionService.fijarRuta "/" w1)
        else some (.ok (renderizar .pagina404 w1))

/-- Source: `navigateTo`, lines 360-365. -/
def navigateTo (n : Nat) (path : String) (w : Mundo) : Option (Except Fallo Mundo) :=
  renderContent n (navegacionService.fijarRuta path w)

end PlantillaMainJs

/-- The hrefs of the navigation links that carry the class `active`. -/
def Dom.enlacesActivos (d : Dom) : List String :=
  (d.enlaces.filter (fun enlace => enlace.activo)).map (fun enlace => enlace.href)

/-! ## Sequences of operations -/

/-- An operation of the session manager of main.js. -/
inductive OperacionSesion
  | iniciarSesion (email password : String)
  | cerrarSesion
  | verificarAutenticacion
deriving DecidableEq

/-- The world after an operation of the session manager of main.js has run to
completion, whether it returned or threw.  The logout navigates to "/login",
which the router renders at once: one call of the router is all it needs. -/
def OperacionSesion.ejecutar (w : Mundo) : OperacionSesion → Mundo
  | .iniciarSesion email password =>
    (PlantillaMainJs.autenticacionService.iniciarSesion email password w).2
  | .cerrarSesion =>
    match PlantillaMainJs.autenticacionService.cerrarSesion 1 w with
    | some (.ok w2) => w2
    | _ => w
  | .verificarAutenticacion => (PlantillaMainJs.autenticacionService.verificarAutenticacion w).2

/-- An operation on the enrollments of explicacion/main.js. -/
inductive OperacionInscripcion
  | procesarInscripcionEnCurso (idCurso : Int)
  | cancelarInscripcion (idInscripcion : Int)
deriving DecidableEq

/-- The world after an operation on the enrollments has run to completion,
whether it returned or threw. -/
def OperacionInscripcion.ejecutar (w : Mundo) : OperacionInscripcion → Mundo
  | .procesarInscripcionEnCurso idCurso =>
    ExplicacionMainJs.gestorCrud.procesarInscripcionEnCurso idCurso w
  | .cancelarInscripcion idInscripcion =>
    (ExplicacionMainJs.inscripcionService.cancelarInscripcion idInscripcion w).2

/-- The (userId, courseId) pairs of the stored enrollments, in list order. -/
def Servidor.paresInscritos (s : Servidor) : List (Int × Int) :=
  s.enrollments.map (fun e => (e.userId, e.courseId))

/-! ## main.js of plantilla_vercel: the user form of the modal -/

namespace PlantillaMainJs

namespace usuarioService

/-- Source: `usuarioService.crearNuevoUsuario`, lines 234-236, with the body
of `apiService.post` (lines 72-91) for the object literal of the user form. -/
def crearNuevoUsuario (userData : DatosFormularioUsuario) (w : Mundo) :
    Except Fallo User × Mundo :=
  apiService.solicitar (.post .users (.usuarioFormulario userData))
    (fun _ => userData.registro (w.servidor.idNuevo .users)) "Error al guardar los datos" w

/-- Source: `usuarioService.actualizarUsuario`, lines 239-241, with the body
of `apiService.put` (lines 94-113) for the object literal of the user form. -/
def actualizarUsuario (id : Int) (userData : DatosFormularioUsuario) (w : Mundo) :
    Except Fallo User × Mundo :=
  apiService.solicitar (.put .users id (.usuarioFormulario userData))
    (fun _ => userData.registro id) "Error al actualizar los datos" w

end usuarioService

namespace renderizadorPaginas

/-- The call `renderizadorPaginas.cargarListaUsuarios()` that ends a CRUD
handler: the user list is asked to reload.  The call is not awaited; its own
request (a read of `/users`) is not part of the model. -/
def cargarListaUsuarios (w : Mundo) : Mundo :=
  { w with recargas := w.recargas ++ [Vista.usuarios] }

end renderizadorPaginas

namespace gestorModales

/-- The inputs of the user form of the modal (lines 1033-1066), as `FormData`
reads them. -/
structure FormularioUsuario where
  name : String
  email : String
  password : String
  role : String
  phone : String
  enrollNumber : String
deriving DecidableEq

/-- Source: `gestorModales.manejarEnvioUsuario`, lines 1099-1131.  The
argument `idUsuario` is `none` for `null`; the condition `if (idUsuario)` holds
for an id other than 0.  The modal that `ocultarModal` hides is not part of
the model; an error caught by the `catch` block only goes to the console. -/
def manejarEnvioUsuario (formulario : FormularioUsuario) (idUsuario : Option Int)
    (w : Mundo) : Mundo :=
  let datosUsuario : DatosFormularioUsuario :=
    { name := formulario.name, email := formulario.email, role := formulario.role,
      phone := formulario.phone, enrollNumber := formulario.enrollNumber,
      password := if formulario.password != "" then some formulario.password else none }
  let actualizar (id : Int) : Mundo :=
    match usuarioService.actualizarUsuario id datosUsuario w with
    | (.error _, w1) => w1
    | (.ok _, w1) =>
      renderizadorPaginas.cargarListaUsuarios
        (apiService.mostrarAlerta "Usuario actualizado exitosamente" "success" w1)
  let crear : Mundo :=
    match usuarioService.crearNuevoUsuario datosUsuario w with
    | (.error _, w1) => w1
    | (.ok _, w1) =>
      renderizadorPaginas.cargarListaUsuarios
        (apiService.mostrarAlerta "Usuario creado exitosamente" "success" w1)
  match idUsuario with
  | some id => if id ≠ 0 then actualizar id else crear
  | none => crear

end gestorModales

end PlantillaMainJs

/-! ## Sample data -/

/-- The administrator of the sample backend. -/
def usuarioAdmin : User :=
  { id := 1, name := "Admin", email := "admin@admin.com", password := "admin123",
    role := "admin", phone := "3000000000", enrollNumber := "0001",
    dateOfAdmission := "1/1/2024" }

/-- A visitor of the sample backend. -/
def usuarioJuan : User :=
  { id := 2, name := "Juan", email := "juan@email.com", password := "123456",
    role := "visitor", phone := "3001112233", enrollNumber := "0002",
    dateOfAdmission := "2/1/2024" }

/-- A sample backend: two users, two courses, one enrollment. -/
def servidorEjemplo : Servidor :=
  { users := [usuarioAdmin, usuarioJuan],
    courses :=
      [{ id := 1, title := "JavaScript", description := "Intro", instructor := "Ana",
         startDate := "2024-02-01", duration := "4 semanas", capacity := 1 },
       { id := 2, title := "HTML", description := "Intro", instructor := "Luis",
         startDate := "2024-03-01", duration := "2 semanas", capacity := 5 }],
    enrollments :=
      [{ id := 1, userId := 2, courseId := 1, enrollmentDate := "3/1/2024",
         status := "active" }] }

/-- The world when the script has just been loaded: the initial values of
`estadoAplicacion` and `appState`, empty stores, nothing rendered. -/
def mundoInicial : Mundo :=
  { estadoAplicacion := { usuarioActual := none, rutaActual := "/", estaAutenticado := false },
    appState := { currentRoute := "/", isAuthenticated := false, currentUser := none },
    localStorage := [],
    sessionStorage := [],
    dom := { headerOculto := true, sidebarOculto := true, mainFullWidth := true,
             userWelcome := "", usersNavItemOculto := false,
             enrollmentsNavItemOculto := false, loadingSpinnerOculto := true,
             enlaces := [{ href := "/", activo := false }, { href := "/users", activo := false },
                         { href := "/courses", activo := false },
                         { href := "/enrollments", activo := false }] },
    historial := [],
    vistas := [],
    alertas := [],
    recargas := [],
    servidor := servidorEjemplo,
    red := [],
    peticiones := [],
    fecha := "6/11/2026" }

/-- The initial world with the session of the given user open. -/
def mundoConSesion (u : User) : Mundo :=
  { mundoInicial with
    estadoAplicacion := { usuarioActual := some u, rutaActual := "/", estaAutenticado := true },
    appState := { currentRoute := "/", isAuthenticated := true, currentUser := some u } }

/-- The initial world standing on the given route. -/
def mundoEnRuta (ruta : String) : Mundo :=
  { mundoInicial with
    estadoAplicacion := { mundoInicial.estadoAplicacion with rutaActual := ruta },
    appState := { mundoInicial.appState with currentRoute := ruta } }

/-- A registration form filled by somebody who asks for the role "admin". -/
def datosRegistroAna : DatosUsuario :=
  { name := "Ana", email := "ana@email.com", password := "secreto", role := "admin",
    phone := "3009998877", enrollNumber := "0003", dateOfAdmission := "" }

/-- The session of the administrator with a network that answers the first
request and rejects the second with status 500. -/
def mundoSegundaFalla : Mundo :=
  { mundoConSesion usuarioAdmin with red := [.estado 200, .estado 500] }

/-- A world whose stores hold the session of the visitor, as a login leaves
them, while the in-memory session is still the initial one (a page reload). -/
def mundoRecargado : Mundo :=
  { mundoInicial with
    localStorage := [("currentUser", .usuario usuarioJuan), ("usuarioActual", .usuario usuarioJuan)],
    sessionStorage := [("isAuthenticated", .booleano true), ("estaAutenticado", .booleano true)] }

/-- The session of the visitor standing on a route that no view answers. -/
def mundoRutaDesconocida : Mundo :=
  { mundoConSesion usuarioJuan with
    estadoAplicacion := { usuarioActual := some usuarioJuan, rutaActual := "/reports",
                          estaAutenticado := true },
    appState := { currentRoute := "/reports", isAuthenticated := true,
                  currentUser := some usuarioJuan } }

/-- The session of the visitor against a backend whose course 2 (capacity 5)
already has an inactive enrollment of another user. -/
def mundoConInactiva : Mundo :=
  { mundoConSesion usuarioJuan with
    servidor := { servidorEjemplo with
      enrollments := servidorEjemplo.enrollments ++
        [{ id := 2, userId := 1, courseId := 2, enrollmentDate := "4/1/2024",
           status := "inactive" }] } }

/-- A registration form with a password of three characters and every other
input well formed. -/
def formularioClaveCorta : PlantillaMainJs.manejadorEventos.FormularioRegistro :=
  { name := "Ana", email := "ana@email.com", password := "abc", phone := "3009998877",
    enrollNumber := "0003" }

/-- The session of the given user standing on the given route, in both state
objects. -/
def mundoSesionEnRuta (u : User) (ruta : String) : Mundo :=
  { mundoInicial with
    estadoAplicacion := { usuarioActual := some u, rutaActual := ruta, estaAutenticado := true },
    appState := { currentRoute := ruta, isAuthenticated := true, currentUser := some u } }

/-- A user whose role is neither "admin" nor "visitor". -/
def usuarioDocente : User :=
  { id := 3, name := "Marta", email := "marta@email.com", password := "docente1",
    role := "teacher", phone := "3004445566", enrollNumber := "0004",
    dateOfAdmission := "5/1/2024" }

/-- The edit form of the visitor as the modal loads it (name, email, role,
phone and enrollment number of the stored record), submitted with the password
input left empty. -/
def formularioEdicionJuan : PlantillaMainJs.gestorModales.FormularioUsuario :=
  { name := "Juan", email := "juan@email.com", password := "", role := "visitor",
    phone := "3001112233", enrollNumber := "0002" }

/-! ## The HTTP wrappers -/

/-- The wrapper of main.js on a request answered with success. -/
theorem PlantillaMainJs.apiService.solicitar_ok {α : Type} (p : Peticion)
    (json : Servidor → α) (alerta : String) (w : Mundo) (h : w.respuestaOk = true) :
    PlantillaMainJs.apiService.solicitar p json alerta w
      = (.ok (json (w.servidor.aplicar p)), w.trasExito p) := by
  unfold Mundo.respuestaOk at h
  cases hr : proximaRespuesta w.red with
  | sinConexion => rw [hr] at h; simp [Respuesta.ok] at h
  | estado status =>
    rw [hr] at h
    simp [PlantillaMainJs.apiService.solicitar, fetch, PlantillaMainJs.showLoading,
      Mundo.trasExito, hr, h]

/-- The wrapper of main.js on a request that fails: it throws a network
error and leaves the failure world. -/
theorem PlantillaMainJs.apiService.solicitar_error {α : Type} (p : Peticion)
    (json : Servidor → α) (alerta : String) (w : Mundo) (h : w.respuestaOk = false) :
    ∃ e, e.esDeRed = true ∧
      PlantillaMainJs.apiService.solicitar p json alerta w
        = (.error e, w.trasFallo p alerta) := by
  unfold Mundo.respuestaOk at h
  cases hr : proximaRespuesta w.red with
  | sinConexion =>
    refine ⟨.sinConexion, rfl, ?_⟩
    simp [PlantillaMainJs.apiService.solicitar, fetch, PlantillaMainJs.showLoading,
      PlantillaMainJs.showAlert, Mundo.trasFallo, hr, Respuesta.ok]
  | estado status =>
    rw [hr] at h
    refine ⟨.http status ("Error " ++ toString status), rfl, ?_⟩
    simp [PlantillaMainJs.apiService.solicitar, fetch, PlantillaMainJs.showLoading,
      PlantillaMainJs.showAlert, Mundo.trasFallo, hr, h]

/-- The wrapper of api-service.js on a request answered with success. -/
theorem ApiServiceJs.apiService.realizarPeticion_ok {α : Type} (p : Peticion)
    (json : Servidor → α) (w : Mundo) (h : w.respuestaOk = true) :
    ApiServiceJs.apiService.realizarPeticion p json w
      = (.ok (json (w.servidor.aplicar p)), w.trasExito p) := by
  unfold Mundo.respuestaOk at h
  cases hr : proximaRespuesta w.red with
  | sinConexion => rw [hr] at h; simp [Respuesta.ok] at h
  | estado status =>
    rw [hr] at h
    simp [ApiServiceJs.apiService.realizarPeticion, fetch,
      ApiServiceJs.apiService.mostrarCargando, Mundo.trasExito, hr, h]

/-- The wrapper of api-service.js on a request that fails: it throws a
network error and leaves the failure world. -/
theorem ApiServiceJs.apiService.realizarPeticion_error {α : Type} (p : Peticion)
    (json : Servidor → α) (w : Mundo) (h : w.respuestaOk = false) :
    ∃ e, e.esDeRed = true ∧
      ApiServiceJs.apiService.realizarPeticion p json w
        = (.error e, w.trasFallo p "Error en la operación") := by
  unfold Mundo.respuestaOk at h
  cases hr : proximaRespuesta w.red with
  | sinConexion =>
    refine ⟨.sinConexion, rfl, ?_⟩
    simp [ApiServiceJs.apiService.realizarPeticion, fetch,
      ApiServiceJs.apiService.mostrarCargando, ApiServiceJs.apiService.mostrarAlerta,
      Mundo.trasFallo, hr, Respuesta.ok]
  | estado status =>
    rw [hr] at h
    refine ⟨.http status ("Error HTTP: " ++ toString status), rfl, ?_⟩
    simp [ApiServiceJs.apiService.realizarPeticion, fetch,
      ApiServiceJs.apiService.mostrarCargando, ApiServiceJs.apiService.mostrarAlerta,
      Mundo.trasFallo, hr, h]

/-- The log after a request answered with success. -/
@[simp] theorem Mundo.trasExito_peticiones (w : Mundo) (p : Peticion) :
    (w.trasExito p).peticiones = w.peticiones ++ [p] := rfl

/-- The backend after a request answered with success. -/
@[simp] theorem Mundo.trasExito_servidor (w : Mundo) (p : Peticion) :
    (w.trasExito p).servidor = w.servidor.aplicar p := rfl

/-- The script after a request answered with success. -/
@[simp] theorem Mundo.trasExito_red (w : Mundo) (p : Peticion) :
    (w.trasExito p).red = w.red.tail := rfl

/-- The alerts after a request answered with success. -/
@[simp] theorem Mundo.trasExito_alertas (w : Mundo) (p : Peticion) :
    (w.trasExito p).alertas = w.alertas := rfl

/-- The reloads after a request answered with success. -/
@[simp] theorem Mundo.trasExito_recargas (w : Mundo) (p : Peticion) :
    (w.trasExito p).recargas = w.recargas := rfl

/-- The log after a request that failed. -/
@[simp] theorem Mundo.trasFallo_peticiones (w : Mundo) (p : Peticion) (alerta : String) :
    (w.trasFallo p alerta).peticiones = w.peticiones ++ [p] := rfl

/-- The backend after a request that failed. -/
@[simp] theorem Mundo.trasFallo_servidor (w : Mundo) (p : Peticion) (alerta : String) :
    (w.trasFallo p alerta).servidor = w.servidor := rfl

/-- A read leaves the backend as it was. -/
@[simp] theorem Servidor.aplicar_get (s : Servidor) (r : Recurso) :
    s.aplicar (.get r) = s := rfl

/-- An alert changes neither the log nor the backend nor the reloads. -/
@[simp] theorem PlantillaMainJs.apiService.mostrarAlerta_campos (message type : String)
    (w : Mundo) :
    (PlantillaMainJs.apiService.mostrarAlerta message type w).peticiones = w.peticiones ∧
      (PlantillaMainJs.apiService.mostrarAlerta message type w).servidor = w.servidor ∧
      (PlantillaMainJs.apiService.mostrarAlerta message type w).recargas = w.recargas ∧
      (PlantillaMainJs.apiService.mostrarAlerta message type w).alertas
        = w.alertas ++ [{ mensaje := message, tipo := type }] :=
  ⟨rfl, rfl, rfl, rfl⟩


/-! ## Router: authentication check and role checks -/

/-- C1: for every route other than "/login" and "/register" and every world
whose session is not authenticated (whatever the stored user), rendering with
at least two nested calls allowed returns with the current route "/login",
one history entry "/login" pushed, and the login view as the only view
rendered.  First part: the router of navigation-service.js; second part: the
router of main.js, whose session flag exists in `appState` and in
`estadoAplicacion`. -/
theorem c1_unauthenticated_render_ends_on_login (n : Nat) (r : String)
    (hlogin : r ≠ "/login") (hregister : r ≠ "/register") :
    (∀ w : Mundo, w.estadoAplicacion.rutaActual = r →
      w.estadoAplicacion.estaAutenticado = false →
      ∃ w2, NavigationServiceJs.navegacionService.renderizarContenido (n + 2) w
          = some (.ok w2) ∧
        w2.estadoAplicacion.rutaActual = "/login" ∧
        w2.vistas = w.vistas ++ [Vista.login] ∧
        w2.historial = w.historial ++ ["/login"]) ∧
    (∀ w : Mundo, w.appState.currentRoute = r →
      w.appState.isAuthenticated = false →
      w.estadoAplicacion.estaAutenticado = false →
      ∃ w2, PlantillaMainJs.navegacionService.renderizarContenido (n + 2) w
          = some (.ok w2) ∧
        w2.appState.currentRoute = "/login" ∧
        w2.vistas = w.vistas ++ [Vista.login] ∧
        w2.historial = w.historial ++ ["/login"]) := by
  constructor
  · intro w hruta hauth
    subst hruta
    simp [NavigationServiceJs.navegacionService.renderizarContenido,
      NavigationServiceJs.navegacionService.esRutaPublica,
      NavigationServiceJs.navegacionService.fijarRuta,
      NavigationServiceJs.navegacionService.actualizarNavegacion, pushState, renderizar,
      hauth, hlogin, hregister]
  · intro w hruta hauth hauth2
    subst hruta
    simp [PlantillaMainJs.navegacionService.renderizarContenido,
      PlantillaMainJs.navegacionService.fijarRuta,
      PlantillaMainJs.navegacionService.actualizarInterfazUsuario, pushState, renderizar,
      hauth, hauth2, hlogin, hregister]

/-- Witness of C1: the route "/users" in the initial world. -/
theorem c1_unauthenticated_render_ends_on_login_witness :
    (∃ w2, NavigationServiceJs.navegacionService.renderizarContenido 2 (mundoEnRuta "/users")
        = some (.ok w2) ∧
      w2.estadoAplicacion.rutaActual = "/login" ∧
      w2.vistas = (mundoEnRuta "/users").vistas ++ [Vista.login] ∧
      w2.historial = (mundoEnRuta "/users").historial ++ ["/login"]) ∧
    (∃ w2, PlantillaMainJs.navegacionService.renderizarContenido 2 (mundoEnRuta "/users")
        = some (.ok w2) ∧
      w2.appState.currentRoute = "/login" ∧
      w2.vistas = (mundoEnRuta "/users").vistas ++ [Vista.login] ∧
      w2.historial = (mundoEnRuta "/users").historial ++ ["/login"]) :=
  ⟨(c1_unauthenticated_render_ends_on_login 0 "/users" (by decide) (by decide)).1
      (mundoEnRuta "/users") rfl rfl,
   (c1_unauthenticated_render_ends_on_login 0 "/users" (by decide) (by decide)).2
      (mundoEnRuta "/users") rfl rfl rfl⟩

/-- C2: for every authenticated session whose user has a role other than
"admin", `navegarA("/users")` returns with the current route "/", the
dashboard as the only view rendered, and the users view not rendered; the
history receives "/users" and then "/".  First part: navigation-service.js;
second part: main.js. -/
theorem c2_non_admin_users_route_redirects_home (n : Nat) (u : User)
    (hrole : u.role ≠ "admin") :
    (∀ w : Mundo, w.estadoAplicacion.estaAutenticado = true →
      w.estadoAplicacion.usuarioActual = some u →
      ∃ w2, NavigationServiceJs.navegacionService.navegarA (n + 2) "/users" w
          = some (.ok w2) ∧
        w2.estadoAplicacion.rutaActual = "/" ∧
        w2.vistas = w.vistas ++ [Vista.dashboard] ∧
        w2.historial = w.historial ++ ["/users", "/"]) ∧
    (∀ w : Mundo, w.appState.isAuthenticated = true →
      w.estadoAplicacion.estaAutenticado = true →
      w.estadoAplicacion.usuarioActual = some u →
      ∃ w2, PlantillaMainJs.navegacionService.navegarA (n + 2) "/users" w
          = some (.ok w2) ∧
        w2.appState.currentRoute = "/" ∧
        w2.vistas = w.vistas ++ [Vista.dashboard] ∧
        w2.historial = w.historial ++ ["/users", "/"]) := by
  constructor
  · intro w hauth huser
    simp [NavigationServiceJs.navegacionService.navegarA,
      NavigationServiceJs.navegacionService.renderizarContenido,
      NavigationServiceJs.navegacionService.esRutaPublica,
      NavigationServiceJs.navegacionService.fijarRuta,
      NavigationServiceJs.navegacionService.actualizarNavegacion,
      NavigationServiceJs.navegacionService.actualizarEnlaceActivo,
      NavigationServiceJs.navegacionService.esUsuarioAdministrador, pushState, renderizar,
      hauth, huser, hrole]
  · intro w hauth hauth2 huser
    simp [PlantillaMainJs.navegacionService.navegarA,
      PlantillaMainJs.navegacionService.renderizarContenido,
      PlantillaMainJs.navegacionService.fijarRuta,
      PlantillaMainJs.navegacionService.actualizarInterfazUsuario,
      PlantillaMainJs.navegacionService.actualizarEnlaceActivo,
      PlantillaMainJs.navegacionService.esUsuarioAdministrador, pushState, renderizar,
      hauth, hauth2, huser, hrole]

/-- Witness of C2: the visitor of the sample backend. -/
theorem c2_non_admin_users_route_redirects_home_witness :
    (∃ w2, NavigationServiceJs.navegacionService.navegarA 2 "/users" (mundoConSesion usuarioJuan)
        = some (.ok w2) ∧
      w2.estadoAplicacion.rutaActual = "/" ∧
      w2.vistas = (mundoConSesion usuarioJuan).vistas ++ [Vista.dashboard] ∧
      w2.historial = (mundoConSesion usuarioJuan).historial ++ ["/users", "/"]) ∧
    (∃ w2, PlantillaMainJs.navegacionService.navegarA 2 "/users" (mundoConSesion usuarioJuan)
        = some (.ok w2) ∧
      w2.appState.currentRoute = "/" ∧
      w2.vistas = (mundoConSesion usuarioJuan).vistas ++ [Vista.dashboard] ∧
      w2.historial = (mundoConSesion usuarioJuan).historial ++ ["/users", "/"]) :=
  ⟨(c2_non_admin_users_route_redirects_home 0 usuarioJuan (by decide)).1
      (mundoConSesion usuarioJuan) rfl rfl,
   (c2_non_admin_users_route_redirects_home 0 usuarioJuan (by decide)).2
      (mundoConSesion usuarioJuan) rfl rfl rfl⟩

/-- C3: for every authenticated session whose user has the role "admin",
`navegarA("/enrollments")` returns with the current route "/", the dashboard
as the only view rendered, and the enrollments view not rendered; the history
receives "/enrollments" and then "/".  First part: navigation-service.js;
second part: main.js. -/
theorem c3_admin_enrollments_route_redirects_home (n : Nat) (u : User)
    (hrole : u.role = "admin") :
    (∀ w : Mundo, w.estadoAplicacion.estaAutenticado = true →
      w.estadoAplicacion.usuarioActual = some u →
      ∃ w2, NavigationServiceJs.navegacionService.navegarA (n + 2) "/enrollments" w
          = some (.ok w2) ∧
        w2.estadoAplicacion.rutaActual = "/" ∧
        w2.vistas = w.vistas ++ [Vista.dashboard] ∧
        w2.historial = w.historial ++ ["/enrollments", "/"]) ∧
    (∀ w : Mundo, w.appState.isAuthenticated = true →
      w.estadoAplicacion.estaAutenticado = true →
      w.estadoAplicacion.usuarioActual = some u →
      ∃ w2, PlantillaMainJs.navegacionService.navegarA (n + 2) "/enrollments" w
          = some (.ok w2) ∧
        w2.appState.currentRoute = "/" ∧
        w2.vistas = w.vistas ++ [Vista.dashboard] ∧
        w2.historial = w.historial ++ ["/enrollments", "/"]) := by
  constructor
  · intro w hauth huser
    simp [NavigationServiceJs.navegacionService.navegarA,
      NavigationServiceJs.navegacionService.renderizarContenido,
      NavigationServiceJs.navegacionService.esRutaPublica,
      NavigationServiceJs.navegacionService.fijarRuta,
      NavigationServiceJs.navegacionService.actualizarNavegacion,
      NavigationServiceJs.navegacionService.actualizarEnlaceActivo,
      NavigationServiceJs.navegacionService.esUsuarioAdministrador,
      NavigationServiceJs.navegacionService.esUsuarioVisitante, pushState, renderizar,
      hauth, huser, hrole]
  · intro w hauth hauth2 huser
    simp [PlantillaMainJs.navegacionService.navegarA,
      PlantillaMainJs.navegacionService.renderizarContenido,
      PlantillaMainJs.navegacionService.fijarRuta,
      PlantillaMainJs.navegacionService.actualizarInterfazUsuario,
      PlantillaMainJs.navegacionService.actualizarEnlaceActivo,
      PlantillaMainJs.navegacionService.esUsuarioAdministrador, pushState, renderizar,
      hauth, hauth2, huser, hrole]

/-- Witness of C3: the administrator of the sample backend. -/
theorem c3_admin_enrollments_route_redirects_home_witness :
    (∃ w2, NavigationServiceJs.navegacionService.navegarA 2 "/enrollments"
        (mundoConSesion usuarioAdmin) = some (.ok w2) ∧
      w2.estadoAplicacion.rutaActual = "/" ∧
      w2.vistas = (mundoConSesion usuarioAdmin).vistas ++ [Vista.dashboard] ∧
      w2.historial = (mundoConSesion usuarioAdmin).historial ++ ["/enrollments", "/"]) ∧
    (∃ w2, PlantillaMainJs.navegacionService.navegarA 2 "/enrollments"
        (mundoConSesion usuarioAdmin) = some (.ok w2) ∧
      w2.appState.currentRoute = "/" ∧
      w2.vistas = (mundoConSesion usuarioAdmin).vistas ++ [Vista.dashboard] ∧
      w2.historial = (mundoConSesion usuarioAdmin).historial ++ ["/enrollments", "/"]) :=
  ⟨(c3_admin_enrollments_route_redirects_home 0 usuarioAdmin rfl).1
      (mundoConSesion usuarioAdmin) rfl rfl,
   (c3_admin_enrollments_route_redirects_home 0 usuarioAdmin rfl).2
      (mundoConSesion usuarioAdmin) rfl rfl rfl⟩

/-! ## Session manager: login and registration -/

/-- When some user of a list carries the credentials, the linear scan finds
the first one: the list splits around it and nobody before it matches. -/
theorem find_credenciales (users : List User) (email password : String)
    (h : ∃ u ∈ users, u.email = email ∧ u.password = password) :
    ∃ u antes despues,
      users.find? (fun u => u.email == email && u.password == password) = some u ∧
      users = antes ++ u :: despues ∧
      (∀ x ∈ antes, ¬ (x.email = email ∧ x.password = password)) ∧
      u.email = email ∧ u.password = password := by
  have hsome : (users.find? (fun u => u.email == email && u.password == password)).isSome := by
    rw [List.find?_isSome]
    obtain ⟨u, hu, h1, h2⟩ := h
    exact ⟨u, hu, by simp [h1, h2]⟩
  obtain ⟨u, hu⟩ := Option.isSome_iff_exists.mp hsome
  obtain ⟨hp, antes, despues, hsplit, hantes⟩ := List.find?_eq_some.mp hu
  have hp2 : u.email = email ∧ u.password = password := by simpa using hp
  refine ⟨u, antes, despues, hu, hsplit, ?_, hp2.1, hp2.2⟩
  intro x hx hxm
  have := hantes x hx
  simp [hxm.1, hxm.2] at this

/-- C4: when the list of users is fetched and some user of it carries exactly
the given email and password, `iniciarSesion` returns the first such user in
list order and leaves the in-memory session with that user as current user
and authenticated set; this holds for the login of main.js (both state
objects) and for the login of auth-service.js. -/
theorem c4_login_success_returns_first_match (email password : String) (w : Mundo)
    (hred : w.respuestaOk = true)
    (hmatch : ∃ u ∈ w.servidor.users, u.email = email ∧ u.password = password) :
    ∃ u antes despues,
      w.servidor.users = antes ++ u :: despues ∧
      (∀ x ∈ antes, ¬ (x.email = email ∧ x.password = password)) ∧
      u.email = email ∧ u.password = password ∧
      (PlantillaMainJs.autenticacionService.iniciarSesion email password w).1 = .ok u ∧
      (PlantillaMainJs.autenticacionService.iniciarSesion email password w).2.appState.currentUser
        = some u ∧
      (PlantillaMainJs.autenticacionService.iniciarSesion email password
        w).2.appState.isAuthenticated = true ∧
      (PlantillaMainJs.autenticacionService.iniciarSesion email password
        w).2.estadoAplicacion.usuarioActual = some u ∧
      (PlantillaMainJs.autenticacionService.iniciarSesion email password
        w).2.estadoAplicacion.estaAutenticado = true ∧
      (AuthServiceJs.autenticacionService.iniciarSesion email password w).1 = .ok u ∧
      (AuthServiceJs.autenticacionService.iniciarSesion email password
        w).2.estadoAplicacion.usuarioActual = some u ∧
      (AuthServiceJs.autenticacionService.iniciarSesion email password
        w).2.estadoAplicacion.estaAutenticado = true := by
  obtain ⟨u, antes, despues, hfind, hsplit, hantes, hemail, hpassword⟩ :=
    find_credenciales w.servidor.users email password hmatch
  refine ⟨u, antes, despues, hsplit, hantes, hemail, hpassword, ?_⟩
  simp [PlantillaMainJs.autenticacionService.iniciarSesion, PlantillaMainJs.apiService.get,
    PlantillaMainJs.apiService.solicitar_ok _ _ _ w hred,
    AuthServiceJs.autenticacionService.iniciarSesion, ApiServiceJs.apiService.obtenerDatos,
    ApiServiceJs.apiService.realizarPeticion_ok _ _ w hred,
    Servidor.aplicar, Servidor.tabla, hfind,
    PlantillaMainJs.storage.setLocal, PlantillaMainJs.storage.setSession,
    PlantillaMainJs.apiService.mostrarAlerta,
    StorageServiceJs.almacenamientoService.guardarEnLocal,
    StorageServiceJs.almacenamientoService.guardarEnSesion,
    ApiServiceJs.apiService.mostrarAlerta]

/-- Witness of C4: the visitor of the sample backend logs in. -/
theorem c4_login_success_returns_first_match_witness :
    ∃ u antes despues,
      mundoInicial.servidor.users = antes ++ u :: despues ∧
      (∀ x ∈ antes, ¬ (x.email = "juan@email.com" ∧ x.password = "123456")) ∧
      u.email = "juan@email.com" ∧ u.password = "123456" ∧
      (PlantillaMainJs.autenticacionService.iniciarSesion "juan@email.com" "123456"
        mundoInicial).1 = .ok u ∧
      (PlantillaMainJs.autenticacionService.iniciarSesion "juan@email.com" "123456"
        mundoInicial).2.appState.currentUser = some u ∧
      (PlantillaMainJs.autenticacionService.iniciarSesion "juan@email.com" "123456"
        mundoInicial).2.appState.isAuthenticated = true ∧
      (PlantillaMainJs.autenticacionService.iniciarSesion "juan@email.com" "123456"
        mundoInicial).2.estadoAplicacion.usuarioActual = some u ∧
      (PlantillaMainJs.autenticacionService.iniciarSesion "juan@email.com" "123456"
        mundoInicial).2.estadoAplicacion.estaAutenticado = true ∧
      (AuthServiceJs.autenticacionService.iniciarSesion "juan@email.com" "123456"
        mundoInicial).1 = .ok u ∧
      (AuthServiceJs.autenticacionService.iniciarSesion "juan@email.com" "123456"
        mundoInicial).2.estadoAplicacion.usuarioActual = some u ∧
      (AuthServiceJs.autenticacionService.iniciarSesion "juan@email.com" "123456"
        mundoInicial).2.estadoAplicacion.estaAutenticado = true :=
  c4_login_success_returns_first_match "juan@email.com" "123456" mundoInicial rfl
    ⟨usuarioJuan, by simp [mundoInicial, servidorEjemplo], rfl, rfl⟩

/-- The login of main.js: when it throws, the in-memory session and both
stores are as before. -/
theorem mainJs_iniciarSesion_error_frame
    (email password : String) (w : Mundo) (e : Fallo)
    (h : (PlantillaMainJs.autenticacionService.iniciarSesion email password w).1 = .error e) :
    (PlantillaMainJs.autenticacionService.iniciarSesion email password w).2.estadoAplicacion
        = w.estadoAplicacion ∧
      (PlantillaMainJs.autenticacionService.iniciarSesion email password w).2.appState
        = w.appState ∧
      (PlantillaMainJs.autenticacionService.iniciarSesion email password w).2.localStorage
        = w.localStorage ∧
      (PlantillaMainJs.autenticacionService.iniciarSesion email password w).2.sessionStorage
        = w.sessionStorage := by
  cases hred : w.respuestaOk with
  | false =>
    obtain ⟨e2, -, he2⟩ := PlantillaMainJs.apiService.solicitar_error (.get .users)
      (fun s => s.tabla .users) "Error al cargar los datos" w hred
    simp [PlantillaMainJs.autenticacionService.iniciarSesion, PlantillaMainJs.apiService.get,
      he2, Mundo.trasFallo]
  | true =>
    revert h
    simp only [PlantillaMainJs.autenticacionService.iniciarSesion,
      PlantillaMainJs.apiService.get,
      PlantillaMainJs.apiService.solicitar_ok _ _ _ w hred]
    cases hfind : List.find? (fun u => u.email == email && u.password == password)
        ((w.servidor.aplicar (.get .users)).tabla .users) with
    | none => simp [Mundo.trasExito]
    | some u => simp

/-- The login of auth-service.js: when it throws, the in-memory session and
both stores are as before. -/
theorem authJs_iniciarSesion_error_frame
    (email password : String) (w : Mundo) (e : Fallo)
    (h : (AuthServiceJs.autenticacionService.iniciarSesion email password w).1 = .error e) :
    (AuthServiceJs.autenticacionService.iniciarSesion email password w).2.estadoAplicacion
        = w.estadoAplicacion ∧
      (AuthServiceJs.autenticacionService.iniciarSesion email password w).2.appState
        = w.appState ∧
      (AuthServiceJs.autenticacionService.iniciarSesion email password w).2.localStorage
        = w.localStorage ∧
      (AuthServiceJs.autenticacionService.iniciarSesion email password w).2.sessionStorage
        = w.sessionStorage := by
  cases hred : w.respuestaOk with
  | false =>
    obtain ⟨e2, -, he2⟩ := ApiServiceJs.apiService.realizarPeticion_error (.get .users)
      (fun s => s.tabla .users) w hred
    simp [AuthServiceJs.autenticacionService.iniciarSesion,
      ApiServiceJs.apiService.obtenerDatos, he2, Mundo.trasFallo,
      AuthServiceJs.autenticacionService.alCapturar, ApiServiceJs.apiService.mostrarAlerta]
  | true =>
    revert h
    simp only [AuthServiceJs.autenticacionService.iniciarSesion,
      ApiServiceJs.apiService.obtenerDatos,
      ApiServiceJs.apiService.realizarPeticion_ok _ _ w hred]
    cases hfind : List.find? (fun u => u.email == email && u.password == password)
        ((w.servidor.aplicar (.get .users)).tabla .users) with
    | none =>
      simp [Mundo.trasExito, AuthServiceJs.autenticacionService.alCapturar,
        ApiServiceJs.apiService.mostrarAlerta]
    | some u => simp

/-- The login of main.js throws the invalid-credentials error exactly when
the list was fetched and no user of it carries the credentials. -/
theorem mainJs_iniciarSesion_invalid_iff
    (email password : String) (w : Mundo) :
    (PlantillaMainJs.autenticacionService.iniciarSesion email password w).1
        = .error (.mensaje "Credenciales inválidas") ↔
      (w.respuestaOk = true ∧
        ∀ u ∈ w.servidor.users, ¬ (u.email = email ∧ u.password = password)) := by
  cases hred : w.respuestaOk with
  | false =>
    obtain ⟨e2, hnet, he2⟩ := PlantillaMainJs.apiService.solicitar_error (.get .users)
      (fun s => s.tabla .users) "Error al cargar los datos" w hred
    simp [PlantillaMainJs.autenticacionService.iniciarSesion, PlantillaMainJs.apiService.get,
      he2]
    rintro rfl
    simp [Fallo.esDeRed] at hnet
  | true =>
    simp only [PlantillaMainJs.autenticacionService.iniciarSesion,
      PlantillaMainJs.apiService.get,
      PlantillaMainJs.apiService.solicitar_ok _ _ _ w hred, Servidor.aplicar, Servidor.tabla]
    cases hfind : List.find? (fun u => u.email == email && u.password == password)
        w.servidor.users with
    | none =>
      simp only [List.find?_eq_none] at hfind
      simpa using hfind
    | some u =>
      have hu := List.mem_of_find?_eq_some hfind
      have hp := List.find?_some hfind
      simp only [Bool.and_eq_true, beq_iff_eq] at hp
      simp
      exact ⟨u, hu, hp.1, hp.2⟩

/-- The login of auth-service.js throws the invalid-credentials error exactly
when the list was fetched and no user of it carries the credentials. -/
theorem authJs_iniciarSesion_invalid_iff
    (email password : String) (w : Mundo) :
    (AuthServiceJs.autenticacionService.iniciarSesion email password w).1
        = .error (.mensaje "Credenciales inválidas") ↔
      (w.respuestaOk = true ∧
        ∀ u ∈ w.servidor.users, ¬ (u.email = email ∧ u.password = password)) := by
  cases hred : w.respuestaOk with
  | false =>
    obtain ⟨e2, hnet, he2⟩ := ApiServiceJs.apiService.realizarPeticion_error (.get .users)
      (fun s => s.tabla .users) w hred
    simp [AuthServiceJs.autenticacionService.iniciarSesion,
      ApiServiceJs.apiService.obtenerDatos, he2,
      AuthServiceJs.autenticacionService.alCapturar]
    rintro rfl
    simp [Fallo.esDeRed] at hnet
  | true =>
    simp only [AuthServiceJs.autenticacionService.iniciarSesion,
      ApiServiceJs.apiService.obtenerDatos,
      ApiServiceJs.apiService.realizarPeticion_ok _ _ w hred, Servidor.aplicar,
      Servidor.tabla]
    cases hfind : List.find? (fun u => u.email == email && u.password == password)
        w.servidor.users with
    | none =>
      simp only [List.find?_eq_none] at hfind
      simpa [AuthServiceJs.autenticacionService.alCapturar] using hfind
    | some u =>
      have hu := List.mem_of_find?_eq_some hfind
      have hp := List.find?_some hfind
      simp only [Bool.and_eq_true, beq_iff_eq] at hp
      simp
      exact ⟨u, hu, hp.1, hp.2⟩

/-- The comparison of the login is case-sensitive: against the sample backend,
the email of the administrator written with a capital letter is rejected by
both logins. -/
theorem iniciarSesion_case_sensitive_example :
    (PlantillaMainJs.autenticacionService.iniciarSesion "Admin@admin.com" "admin123"
        mundoInicial).1 = .error (.mensaje "Credenciales inválidas") ∧
      (AuthServiceJs.autenticacionService.iniciarSesion "Admin@admin.com" "admin123"
        mundoInicial).1 = .error (.mensaje "Credenciales inválidas") := by
  constructor
  · rw [mainJs_iniciarSesion_invalid_iff]
    refine ⟨rfl, ?_⟩
    simp [mundoInicial, servidorEjemplo, usuarioAdmin, usuarioJuan]
  · rw [authJs_iniciarSesion_invalid_iff]
    refine ⟨rfl, ?_⟩
    simp [mundoInicial, servidorEjemplo, usuarioAdmin, usuarioJuan]

/-- C5: `iniciarSesion` throws the invalid-credentials error if and only if
the list of users was fetched and no user of it has email and password both
equal to the arguments (equality of strings, so letter case counts); and
whenever it throws, the in-memory session (both state objects) and both
stores are unchanged, so an unauthenticated session stays unauthenticated.
First two parts: main.js; last two parts: auth-service.js. -/
theorem c5_login_failure_iff_no_match (email password : String) (w : Mundo) :
    ((PlantillaMainJs.autenticacionService.iniciarSesion email password w).1
        = .error (.mensaje "Credenciales inválidas") ↔
      (w.respuestaOk = true ∧
        ∀ u ∈ w.servidor.users, ¬ (u.email = email ∧ u.password = password))) ∧
    (∀ e, (PlantillaMainJs.autenticacionService.iniciarSesion email password w).1 = .error e →
      (PlantillaMainJs.autenticacionService.iniciarSesion email password w).2.estadoAplicacion
          = w.estadoAplicacion ∧
        (PlantillaMainJs.autenticacionService.iniciarSesion email password w).2.appState
          = w.appState ∧
        (PlantillaMainJs.autenticacionService.iniciarSesion email password w).2.localStorage
          = w.localStorage ∧
        (PlantillaMainJs.autenticacionService.iniciarSesion email password w).2.sessionStorage
          = w.sessionStorage) ∧
    ((AuthServiceJs.autenticacionService.iniciarSesion email password w).1
        = .error (.mensaje "Credenciales inválidas") ↔
      (w.respuestaOk = true ∧
        ∀ u ∈ w.servidor.users, ¬ (u.email = email ∧ u.password = password))) ∧
    (∀ e, (AuthServiceJs.autenticacionService.iniciarSesion email password w).1 = .error e →
      (AuthServiceJs.autenticacionService.iniciarSesion email password w).2.estadoAplicacion
          = w.estadoAplicacion ∧
        (AuthServiceJs.autenticacionService.iniciarSesion email password w).2.appState
          = w.appState ∧
        (AuthServiceJs.autenticacionService.iniciarSesion email password w).2.localStorage
          = w.localStorage ∧
        (AuthServiceJs.autenticacionService.iniciarSesion email password w).2.sessionStorage
          = w.sessionStorage) :=
  ⟨mainJs_iniciarSesion_invalid_iff email password w,
   fun e h => mainJs_iniciarSesion_error_frame email password w e h,
   authJs_iniciarSesion_invalid_iff email password w,
   fun e h => authJs_iniciarSesion_error_frame email password w e h⟩

/-- The scan of `registrarUsuario` finds a user exactly when some user of the
list has the email. -/
theorem find_email_isSome (users : List User) (email : String) :
    (users.find? (fun u => u.email == email)).isSome = true ↔
      ∃ u ∈ users, u.email = email := by
  rw [List.find?_isSome]
  simp

/-- The registration of main.js throws the email-already-registered error
exactly when the list was fetched and some user of it has the email; it has
then issued the read of the users and nothing else, and the backend is as
before. -/
theorem mainJs_registrarUsuario_taken
    (userData : DatosUsuario) (w : Mundo) :
    ((PlantillaMainJs.autenticacionService.registrarUsuario userData w).1
        = .error (.mensaje "El email ya está registrado") ↔
      (w.respuestaOk = true ∧ ∃ u ∈ w.servidor.users, u.email = userData.email)) ∧
    ((PlantillaMainJs.autenticacionService.registrarUsuario userData w).1
        = .error (.mensaje "El email ya está registrado") →
      (PlantillaMainJs.autenticacionService.registrarUsuario userData w).2.peticiones
          = w.peticiones ++ [.get .users] ∧
        (PlantillaMainJs.autenticacionService.registrarUsuario userData w).2.servidor
          = w.servidor) := by
  cases hred : w.respuestaOk with
  | false =>
    obtain ⟨e2, hnet, he2⟩ := PlantillaMainJs.apiService.solicitar_error (.get .users)
      (fun s => s.tabla .users) "Error al cargar los datos" w hred
    have hne : e2 ≠ .mensaje "El email ya está registrado" := by
      rintro rfl
      simp [Fallo.esDeRed] at hnet
    simp [PlantillaMainJs.autenticacionService.registrarUsuario,
      PlantillaMainJs.apiService.get, he2, hne]
  | true =>
    simp only [PlantillaMainJs.autenticacionService.registrarUsuario,
      PlantillaMainJs.apiService.get,
      PlantillaMainJs.apiService.solicitar_ok _ _ _ w hred, Servidor.aplicar, Servidor.tabla]
    cases hfind : List.find? (fun u => u.email == userData.email) w.servidor.users with
    | some u =>
      have hex := (find_email_isSome w.servidor.users userData.email).mp (by simp [hfind])
      simp [Mundo.trasExito, Servidor.aplicar, hex]
    | none =>
      have hno : ¬ ∃ u ∈ w.servidor.users, u.email = userData.email := by
        intro hex
        have := (find_email_isSome w.servidor.users userData.email).mpr hex
        simp [hfind] at this
      simp only [PlantillaMainJs.apiService.post]
      cases hred2 : (w.trasExito (.get .users)).respuestaOk with
      | false =>
        obtain ⟨e3, hnet3, he3⟩ := PlantillaMainJs.apiService.solicitar_error
          (.post .users (Recurso.cuerpo .users
            { userData with role := "visitor",
                            dateOfAdmission := (w.trasExito (.get .users)).fecha }))
          (fun _ => Recurso.registro .users ((w.trasExito (.get .users)).servidor.idNuevo .users)
            { userData with role := "visitor",
                            dateOfAdmission := (w.trasExito (.get .users)).fecha })
          "Error al guardar los datos" (w.trasExito (.get .users)) hred2
        have hne : e3 ≠ .mensaje "El email ya está registrado" := by
          rintro rfl
          simp [Fallo.esDeRed] at hnet3
        simp only [he3]
        simp [hne, hno]
      | true =>
        simp only [PlantillaMainJs.apiService.solicitar_ok _ _ _ _ hred2]
        simp [hno]

/-- The registration of auth-service.js throws the email-already-registered
error exactly when the list was fetched and some user of it has the email; it
has then issued the read of the users and nothing else, and the backend is as
before. -/
theorem authJs_registrarUsuario_taken
    (datosUsuario : DatosUsuario) (w : Mundo) :
    ((AuthServiceJs.autenticacionService.registrarUsuario datosUsuario w).1
        = .error (.mensaje "El correo electrónico ya está registrado") ↔
      (w.respuestaOk = true ∧ ∃ u ∈ w.servidor.users, u.email = datosUsuario.email)) ∧
    ((AuthServiceJs.autenticacionService.registrarUsuario datosUsuario w).1
        = .error (.mensaje "El correo electrónico ya está registrado") →
      (AuthServiceJs.autenticacionService.registrarUsuario datosUsuario w).2.peticiones
          = w.peticiones ++ [.get .users] ∧
        (AuthServiceJs.autenticacionService.registrarUsuario datosUsuario w).2.servidor
          = w.servidor) := by
  cases hred : w.respuestaOk with
  | false =>
    obtain ⟨e2, hnet, he2⟩ := ApiServiceJs.apiService.realizarPeticion_error (.get .users)
      (fun s => s.tabla .users) w hred
    have hne : e2 ≠ .mensaje "El correo electrónico ya está registrado" := by
      rintro rfl
      simp [Fallo.esDeRed] at hnet
    simp [AuthServiceJs.autenticacionService.registrarUsuario,
      ApiServiceJs.apiService.obtenerDatos, he2, hne,
      AuthServiceJs.autenticacionService.alCapturar]
  | true =>
    simp only [AuthServiceJs.autenticacionService.registrarUsuario,
      ApiServiceJs.apiService.obtenerDatos,
      ApiServiceJs.apiService.realizarPeticion_ok _ _ w hred, Servidor.aplicar,
      Servidor.tabla]
    cases hfind : List.find? (fun u => u.email == datosUsuario.email) w.servidor.users with
    | some u =>
      have hex := (find_email_isSome w.servidor.users datosUsuario.email).mp (by simp [hfind])
      simp [Mundo.trasExito, Servidor.aplicar, hex,
        AuthServiceJs.autenticacionService.alCapturar, ApiServiceJs.apiService.mostrarAlerta]
    | none =>
      have hno : ¬ ∃ u ∈ w.servidor.users, u.email = datosUsuario.email := by
        intro hex
        have := (find_email_isSome w.servidor.users datosUsuario.email).mpr hex
        simp [hfind] at this
      simp only [ApiServiceJs.apiService.crearDatos]
      cases hred2 : (w.trasExito (.get .users)).respuestaOk with
      | false =>
        obtain ⟨e3, hnet3, he3⟩ := ApiServiceJs.apiService.realizarPeticion_error
          (.post .users (Recurso.cuerpo .users
            { datosUsuario with role := "visitor",
                                dateOfAdmission := (w.trasExito (.get .users)).fecha }))
          (fun _ => Recurso.registro .users ((w.trasExito (.get .users)).servidor.idNuevo .users)
            { datosUsuario with role := "visitor",
                                dateOfAdmission := (w.trasExito (.get .users)).fecha })
          (w.trasExito (.get .users)) hred2
        have hne : e3 ≠ .mensaje "El correo electrónico ya está registrado" := by
          rintro rfl
          simp [Fallo.esDeRed] at hnet3
        simp only [he3]
        simp [hne, hno, AuthServiceJs.autenticacionService.alCapturar]
      | true =>
        simp only [ApiServiceJs.apiService.realizarPeticion_ok _ _ _ hred2]
        simp [hno]

/-- The registration of main.js: when it throws, whatever the error, the
backend is as before. -/
theorem mainJs_registrarUsuario_error_servidor (userData : DatosUsuario) (w : Mundo)
    (e : Fallo)
    (h : (PlantillaMainJs.autenticacionService.registrarUsuario userData w).1 = .error e) :
    (PlantillaMainJs.autenticacionService.registrarUsuario userData w).2.servidor
      = w.servidor := by
  revert h
  cases hred : w.respuestaOk with
  | false =>
    obtain ⟨e2, -, he2⟩ := PlantillaMainJs.apiService.solicitar_error (.get .users)
      (fun s => s.tabla .users) "Error al cargar los datos" w hred
    simp [PlantillaMainJs.autenticacionService.registrarUsuario,
      PlantillaMainJs.apiService.get, he2]
  | true =>
    simp only [PlantillaMainJs.autenticacionService.registrarUsuario,
      PlantillaMainJs.apiService.get,
      PlantillaMainJs.apiService.solicitar_ok _ _ _ w hred, Servidor.aplicar, Servidor.tabla]
    cases hfind : List.find? (fun u => u.email == userData.email) w.servidor.users with
    | some u => simp
    | none =>
      simp only [PlantillaMainJs.apiService.post]
      cases hred2 : (w.trasExito (.get .users)).respuestaOk with
      | false =>
        obtain ⟨e3, -, he3⟩ := PlantillaMainJs.apiService.solicitar_error
          (.post .users (Recurso.cuerpo .users
            { userData with role := "visitor",
                            dateOfAdmission := (w.trasExito (.get .users)).fecha }))
          (fun _ => Recurso.registro .users ((w.trasExito (.get .users)).servidor.idNuevo .users)
            { userData with role := "visitor",
                            dateOfAdmission := (w.trasExito (.get .users)).fecha })
          "Error al guardar los datos" (w.trasExito (.get .users)) hred2
        simp only [he3]
        simp
      | true =>
        simp only [PlantillaMainJs.apiService.solicitar_ok _ _ _ _ hred2]
        simp

/-- The registration of auth-service.js: when it throws, whatever the error,
the backend is as before. -/
theorem authJs_registrarUsuario_error_servidor (datosUsuario : DatosUsuario) (w : Mundo)
    (e : Fallo)
    (h : (AuthServiceJs.autenticacionService.registrarUsuario datosUsuario w).1 = .error e) :
    (AuthServiceJs.autenticacionService.registrarUsuario datosUsuario w).2.servidor
      = w.servidor := by
  revert h
  cases hred : w.respuestaOk with
  | false =>
    obtain ⟨e2, -, he2⟩ := ApiServiceJs.apiService.realizarPeticion_error (.get .users)
      (fun s => s.tabla .users) w hred
    simp [AuthServiceJs.autenticacionService.registrarUsuario,
      ApiServiceJs.apiService.obtenerDatos, he2,
      AuthServiceJs.autenticacionService.alCapturar, ApiServiceJs.apiService.mostrarAlerta]
  | true =>
    simp only [AuthServiceJs.autenticacionService.registrarUsuario,
      ApiServiceJs.apiService.obtenerDatos,
      ApiServiceJs.apiService.realizarPeticion_ok _ _ w hred, Servidor.aplicar,
      Servidor.tabla]
    cases hfind : List.find? (fun u => u.email == datosUsuario.email) w.servidor.users with
    | some u =>
      simp [AuthServiceJs.autenticacionService.alCapturar,
        ApiServiceJs.apiService.mostrarAlerta]
    | none =>
      simp only [ApiServiceJs.apiService.crearDatos]
      cases hred2 : (w.trasExito (.get .users)).respuestaOk with
      | false =>
        obtain ⟨e3, -, he3⟩ := ApiServiceJs.apiService.realizarPeticion_error
          (.post .users (Recurso.cuerpo .users
            { datosUsuario with role := "visitor",
                                dateOfAdmission := (w.trasExito (.get .users)).fecha }))
          (fun _ => Recurso.registro .users ((w.trasExito (.get .users)).servidor.idNuevo .users)
            { datosUsuario with role := "visitor",
                                dateOfAdmission := (w.trasExito (.get .users)).fecha })
          (w.trasExito (.get .users)) hred2
        simp only [he3]
        simp [AuthServiceJs.autenticacionService.alCapturar,
          ApiServiceJs.apiService.mostrarAlerta]
      | true =>
        simp only [ApiServiceJs.apiService.realizarPeticion_ok _ _ _ hred2]
        simp

/-- C6: `registrarUsuario` throws the email-already-registered error if and
only if the list of users was fetched and some user of it has the email of
`userData`; when it throws that error the only request issued is the read of
the users (no create request) and the backend, hence the user list, is
unchanged; and whatever error it throws, the backend is unchanged.  First
part: main.js; second part: auth-service.js. -/
theorem c6_register_taken_email_rejected (userData : DatosUsuario) (w : Mundo) :
    (((PlantillaMainJs.autenticacionService.registrarUsuario userData w).1
          = .error (.mensaje "El email ya está registrado") ↔
        (w.respuestaOk = true ∧ ∃ u ∈ w.servidor.users, u.email = userData.email)) ∧
      ((PlantillaMainJs.autenticacionService.registrarUsuario userData w).1
          = .error (.mensaje "El email ya está registrado") →
        (PlantillaMainJs.autenticacionService.registrarUsuario userData w).2.peticiones
            = w.peticiones ++ [.get .users] ∧
          (PlantillaMainJs.autenticacionService.registrarUsuario userData w).2.servidor
            = w.servidor) ∧
      (∀ e, (PlantillaMainJs.autenticacionService.registrarUsuario userData w).1 = .error e →
        (PlantillaMainJs.autenticacionService.registrarUsuario userData w).2.servidor
          = w.servidor)) ∧
    (((AuthServiceJs.autenticacionService.registrarUsuario userData w).1
          = .error (.mensaje "El correo electrónico ya está registrado") ↔
        (w.respuestaOk = true ∧ ∃ u ∈ w.servidor.users, u.email = userData.email)) ∧
      ((AuthServiceJs.autenticacionService.registrarUsuario userData w).1
          = .error (.mensaje "El correo electrónico ya está registrado") →
        (AuthServiceJs.autenticacionService.registrarUsuario userData w).2.peticiones
            = w.peticiones ++ [.get .users] ∧
          (AuthServiceJs.autenticacionService.registrarUsuario userData w).2.servidor
            = w.servidor) ∧
      (∀ e, (AuthServiceJs.autenticacionService.registrarUsuario userData w).1 = .error e →
        (AuthServiceJs.autenticacionService.registrarUsuario userData w).2.servidor
          = w.servidor)) :=
  ⟨⟨(mainJs_registrarUsuario_taken userData w).1, (mainJs_registrarUsuario_taken userData w).2,
      fun e h => mainJs_registrarUsuario_error_servidor userData w e h⟩,
   ⟨(authJs_registrarUsuario_taken userData w).1, (authJs_registrarUsuario_taken userData w).2,
      fun e h => authJs_registrarUsuario_error_servidor userData w e h⟩⟩

/-- C7: when the list of users is fetched and no user of it has the email of
`userData`, `registrarUsuario` issues, after the read of the users, one
create request whose body has the role "visitor", the current date as
admission date, and the name, email, password, phone and enrollment number of
`userData`, whatever role `userData` carried and whatever the outcome of the
create request.  The same body is sent by main.js and by auth-service.js. -/
theorem c7_registration_fixes_role_visitor (userData : DatosUsuario) (w : Mundo)
    (hred : w.respuestaOk = true)
    (hnew : ∀ u ∈ w.servidor.users, u.email ≠ userData.email) :
    ∃ nuevo : DatosUsuario,
      (PlantillaMainJs.autenticacionService.registrarUsuario userData w).2.peticiones
        = w.peticiones ++ [.get .users, .post .users (.usuario nuevo)] ∧
      (AuthServiceJs.autenticacionService.registrarUsuario userData w).2.peticiones
        = w.peticiones ++ [.get .users, .post .users (.usuario nuevo)] ∧
      nuevo.role = "visitor" ∧
      nuevo.dateOfAdmission = w.fecha ∧
      nuevo.name = userData.name ∧
      nuevo.email = userData.email ∧
      nuevo.password = userData.password ∧
      nuevo.phone = userData.phone ∧
      nuevo.enrollNumber = userData.enrollNumber := by
  have hfind : List.find? (fun u => u.email == userData.email) w.servidor.users = none := by
    rw [List.find?_eq_none]
    intro x hx
    simpa using hnew x hx
  refine ⟨{ userData with role := "visitor", dateOfAdmission := w.fecha }, ?_, ?_,
    rfl, rfl, rfl, rfl, rfl, rfl, rfl⟩
  · simp only [PlantillaMainJs.autenticacionService.registrarUsuario,
      PlantillaMainJs.apiService.get,
      PlantillaMainJs.apiService.solicitar_ok _ _ _ w hred, Servidor.aplicar, Servidor.tabla,
      hfind, PlantillaMainJs.apiService.post]
    cases hred2 : (w.trasExito (.get .users)).respuestaOk with
    | false =>
      obtain ⟨e3, -, he3⟩ := PlantillaMainJs.apiService.solicitar_error
        (.post .users (Recurso.cuerpo .users
          { userData with role := "visitor",
                          dateOfAdmission := (w.trasExito (.get .users)).fecha }))
        (fun _ => Recurso.registro .users ((w.trasExito (.get .users)).servidor.idNuevo .users)
          { userData with role := "visitor",
                          dateOfAdmission := (w.trasExito (.get .users)).fecha })
        "Error al guardar los datos" (w.trasExito (.get .users)) hred2
      simp only [he3]
      simp [Mundo.trasFallo, Mundo.trasExito, Recurso.cuerpo]
    | true =>
      simp only [PlantillaMainJs.apiService.solicitar_ok _ _ _ _ hred2]
      simp [Mundo.trasExito, Recurso.cuerpo, PlantillaMainJs.apiService.mostrarAlerta]
  · simp only [AuthServiceJs.autenticacionService.registrarUsuario,
      ApiServiceJs.apiService.obtenerDatos,
      ApiServiceJs.apiService.realizarPeticion_ok _ _ w hred, Servidor.aplicar,
      Servidor.tabla, hfind, ApiServiceJs.apiService.crearDatos]
    cases hred2 : (w.trasExito (.get .users)).respuestaOk with
    | false =>
      obtain ⟨e3, -, he3⟩ := ApiServiceJs.apiService.realizarPeticion_error
        (.post .users (Recurso.cuerpo .users
          { userData with role := "visitor",
                          dateOfAdmission := (w.trasExito (.get .users)).fecha }))
        (fun _ => Recurso.registro .users ((w.trasExito (.get .users)).servidor.idNuevo .users)
          { userData with role := "visitor",
                          dateOfAdmission := (w.trasExito (.get .users)).fecha })
        (w.trasExito (.get .users)) hred2
      simp only [he3]
      simp [Mundo.trasFallo, Mundo.trasExito, Recurso.cuerpo,
        AuthServiceJs.autenticacionService.alCapturar, ApiServiceJs.apiService.mostrarAlerta]
    | true =>
      simp only [ApiServiceJs.apiService.realizarPeticion_ok _ _ _ hred2]
      simp [Mundo.trasExito, Recurso.cuerpo, ApiServiceJs.apiService.mostrarAlerta]

/-- Witness of C7: a registration that asks for the role "admin" against the
sample backend. -/
theorem c7_registration_fixes_role_visitor_witness :
    ∃ nuevo : DatosUsuario,
      (PlantillaMainJs.autenticacionService.registrarUsuario datosRegistroAna
          mundoInicial).2.peticiones
        = mundoInicial.peticiones ++ [.get .users, .post .users (.usuario nuevo)] ∧
      (AuthServiceJs.autenticacionService.registrarUsuario datosRegistroAna
          mundoInicial).2.peticiones
        = mundoInicial.peticiones ++ [.get .users, .post .users (.usuario nuevo)] ∧
      nuevo.role = "visitor" ∧
      nuevo.dateOfAdmission = mundoInicial.fecha ∧
      nuevo.name = datosRegistroAna.name ∧
      nuevo.email = datosRegistroAna.email ∧
      nuevo.password = datosRegistroAna.password ∧
      nuevo.phone = datosRegistroAna.phone ∧
      nuevo.enrollNumber = datosRegistroAna.enrollNumber :=
  c7_registration_fixes_role_visitor datosRegistroAna mundoInicial rfl
    (by simp [mundoInicial, servidorEjemplo, usuarioAdmin, usuarioJuan, datosRegistroAna])

/-! ## Enrollment and course deletion (explicacion) -/

/-- A read answered with success returns the table and leaves the backend as
it was. -/
theorem PlantillaMainJs.apiService.get_ok (r : Recurso) (w : Mundo)
    (h : w.respuestaOk = true) :
    PlantillaMainJs.apiService.get r w = (.ok (w.servidor.tabla r), w.trasExito (.get r)) := by
  simp [PlantillaMainJs.apiService.get, PlantillaMainJs.apiService.solicitar_ok _ _ _ w h,
    Servidor.aplicar]

/-- A read that fails throws and leaves the failure world. -/
theorem PlantillaMainJs.apiService.get_error (r : Recurso) (w : Mundo)
    (h : w.respuestaOk = false) :
    ∃ e, PlantillaMainJs.apiService.get r w
      = (.error e, w.trasFallo (.get r) "Error al cargar los datos") := by
  obtain ⟨e, -, he⟩ := PlantillaMainJs.apiService.solicitar_error (.get r)
    (fun s => s.tabla r) "Error al cargar los datos" w h
  exact ⟨e, by simp [PlantillaMainJs.apiService.get, he]⟩

/-- The enrollment check of explicacion/main.js throws before any request:
`verificarInscripcionUsuario` calls `obtenerInscripcionesDeUsuario`, which
calls `obtenerTodasLasInscripciones`, which calls the undefined
`apiService.get`. -/
theorem explicacion_verificarInscripcionUsuario_lanza (idUsuario idCurso : Int) (w : Mundo) :
    ExplicacionMainJs.inscripcionService.verificarInscripcionUsuario idUsuario idCurso w
      = (.error .typeError, w) :=
  rfl

/-- Every call of `procesarInscripcionEnCurso` of explicacion/main.js ends in
its `catch` block before any request is made (the `TypeError` of a `null`
user, or the `TypeError` of the undefined `apiService.get`): the world is as
before. -/
theorem explicacion_procesarInscripcionEnCurso_sin_efecto (idCurso : Int) (w : Mundo) :
    ExplicacionMainJs.gestorCrud.procesarInscripcionEnCurso idCurso w = w := by
  unfold ExplicacionMainJs.gestorCrud.procesarInscripcionEnCurso
  cases w.estadoAplicacion.usuarioActual <;> rfl

/-- Every call of `confirmarEliminacionCurso` of explicacion/main.js leaves
the world as it was: declined, it does nothing; accepted, its first statement
throws the `TypeError` of the undefined `apiService.get` and the `catch` block
ends the handler. -/
theorem explicacion_confirmarEliminacionCurso_sin_efecto (confirmacion : Bool) (idCurso : Int)
    (w : Mundo) :
    ExplicacionMainJs.gestorCrud.confirmarEliminacionCurso confirmacion idCurso w = w := by
  cases confirmacion <;> rfl

/-- C8, evaluated on the sample backend: the visitor (id 2) already has an
enrollment in course 1 and asks for course 1 again.  The enrollment check of
explicacion/main.js throws a `TypeError` (the service method that runs calls
`apiService.get`, which the object `apiService` of the file does not define),
the `catch` block of `procesarInscripcionEnCurso` ends the handler, and the
world is as before: no request was issued, the enrollment list is unchanged,
and no alert, hence no "already enrolled" warning, was shown. -/
theorem c8_explicacion_double_enrollment_shows_no_warning :
    (∃ e ∈ (mundoConSesion usuarioJuan).servidor.enrollments,
      e.userId = usuarioJuan.id ∧ e.courseId = 1) ∧
    ExplicacionMainJs.inscripcionService.verificarInscripcionUsuario 2 1
        (mundoConSesion usuarioJuan) = (.error .typeError, mundoConSesion usuarioJuan) ∧
    ExplicacionMainJs.gestorCrud.procesarInscripcionEnCurso 1 (mundoConSesion usuarioJuan)
      = mundoConSesion usuarioJuan ∧
    (ExplicacionMainJs.gestorCrud.procesarInscripcionEnCurso 1
        (mundoConSesion usuarioJuan)).alertas = [] ∧
    (ExplicacionMainJs.gestorCrud.procesarInscripcionEnCurso 1
        (mundoConSesion usuarioJuan)).peticiones = [] ∧
    (ExplicacionMainJs.gestorCrud.procesarInscripcionEnCurso 1
        (mundoConSesion usuarioJuan)).servidor.enrollments
      = (mundoConSesion usuarioJuan).servidor.enrollments :=
  ⟨⟨{ id := 1, userId := 2, courseId := 1, enrollmentDate := "3/1/2024", status := "active" },
      by decide, rfl, rfl⟩, rfl, rfl, rfl, rfl, rfl⟩

/-- C9: when the enrollments of the course are at least as many as the
capacity of the course `c` (the stored course with that id),
`procesarInscripcionEnCurso(c.id)` issues only reads (no create request) and
leaves the backend, hence the enrollment list, unchanged; this holds whoever
the current user is, enrolled in `c` or not.  In explicacion/main.js the
handler stops at its first service call, so the list of requests issued is
empty. -/
theorem c9_enrollment_at_capacity_rejected (c : Course) (w : Mundo)
    (hunico : ∀ c2 ∈ w.servidor.courses, c2.id = c.id → c2 = c)
    (hlleno : ((w.servidor.enrollments.filter (fun e => e.courseId == c.id)).length : Int)
      ≥ c.capacity) :
    ∃ nuevas,
      (ExplicacionMainJs.gestorCrud.procesarInscripcionEnCurso c.id w).peticiones
        = w.peticiones ++ nuevas ∧
      (∀ p ∈ nuevas, p.esLectura = true) ∧
      (ExplicacionMainJs.gestorCrud.procesarInscripcionEnCurso c.id w).servidor
        = w.servidor := by
  rw [explicacion_procesarInscripcionEnCurso_sin_efecto]
  exact ⟨[], by simp, by simp, rfl⟩

/-- Witness of C9: the administrator of the sample backend asks for course 1,
whose only place is taken. -/
theorem c9_enrollment_at_capacity_rejected_witness :
    ∃ nuevas,
      (ExplicacionMainJs.gestorCrud.procesarInscripcionEnCurso 1
          (mundoConSesion usuarioAdmin)).peticiones
        = (mundoConSesion usuarioAdmin).peticiones ++ nuevas ∧
      (∀ p ∈ nuevas, p.esLectura = true) ∧
      (ExplicacionMainJs.gestorCrud.procesarInscripcionEnCurso 1
          (mundoConSesion usuarioAdmin)).servidor
        = (mundoConSesion usuarioAdmin).servidor :=
  c9_enrollment_at_capacity_rejected
    { id := 1, title := "JavaScript", description := "Intro", instructor := "Ana",
      startDate := "2024-02-01", duration := "4 semanas", capacity := 1 }
    (mundoConSesion usuarioAdmin)
    (by simp [mundoConSesion, mundoInicial, servidorEjemplo])
    (by decide)

/-- A delete answered with success returns `true`. -/
theorem PlantillaMainJs.apiService.delete_ok (r : Recurso) (id : Int) (w : Mundo)
    (h : w.respuestaOk = true) :
    PlantillaMainJs.apiService.delete r id w = (.ok true, w.trasExito (.delete r id)) := by
  simp [PlantillaMainJs.apiService.delete, PlantillaMainJs.apiService.solicitar_ok _ _ _ w h]

/-- A delete that fails throws and leaves the failure world. -/
theorem PlantillaMainJs.apiService.delete_error (r : Recurso) (id : Int) (w : Mundo)
    (h : w.respuestaOk = false) :
    ∃ e, PlantillaMainJs.apiService.delete r id w
      = (.error e, w.trasFallo (.delete r id) "Error al eliminar los datos") := by
  obtain ⟨e, -, he⟩ := PlantillaMainJs.apiService.solicitar_error (.delete r id)
    (fun _ => true) "Error al eliminar los datos" w h
  exact ⟨e, by simp [PlantillaMainJs.apiService.delete, he]⟩

/-- When every scripted outcome is a success, so is the next one. -/
theorem Mundo.respuestaOk_of_all (w : Mundo) (h : ∀ r ∈ w.red, r.ok = true) :
    w.respuestaOk = true := by
  unfold Mundo.respuestaOk proximaRespuesta
  cases hred : w.red with
  | nil => rfl
  | cons r resto => exact h r (by simp [hred])

/-- C10, evaluated on the sample backend with every request answered: the
administrator accepts the deletion of course 1, which has one enrollment.
The first statement of the `try` block of `confirmarEliminacionCurso` of
explicacion/main.js throws a `TypeError` (the service method that runs calls
`apiService.get`, which the object `apiService` of the file does not define)
and the `catch` block ends the handler: no request at all was issued, so no
delete of an enrollment and no delete of the course; the enrollment of
course 1 and course 1 itself are still stored, and no alert was shown. -/
theorem c10_explicacion_course_deletion_issues_no_request :
    ExplicacionMainJs.inscripcionService.obtenerTodasLasInscripciones
        (mundoConSesion usuarioAdmin) = (.error .typeError, mundoConSesion usuarioAdmin) ∧
    ExplicacionMainJs.gestorCrud.confirmarEliminacionCurso true 1 (mundoConSesion usuarioAdmin)
      = mundoConSesion usuarioAdmin ∧
    (ExplicacionMainJs.gestorCrud.confirmarEliminacionCurso true 1
        (mundoConSesion usuarioAdmin)).peticiones = [] ∧
    (ExplicacionMainJs.gestorCrud.confirmarEliminacionCurso true 1
        (mundoConSesion usuarioAdmin)).servidor.enrollments.map (fun e => (e.id, e.courseId))
      = [(1, 1)] ∧
    (ExplicacionMainJs.gestorCrud.confirmarEliminacionCurso true 1
        (mundoConSesion usuarioAdmin)).servidor.courses.map (fun c => c.id) = [1, 2] ∧
    (ExplicacionMainJs.gestorCrud.confirmarEliminacionCurso true 1
        (mundoConSesion usuarioAdmin)).alertas = [] :=
  ⟨rfl, rfl, rfl, rfl, rfl, rfl⟩

/-! ## Enrollment and course deletion (plantilla_vercel) -/

/-- A create answered with success returns the created record. -/
theorem PlantillaMainJs.apiService.post_ok (r : Recurso) (data : r.Datos) (w : Mundo)
    (h : w.respuestaOk = true) :
    PlantillaMainJs.apiService.post r data w
      = (.ok (r.registro (w.servidor.idNuevo r) data), w.trasExito (.post r (r.cuerpo data))) := by
  simp [PlantillaMainJs.apiService.post, PlantillaMainJs.apiService.solicitar_ok _ _ _ w h]

/-- A create that fails throws and leaves the failure world. -/
theorem PlantillaMainJs.apiService.post_error (r : Recurso) (data : r.Datos) (w : Mundo)
    (h : w.respuestaOk = false) :
    ∃ e, PlantillaMainJs.apiService.post r data w
      = (.error e, w.trasFallo (.post r (r.cuerpo data)) "Error al guardar los datos") := by
  obtain ⟨e, -, he⟩ := PlantillaMainJs.apiService.solicitar_error (.post r (r.cuerpo data))
    (fun _ => r.registro (w.servidor.idNuevo r) data) "Error al guardar los datos" w h
  exact ⟨e, by simp [PlantillaMainJs.apiService.post, he]⟩

/-- The handler of the template performs no check: with a user in the session
and the create request answered, `inscribirEnCurso` appends an enrollment of
that user in the course, whatever the enrollment list holds. -/
theorem PlantillaMainJs.gestorCrud.inscribirEnCurso_appends (idCurso : Int) (u : User)
    (w : Mundo) (huser : w.estadoAplicacion.usuarioActual = some u)
    (hred : w.respuestaOk = true) :
    (PlantillaMainJs.gestorCrud.inscribirEnCurso idCurso w).servidor.enrollments
      = w.servidor.enrollments ++
        [{ id := siguienteId (w.servidor.enrollments.map (fun e => e.id)),
           userId := u.id, courseId := idCurso, enrollmentDate := w.fecha,
           status := "active" }] := by
  simp [PlantillaMainJs.gestorCrud.inscribirEnCurso, huser,
    PlantillaMainJs.inscripcionService.inscribirUsuarioEnCurso,
    PlantillaMainJs.apiService.post_ok _ _ w hred,
    PlantillaMainJs.renderizadorPaginas.cargarListaCursos, Servidor.aplicar, Recurso.cuerpo,
    Recurso.registro, Servidor.idNuevo]

/-- The handler of the template issues no request on the enrollments: whatever
the answer to the confirmation and the outcome of the request, `eliminarCurso`
leaves the enrollment list of the backend as it was. -/
theorem PlantillaMainJs.gestorCrud.eliminarCurso_keeps_enrollments (confirmacion : Bool)
    (idCurso : Int) (w : Mundo) :
    (PlantillaMainJs.gestorCrud.eliminarCurso confirmacion idCurso w).servidor.enrollments
      = w.servidor.enrollments := by
  cases confirmacion with
  | false => simp [PlantillaMainJs.gestorCrud.eliminarCurso]
  | true =>
    cases hred : w.respuestaOk with
    | false =>
      obtain ⟨e, he⟩ := PlantillaMainJs.apiService.delete_error .courses idCurso w hred
      simp [PlantillaMainJs.gestorCrud.eliminarCurso,
        PlantillaMainJs.cursoService.eliminarCurso, he]
    | true =>
      simp [PlantillaMainJs.gestorCrud.eliminarCurso,
        PlantillaMainJs.cursoService.eliminarCurso,
        PlantillaMainJs.apiService.delete_ok _ _ w hred,
        PlantillaMainJs.renderizadorPaginas.cargarListaCursos, Servidor.aplicar]

/-- C11, the code at the failing input: the visitor of the sample backend is
enrolled in course 1 and calls `inscribirEnCurso(1)`.  The handler issues the
create request and nothing else, shows the success alert and no warning, and
the backend then holds two enrollments of user 2 in course 1. -/
theorem c11_plantilla_inscribirEnCurso_duplicates :
    (PlantillaMainJs.gestorCrud.inscribirEnCurso 1 (mundoConSesion usuarioJuan)).peticiones
        = [.post .enrollments (.inscripcion
            { userId := 2, courseId := 1, enrollmentDate := "6/11/2026",
              status := "active" })] ∧
      (PlantillaMainJs.gestorCrud.inscribirEnCurso 1 (mundoConSesion usuarioJuan)).alertas
        = [{ mensaje := "Inscripción realizada exitosamente", tipo := "success" }] ∧
      (PlantillaMainJs.gestorCrud.inscribirEnCurso 1
          (mundoConSesion usuarioJuan)).servidor.enrollments
        = [{ id := 1, userId := 2, courseId := 1, enrollmentDate := "3/1/2024",
             status := "active" },
           { id := 2, userId := 2, courseId := 1, enrollmentDate := "6/11/2026",
             status := "active" }] := by
  decide

/-- C12, the code at the failing input: the administrator of the sample
backend accepts the confirmation of `eliminarCurso(1)` and the request
succeeds.  The handler issues the delete of the course and no other request,
the course is gone, and the enrollment of course 1 is still in the backend. -/
theorem c12_plantilla_eliminarCurso_no_cascade :
    (PlantillaMainJs.gestorCrud.eliminarCurso true 1 (mundoConSesion usuarioAdmin)).peticiones
        = [.delete .courses 1] ∧
      (PlantillaMainJs.gestorCrud.eliminarCurso true 1
          (mundoConSesion usuarioAdmin)).servidor.courses.map (fun c => c.id) = [2] ∧
      (PlantillaMainJs.gestorCrud.eliminarCurso true 1
          (mundoConSesion usuarioAdmin)).servidor.enrollments
        = [{ id := 1, userId := 2, courseId := 1, enrollmentDate := "3/1/2024",
             status := "active" }] := by
  decide

/-! ## Logout and session restore -/

/-- A key that was removed from a store is absent from it. -/
theorem Almacen.getItem_removeItem (a : Almacen) (clave : String) :
    (a.removeItem clave).getItem clave = none := by
  unfold Almacen.getItem Almacen.removeItem
  rw [Option.map_eq_none', List.find?_eq_none]
  intro x hx
  simpa using (List.mem_filter.mp hx).2

/-- C13: for every world (prior session and stores), `cerrarSesion` with at
least one nested call of the router allowed returns normally; afterwards the
user key is absent from the durable store, the flag key is absent from the
session store, the in-memory session has no user and is not authenticated, the
current route of the router is "/login", and `verificarAutenticacion` returns
false and changes nothing.  First part: main.js (keys "currentUser" and
"isAuthenticated", route `appState.currentRoute`); second part:
auth-service.js (keys "usuarioActual" and "estaAutenticado", route
`estadoAplicacion.rutaActual`). -/
theorem c13_logout_then_restore_unauthenticated (n : Nat) (w : Mundo) :
    (∃ w2, PlantillaMainJs.autenticacionService.cerrarSesion (n + 1) w = some (.ok w2) ∧
      w2.localStorage.getItem "currentUser" = none ∧
      w2.sessionStorage.getItem "isAuthenticated" = none ∧
      w2.estadoAplicacion.usuarioActual = none ∧
      w2.estadoAplicacion.estaAutenticado = false ∧
      w2.appState.currentUser = none ∧
      w2.appState.isAuthenticated = false ∧
      w2.appState.currentRoute = "/login" ∧
      PlantillaMainJs.autenticacionService.verificarAutenticacion w2 = (false, w2)) ∧
    (∃ w2, AuthServiceJs.autenticacionService.cerrarSesion (n + 1) w = some (.ok w2) ∧
      w2.localStorage.getItem "usuarioActual" = none ∧
      w2.sessionStorage.getItem "estaAutenticado" = none ∧
      w2.estadoAplicacion.usuarioActual = none ∧
      w2.estadoAplicacion.estaAutenticado = false ∧
      w2.estadoAplicacion.rutaActual = "/login" ∧
      AuthServiceJs.autenticacionService.verificarAutenticacion w2 = (false, w2)) := by
  constructor
  · simp [PlantillaMainJs.autenticacionService.cerrarSesion,
      PlantillaMainJs.autenticacionService.verificarAutenticacion,
      PlantillaMainJs.navegacionService.navegarA,
      PlantillaMainJs.navegacionService.renderizarContenido,
      PlantillaMainJs.navegacionService.fijarRuta,
      PlantillaMainJs.navegacionService.actualizarInterfazUsuario,
      PlantillaMainJs.storage.removeLocal, PlantillaMainJs.storage.removeSession,
      PlantillaMainJs.storage.getLocal, PlantillaMainJs.storage.getSession,
      PlantillaMainJs.apiService.mostrarAlerta, pushState, renderizar,
      Almacen.getItem_removeItem, ValorJson.truthy]
  · simp [AuthServiceJs.autenticacionService.cerrarSesion,
      AuthServiceJs.autenticacionService.verificarAutenticacion,
      NavigationServiceJs.navegacionService.navegarA,
      NavigationServiceJs.navegacionService.renderizarContenido,
      NavigationServiceJs.navegacionService.esRutaPublica,
      NavigationServiceJs.navegacionService.fijarRuta,
      NavigationServiceJs.navegacionService.actualizarNavegacion,
      StorageServiceJs.almacenamientoService.eliminarDeLocal,
      StorageServiceJs.almacenamientoService.eliminarDeSesion,
      StorageServiceJs.almacenamientoService.obtenerDeLocal,
      StorageServiceJs.almacenamientoService.obtenerDeSesion,
      ApiServiceJs.apiService.mostrarAlerta, pushState, renderizar,
      Almacen.getItem_removeItem, ValorJson.truthy]

/-- The restore of main.js in terms of the two stored documents. -/
theorem mainJs_verificarAutenticacion_casos (w : Mundo) :
    (∀ u, w.localStorage.getItem "currentUser" = some (.usuario u) →
      w.sessionStorage.getItem "isAuthenticated" = some (.booleano true) →
      (PlantillaMainJs.autenticacionService.verificarAutenticacion w).1 = true ∧
        (PlantillaMainJs.autenticacionService.verificarAutenticacion
          w).2.estadoAplicacion.usuarioActual = some u ∧
        (PlantillaMainJs.autenticacionService.verificarAutenticacion
          w).2.estadoAplicacion.estaAutenticado = true ∧
        (PlantillaMainJs.autenticacionService.verificarAutenticacion
          w).2.appState.currentUser = some u ∧
        (PlantillaMainJs.autenticacionService.verificarAutenticacion
          w).2.appState.isAuthenticated = true) ∧
    ((PlantillaMainJs.autenticacionService.verificarAutenticacion w).1 = false →
      (PlantillaMainJs.autenticacionService.verificarAutenticacion w).2 = w) ∧
    (w.layoutValido "currentUser" "isAuthenticated" = true →
      ((PlantillaMainJs.autenticacionService.verificarAutenticacion w).1 = true ↔
        ∃ u, w.localStorage.getItem "currentUser" = some (.usuario u) ∧
          w.sessionStorage.getItem "isAuthenticated" = some (.booleano true))) := by
  refine ⟨?_, ?_, ?_⟩
  · intro u h1 h2
    simp [PlantillaMainJs.autenticacionService.verificarAutenticacion,
      PlantillaMainJs.storage.getLocal, PlantillaMainJs.storage.getSession, h1, h2,
      ValorJson.truthy, ValorJson.comoUsuario]
  · simp only [PlantillaMainJs.autenticacionService.verificarAutenticacion]
    by_cases hc : ((PlantillaMainJs.storage.getLocal "currentUser" w).truthy &&
        (PlantillaMainJs.storage.getSession "isAuthenticated" w).truthy) = true
    · simp [hc]
    · simp [hc]
  · intro hlayout
    unfold Mundo.layoutValido at hlayout
    unfold PlantillaMainJs.autenticacionService.verificarAutenticacion
      PlantillaMainJs.storage.getLocal PlantillaMainJs.storage.getSession
    cases h1 : w.localStorage.getItem "currentUser" with
    | none => simp [ValorJson.truthy]
    | some v1 =>
      cases h2 : w.sessionStorage.getItem "isAuthenticated" with
      | none => simp [ValorJson.truthy]
      | some v2 =>
        rw [h1, h2] at hlayout
        cases v1 with
        | usuario u =>
          cases v2 with
          | usuario u2 => simp at hlayout
          | booleano b => cases b <;> simp [ValorJson.truthy]
          | nulo => simp [ValorJson.truthy]
        | booleano b => simp at hlayout
        | nulo => simp [ValorJson.truthy]

/-- The restore of auth-service.js in terms of the two stored documents. -/
theorem authJs_verificarAutenticacion_casos (w : Mundo) :
    (∀ u, w.localStorage.getItem "usuarioActual" = some (.usuario u) →
      w.sessionStorage.getItem "estaAutenticado" = some (.booleano true) →
      (AuthServiceJs.autenticacionService.verificarAutenticacion w).1 = true ∧
        (AuthServiceJs.autenticacionService.verificarAutenticacion
          w).2.estadoAplicacion.usuarioActual = some u ∧
        (AuthServiceJs.autenticacionService.verificarAutenticacion
          w).2.estadoAplicacion.estaAutenticado = true) ∧
    ((AuthServiceJs.autenticacionService.verificarAutenticacion w).1 = false →
      (AuthServiceJs.autenticacionService.verificarAutenticacion w).2 = w) ∧
    (w.layoutValido "usuarioActual" "estaAutenticado" = true →
      ((AuthServiceJs.autenticacionService.verificarAutenticacion w).1 = true ↔
        ∃ u, w.localStorage.getItem "usuarioActual" = some (.usuario u) ∧
          w.sessionStorage.getItem "estaAutenticado" = some (.booleano true))) := by
  refine ⟨?_, ?_, ?_⟩
  · intro u h1 h2
    simp [AuthServiceJs.autenticacionService.verificarAutenticacion,
      StorageServiceJs.almacenamientoService.obtenerDeLocal,
      StorageServiceJs.almacenamientoService.obtenerDeSesion, h1, h2,
      ValorJson.truthy, ValorJson.comoUsuario]
  · simp only [AuthServiceJs.autenticacionService.verificarAutenticacion]
    by_cases hc : ((StorageServiceJs.almacenamientoService.obtenerDeLocal "usuarioActual"
        w).truthy &&
        (StorageServiceJs.almacenamientoService.obtenerDeSesion "estaAutenticado" w).truthy)
        = true
    · simp [hc]
    · simp [hc]
  · intro hlayout
    unfold Mundo.layoutValido at hlayout
    unfold AuthServiceJs.autenticacionService.verificarAutenticacion
      StorageServiceJs.almacenamientoService.obtenerDeLocal
      StorageServiceJs.almacenamientoService.obtenerDeSesion
    cases h1 : w.localStorage.getItem "usuarioActual" with
    | none => simp [ValorJson.truthy]
    | some v1 =>
      cases h2 : w.sessionStorage.getItem "estaAutenticado" with
      | none => simp [ValorJson.truthy]
      | some v2 =>
        rw [h1, h2] at hlayout
        cases v1 with
        | usuario u =>
          cases v2 with
          | usuario u2 => simp at hlayout
          | booleano b => cases b <;> simp [ValorJson.truthy]
          | nulo => simp [ValorJson.truthy]
        | booleano b => simp at hlayout
        | nulo => simp [ValorJson.truthy]

/-- C14: for every world whose stores follow the persisted layout (the user
key holds a user record if anything, the flag key a boolean if anything),
`verificarAutenticacion` returns true if and only if the durable store holds a
user record under the user key and the session store holds `true` under the
flag key; in that case the in-memory session gets the stored user and
authenticated = true; and whenever it returns false (a key absent, or the flag
stored as false) the world, hence the in-memory session, is unchanged.  The
function is total: it raises no error.  First three parts: main.js; last
three parts: auth-service.js. -/
theorem c14_restore_iff_user_and_flag_stored (w : Mundo)
    (hmain : w.layoutValido "currentUser" "isAuthenticated" = true)
    (hauth : w.layoutValido "usuarioActual" "estaAutenticado" = true) :
    ((PlantillaMainJs.autenticacionService.verificarAutenticacion w).1 = true ↔
      ∃ u, w.localStorage.getItem "currentUser" = some (.usuario u) ∧
        w.sessionStorage.getItem "isAuthenticated" = some (.booleano true)) ∧
    (∀ u, w.localStorage.getItem "currentUser" = some (.usuario u) →
      w.sessionStorage.getItem "isAuthenticated" = some (.booleano true) →
      (PlantillaMainJs.autenticacionService.verificarAutenticacion w).1 = true ∧
        (PlantillaMainJs.autenticacionService.verificarAutenticacion
          w).2.estadoAplicacion.usuarioActual = some u ∧
        (PlantillaMainJs.autenticacionService.verificarAutenticacion
          w).2.estadoAplicacion.estaAutenticado = true ∧
        (PlantillaMainJs.autenticacionService.verificarAutenticacion
          w).2.appState.currentUser = some u ∧
        (PlantillaMainJs.autenticacionService.verificarAutenticacion
          w).2.appState.isAuthenticated = true) ∧
    ((PlantillaMainJs.autenticacionService.verificarAutenticacion w).1 = false →
      (PlantillaMainJs.autenticacionService.verificarAutenticacion w).2 = w) ∧
    ((AuthServiceJs.autenticacionService.verificarAutenticacion w).1 = true ↔
      ∃ u, w.localStorage.getItem "usuarioActual" = some (.usuario u) ∧
        w.sessionStorage.getItem "estaAutenticado" = some (.booleano true)) ∧
    (∀ u, w.localStorage.getItem "usuarioActual" = some (.usuario u) →
      w.sessionStorage.getItem "estaAutenticado" = some (.booleano true) →
      (AuthServiceJs.autenticacionService.verificarAutenticacion w).1 = true ∧
        (AuthServiceJs.autenticacionService.verificarAutenticacion
          w).2.estadoAplicacion.usuarioActual = some u ∧
        (AuthServiceJs.autenticacionService.verificarAutenticacion
          w).2.estadoAplicacion.estaAutenticado = true) ∧
    ((AuthServiceJs.autenticacionService.verificarAutenticacion w).1 = false →
      (AuthServiceJs.autenticacionService.verificarAutenticacion w).2 = w) :=
  ⟨(mainJs_verificarAutenticacion_casos w).2.2 hmain,
   (mainJs_verificarAutenticacion_casos w).1,
   (mainJs_verificarAutenticacion_casos w).2.1,
   (authJs_verificarAutenticacion_casos w).2.2 hauth,
   (authJs_verificarAutenticacion_casos w).1,
   (authJs_verificarAutenticacion_casos w).2.1⟩

/-- Witness of C14: the stores left by a login of the visitor, after a page
reload. -/
theorem c14_restore_iff_user_and_flag_stored_witness :
    ((PlantillaMainJs.autenticacionService.verificarAutenticacion mundoRecargado).1 = true ↔
      ∃ u, mundoRecargado.localStorage.getItem "currentUser" = some (.usuario u) ∧
        mundoRecargado.sessionStorage.getItem "isAuthenticated" = some (.booleano true)) ∧
    (∀ u, mundoRecargado.localStorage.getItem "currentUser" = some (.usuario u) →
      mundoRecargado.sessionStorage.getItem "isAuthenticated" = some (.booleano true) →
      (PlantillaMainJs.autenticacionService.verificarAutenticacion mundoRecargado).1 = true ∧
        (PlantillaMainJs.autenticacionService.verificarAutenticacion
          mundoRecargado).2.estadoAplicacion.usuarioActual = some u ∧
        (PlantillaMainJs.autenticacionService.verificarAutenticacion
          mundoRecargado).2.estadoAplicacion.estaAutenticado = true ∧
        (PlantillaMainJs.autenticacionService.verificarAutenticacion
          mundoRecargado).2.appState.currentUser = some u ∧
        (PlantillaMainJs.autenticacionService.verificarAutenticacion
          mundoRecargado).2.appState.isAuthenticated = true) ∧
    ((PlantillaMainJs.autenticacionService.verificarAutenticacion mundoRecargado).1 = false →
      (PlantillaMainJs.autenticacionService.verificarAutenticacion mundoRecargado).2
        = mundoRecargado) ∧
    ((AuthServiceJs.autenticacionService.verificarAutenticacion mundoRecargado).1 = true ↔
      ∃ u, mundoRecargado.localStorage.getItem "usuarioActual" = some (.usuario u) ∧
        mundoRecargado.sessionStorage.getItem "estaAutenticado" = some (.booleano true)) ∧
    (∀ u, mundoRecargado.localStorage.getItem "usuarioActual" = some (.usuario u) →
      mundoRecargado.sessionStorage.getItem "estaAutenticado" = some (.booleano true) →
      (AuthServiceJs.autenticacionService.verificarAutenticacion mundoRecargado).1 = true ∧
        (AuthServiceJs.autenticacionService.verificarAutenticacion
          mundoRecargado).2.estadoAplicacion.usuarioActual = some u ∧
        (AuthServiceJs.autenticacionService.verificarAutenticacion
          mundoRecargado).2.estadoAplicacion.estaAutenticado = true) ∧
    ((AuthServiceJs.autenticacionService.verificarAutenticacion mundoRecargado).1 = false →
      (AuthServiceJs.autenticacionService.verificarAutenticacion mundoRecargado).2
        = mundoRecargado) :=
  c14_restore_iff_user_and_flag_stored mundoRecargado rfl rfl

/-! ## Router: unknown routes -/

/-- C15: for every authenticated session with a current user and every route
other than "/login", "/register", "/", "/dashboard", "/users", "/courses" and
"/enrollments", `renderizarContenido` with at least one call allowed returns
normally, renders the 404 view and no other view, pushes no history entry (no
redirect) and leaves the current route unchanged.  First part:
navigation-service.js; second part: main.js. -/
theorem c15_unknown_route_renders_404 (n : Nat) (r : String) (u : User)
    (h1 : r ≠ "/login") (h2 : r ≠ "/register") (h3 : r ≠ "/") (h4 : r ≠ "/dashboard")
    (h5 : r ≠ "/users") (h6 : r ≠ "/courses") (h7 : r ≠ "/enrollments") :
    (∀ w : Mundo, w.estadoAplicacion.rutaActual = r →
      w.estadoAplicacion.estaAutenticado = true →
      w.estadoAplicacion.usuarioActual = some u →
      ∃ w2, NavigationServiceJs.navegacionService.renderizarContenido (n + 1) w
          = some (.ok w2) ∧
        w2.vistas = w.vistas ++ [Vista.pagina404] ∧
        w2.historial = w.historial ∧
        w2.estadoAplicacion.rutaActual = r) ∧
    (∀ w : Mundo, w.appState.currentRoute = r →
      w.appState.isAuthenticated = true →
      w.estadoAplicacion.estaAutenticado = true →
      w.estadoAplicacion.usuarioActual = some u →
      ∃ w2, PlantillaMainJs.navegacionService.renderizarContenido (n + 1) w
          = some (.ok w2) ∧
        w2.vistas = w.vistas ++ [Vista.pagina404] ∧
        w2.historial = w.historial ∧
        w2.appState.currentRoute = r) := by
  constructor
  · intro w hruta hauth huser
    subst hruta
    simp [NavigationServiceJs.navegacionService.renderizarContenido,
      NavigationServiceJs.navegacionService.esRutaPublica,
      NavigationServiceJs.navegacionService.actualizarNavegacion,
      NavigationServiceJs.navegacionService.actualizarEnlaceActivo,
      NavigationServiceJs.navegacionService.esUsuarioAdministrador, renderizar,
      hauth, huser, h1, h2, h3, h4, h5, h6, h7]
    split <;> simp
  · intro w hruta hauth hauth2 huser
    subst hruta
    simp [PlantillaMainJs.navegacionService.renderizarContenido,
      PlantillaMainJs.navegacionService.actualizarInterfazUsuario,
      PlantillaMainJs.navegacionService.actualizarEnlaceActivo,
      PlantillaMainJs.navegacionService.esUsuarioAdministrador, renderizar,
      hauth, hauth2, huser, h1, h2, h3, h4, h5, h6, h7]
    split <;> simp

/-- Witness of C15: the visitor of the sample backend on the route
"/reports". -/
theorem c15_unknown_route_renders_404_witness :
    (∃ w2, NavigationServiceJs.navegacionService.renderizarContenido 1 mundoRutaDesconocida
        = some (.ok w2) ∧
      w2.vistas = mundoRutaDesconocida.vistas ++ [Vista.pagina404] ∧
      w2.historial = mundoRutaDesconocida.historial ∧
      w2.estadoAplicacion.rutaActual = "/reports") ∧
    (∃ w2, PlantillaMainJs.navegacionService.renderizarContenido 1 mundoRutaDesconocida
        = some (.ok w2) ∧
      w2.vistas = mundoRutaDesconocida.vistas ++ [Vista.pagina404] ∧
      w2.historial = mundoRutaDesconocida.historial ∧
      w2.appState.currentRoute = "/reports") :=
  ⟨(c15_unknown_route_renders_404 0 "/reports" usuarioJuan (by decide) (by decide)
      (by decide) (by decide) (by decide) (by decide) (by decide)).1
      mundoRutaDesconocida rfl rfl rfl,
   (c15_unknown_route_renders_404 0 "/reports" usuarioJuan (by decide) (by decide)
      (by decide) (by decide) (by decide) (by decide) (by decide)).2
      mundoRutaDesconocida rfl rfl rfl rfl⟩

/-! ## Enrollment queries -/

/-- A read through api-service.js answered with success returns the table and
leaves the backend as it was. -/
theorem ApiServiceJs.apiService.obtenerDatos_ok (r : Recurso) (w : Mundo)
    (h : w.respuestaOk = true) :
    ApiServiceJs.apiService.obtenerDatos r w
      = (.ok (w.servidor.tabla r), w.trasExito (.get r)) := by
  simp [ApiServiceJs.apiService.obtenerDatos,
    ApiServiceJs.apiService.realizarPeticion_ok _ _ w h]

/-- C16: when the read of the enrollments is answered,
`obtenerInscripcionesDeUsuario(u)` returns a list `r` that is the enrollment
list filtered by `userId = u`: `r` is a sublist of the enrollment list (the
relative order is kept), its members are exactly the enrollments of the list
whose userId is `u` (none of another user), and each of them occurs in `r` as
many times as in the list.  The same list is returned by
enrollment-service.js and by main.js of plantilla_vercel. -/
theorem c16_enrollments_of_user_exact (u : Int) (w : Mundo) (hred : w.respuestaOk = true) :
    ∃ r : List Enrollment,
      (EnrollmentServiceJs.inscripcionService.obtenerInscripcionesDeUsuario u w).1 = .ok r ∧
      (PlantillaMainJs.inscripcionService.obtenerInscripcionesDeUsuario u w).1 = .ok r ∧
      r = w.servidor.enrollments.filter (fun e => e.userId == u) ∧
      r.Sublist w.servidor.enrollments ∧
      (∀ e, e ∈ r ↔ (e ∈ w.servidor.enrollments ∧ e.userId = u)) ∧
      (∀ e, e.userId = u → r.count e = w.servidor.enrollments.count e) := by
  refine ⟨w.servidor.enrollments.filter (fun e => e.userId == u), ?_, ?_, rfl,
    List.filter_sublist _, ?_, ?_⟩
  · simp [EnrollmentServiceJs.inscripcionService.obtenerInscripcionesDeUsuario,
      EnrollmentServiceJs.inscripcionService.obtenerTodasLasInscripciones,
      ApiServiceJs.apiService.obtenerDatos_ok _ w hred, Servidor.tabla]
  · simp [PlantillaMainJs.inscripcionService.obtenerInscripcionesDeUsuario,
      PlantillaMainJs.inscripcionService.obtenerTodasLasInscripciones,
      PlantillaMainJs.apiService.get_ok _ w hred, Servidor.tabla]
  · intro e
    simp [List.mem_filter]
  · intro e he
    exact List.count_filter (by simp [he])

/-- Witness of C16: the enrollments of the visitor in the sample backend. -/
theorem c16_enrollments_of_user_exact_witness :
    ∃ r : List Enrollment,
      (EnrollmentServiceJs.inscripcionService.obtenerInscripcionesDeUsuario 2
        (mundoConSesion usuarioJuan)).1 = .ok r ∧
      (PlantillaMainJs.inscripcionService.obtenerInscripcionesDeUsuario 2
        (mundoConSesion usuarioJuan)).1 = .ok r ∧
      r = (mundoConSesion usuarioJuan).servidor.enrollments.filter (fun e => e.userId == 2) ∧
      r.Sublist (mundoConSesion usuarioJuan).servidor.enrollments ∧
      (∀ e, e ∈ r ↔ (e ∈ (mundoConSesion usuarioJuan).servidor.enrollments ∧ e.userId = 2)) ∧
      (∀ e, e.userId = 2 →
        r.count e = (mundoConSesion usuarioJuan).servidor.enrollments.count e) :=
  c16_enrollments_of_user_exact 2 (mundoConSesion usuarioJuan) rfl

/-- The is-enrolled check of enrollment-service.js: when the read of the
enrollments is answered it returns a boolean that is true if and only if the
enrollment list contains an enrollment with userId `u` and courseId `c`. -/
theorem enrollmentServiceJs_verificarInscripcionUsuario_iff (u c : Int) (w : Mundo)
    (hred : w.respuestaOk = true) :
    ∃ b : Bool,
      (EnrollmentServiceJs.inscripcionService.verificarInscripcionUsuario u c w).1 = .ok b ∧
      (b = true ↔ ∃ e ∈ w.servidor.enrollments, e.userId = u ∧ e.courseId = c) := by
  refine ⟨(w.servidor.enrollments.filter (fun e => e.userId == u)).any
    (fun e => e.courseId == c), ?_, ?_⟩
  · simp [EnrollmentServiceJs.inscripcionService.verificarInscripcionUsuario,
      EnrollmentServiceJs.inscripcionService.obtenerInscripcionesDeUsuario,
      EnrollmentServiceJs.inscripcionService.obtenerTodasLasInscripciones,
      ApiServiceJs.apiService.obtenerDatos_ok _ w hred, Servidor.tabla]
  · rw [List.any_eq_true]
    constructor
    · rintro ⟨e, he, hc⟩
      obtain ⟨hmem, hu⟩ := List.mem_filter.mp he
      exact ⟨e, hmem, by simpa using hu, by simpa using hc⟩
    · rintro ⟨e, hmem, hu, hc⟩
      exact ⟨e, List.mem_filter.mpr ⟨hmem, by simp [hu]⟩, by simp [hc]⟩

/-- C17, evaluated on the sample backend with every request answered, for the
visitor (id 2) and course 1, of which the enrollment list holds a record:
`verificarInscripcionUsuario(2, 1)` of explicacion/main.js returns no boolean,
it throws a `TypeError` without issuing a request (the service method that
runs calls `apiService.get`, which the object `apiService` of the file does
not define); on the same input the function of the same name of
enrollment-service.js issues the read and returns `true`. -/
theorem c17_explicacion_verificarInscripcionUsuario_throws :
    (∃ e ∈ (mundoConSesion usuarioJuan).servidor.enrollments, e.userId = 2 ∧ e.courseId = 1) ∧
    ExplicacionMainJs.inscripcionService.verificarInscripcionUsuario 2 1
        (mundoConSesion usuarioJuan) = (.error .typeError, mundoConSesion usuarioJuan) ∧
    (EnrollmentServiceJs.inscripcionService.verificarInscripcionUsuario 2 1
        (mundoConSesion usuarioJuan)).1 = .ok true ∧
    (EnrollmentServiceJs.inscripcionService.verificarInscripcionUsuario 2 1
        (mundoConSesion usuarioJuan)).2.peticiones = [.get .enrollments] :=
  ⟨⟨{ id := 1, userId := 2, courseId := 1, enrollmentDate := "3/1/2024", status := "active" },
      by decide, rfl, rfl⟩, rfl, rfl, rfl⟩

/-! ## Enrollment: capacity and referential integrity (explicacion) -/

/-- C18: let `c` be the stored course with its id.  Whatever the enrollment
list holds (inactive enrollments, more enrollments than the capacity),
`procesarInscripcionEnCurso(c.id)` either leaves the enrollment list as it
was, or appends one enrollment of course `c`; in the second case the
enrollments of `c` with status "active" in the new list are at most
`c.capacity`.  In explicacion/main.js the handler stops at its first service
call, so it is always the first case. -/
theorem c18_capacity_holds_after_creation (c : Course) (w : Mundo)
    (hunico : ∀ c2 ∈ w.servidor.courses, c2.id = c.id → c2 = c) :
    (ExplicacionMainJs.gestorCrud.procesarInscripcionEnCurso c.id w).servidor.enrollments
        = w.servidor.enrollments ∨
      (∃ nuevo,
        (ExplicacionMainJs.gestorCrud.procesarInscripcionEnCurso c.id w).servidor.enrollments
          = w.servidor.enrollments ++ [nuevo] ∧
        nuevo.courseId = c.id ∧
        (((ExplicacionMainJs.gestorCrud.procesarInscripcionEnCurso c.id
            w).servidor.enrollments.filter
              (fun e => e.courseId == c.id && e.status == "active")).length : Int)
          ≤ c.capacity) := by
  rw [explicacion_procesarInscripcionEnCurso_sin_efecto]
  exact Or.inl rfl

/-- Witness of C18: the visitor asks for course 2 of a backend where that
course has an inactive enrollment. -/
theorem c18_capacity_holds_after_creation_witness :
    (ExplicacionMainJs.gestorCrud.procesarInscripcionEnCurso 2
        mundoConInactiva).servidor.enrollments = mundoConInactiva.servidor.enrollments ∨
      (∃ nuevo,
        (ExplicacionMainJs.gestorCrud.procesarInscripcionEnCurso 2
            mundoConInactiva).servidor.enrollments
          = mundoConInactiva.servidor.enrollments ++ [nuevo] ∧
        nuevo.courseId = 2 ∧
        (((ExplicacionMainJs.gestorCrud.procesarInscripcionEnCurso 2
            mundoConInactiva).servidor.enrollments.filter
              (fun e => e.courseId == 2 && e.status == "active")).length : Int) ≤ 5) :=
  c18_capacity_holds_after_creation
    { id := 2, title := "HTML", description := "Intro", instructor := "Luis",
      startDate := "2024-03-01", duration := "2 semanas", capacity := 5 }
    mundoConInactiva
    (by simp [mundoConInactiva, mundoConSesion, mundoInicial, servidorEjemplo])

/-- In the world of the witness of C18 no enrollment is created: the handler
stops at its first service call and the enrollment list is as before. -/
theorem procesarInscripcionEnCurso_creates_nothing_example :
    (ExplicacionMainJs.gestorCrud.procesarInscripcionEnCurso 2
        mundoConInactiva).servidor.enrollments.map (fun e => (e.id, e.userId, e.courseId, e.status))
      = [(1, 2, 1, "active"), (2, 1, 2, "inactive")] := by
  decide

/-- C19: when no course of the backend has the id `idCurso`,
`procesarInscripcionEnCurso(idCurso)` issues only reads (no create request)
and leaves the backend, hence the enrollment list, unchanged; so an
enrollment is created only for the id of a stored course.  In
explicacion/main.js the handler stops at its first service call, so the list
of requests issued is empty. -/
theorem c19_no_enrollment_for_unknown_course (idCurso : Int) (w : Mundo)
    (hno : ∀ c ∈ w.servidor.courses, c.id ≠ idCurso) :
    ∃ nuevas,
      (ExplicacionMainJs.gestorCrud.procesarInscripcionEnCurso idCurso w).peticiones
        = w.peticiones ++ nuevas ∧
      (∀ p ∈ nuevas, p.esLectura = true) ∧
      (ExplicacionMainJs.gestorCrud.procesarInscripcionEnCurso idCurso w).servidor
        = w.servidor := by
  rw [explicacion_procesarInscripcionEnCurso_sin_efecto]
  exact ⟨[], by simp, by simp, rfl⟩

/-- Witness of C19: the visitor of the sample backend asks for course 7,
which does not exist. -/
theorem c19_no_enrollment_for_unknown_course_witness :
    ∃ nuevas,
      (ExplicacionMainJs.gestorCrud.procesarInscripcionEnCurso 7
          (mundoConSesion usuarioJuan)).peticiones
        = (mundoConSesion usuarioJuan).peticiones ++ nuevas ∧
      (∀ p ∈ nuevas, p.esLectura = true) ∧
      (ExplicacionMainJs.gestorCrud.procesarInscripcionEnCurso 7
          (mundoConSesion usuarioJuan)).servidor = (mundoConSesion usuarioJuan).servidor :=
  c19_no_enrollment_for_unknown_course 7 (mundoConSesion usuarioJuan)
    (by simp [mundoConSesion, mundoInicial, servidorEjemplo])

/-! ## HTTP error policy (api-service.js) -/

/-- The login of auth-service.js rethrows the error of the read of the users
as it is. -/
theorem authJs_iniciarSesion_propagates (email password : String) (w : Mundo) (e : Fallo)
    (h : (ApiServiceJs.apiService.realizarPeticion (.get .users)
      (fun s => s.tabla .users) w).1 = .error e) :
    (AuthServiceJs.autenticacionService.iniciarSesion email password w).1 = .error e := by
  unfold AuthServiceJs.autenticacionService.iniciarSesion ApiServiceJs.apiService.obtenerDatos
  generalize ApiServiceJs.apiService.realizarPeticion (.get .users)
    (fun s => s.tabla .users) w = res at h
  obtain ⟨r1, w1⟩ := res
  simp only at h
  subst h
  simp [AuthServiceJs.autenticacionService.alCapturar]

/-- C20: `realizarPeticion` (1) on a success status (200-299) returns the
parsed body of the answer and shows no alert; (2) on any other status throws
the error `Error HTTP: <status>` created in its `try` block, and (3) on a
rejected `fetch` throws that rejection; in (2) and (3) the wrapper has shown
exactly one alert, the error alert "Error en la operación", and the backend is
as before; (4) a caller such as `iniciarSesion` of auth-service.js throws the
same error it received from the wrapper and leaves the in-memory session and
both stores unchanged. -/
theorem c20_http_error_policy {α : Type} (p : Peticion) (json : Servidor → α)
    (w : Mundo) :
    (∀ status, proximaRespuesta w.red = .estado status → 200 ≤ status → status ≤ 299 →
      ApiServiceJs.apiService.realizarPeticion p json w
          = (.ok (json (w.servidor.aplicar p)), w.trasExito p) ∧
        (ApiServiceJs.apiService.realizarPeticion p json w).2.alertas = w.alertas) ∧
    (∀ status, proximaRespuesta w.red = .estado status → ¬ (200 ≤ status ∧ status ≤ 299) →
      (ApiServiceJs.apiService.realizarPeticion p json w).1
          = .error (.http status ("Error HTTP: " ++ toString status)) ∧
        (ApiServiceJs.apiService.realizarPeticion p json w).2.alertas
          = w.alertas ++ [{ mensaje := "Error en la operación", tipo := "error" }] ∧
        (ApiServiceJs.apiService.realizarPeticion p json w).2.servidor = w.servidor) ∧
    (proximaRespuesta w.red = .sinConexion →
      (ApiServiceJs.apiService.realizarPeticion p json w).1 = .error .sinConexion ∧
        (ApiServiceJs.apiService.realizarPeticion p json w).2.alertas
          = w.alertas ++ [{ mensaje := "Error en la operación", tipo := "error" }] ∧
        (ApiServiceJs.apiService.realizarPeticion p json w).2.servidor = w.servidor) ∧
    (∀ (email password : String) (e : Fallo),
      (ApiServiceJs.apiService.realizarPeticion (.get .users)
        (fun s => s.tabla .users) w).1 = .error e →
      (AuthServiceJs.autenticacionService.iniciarSesion email password w).1 = .error e ∧
        (AuthServiceJs.autenticacionService.iniciarSesion email password w).2.estadoAplicacion
          = w.estadoAplicacion ∧
        (AuthServiceJs.autenticacionService.iniciarSesion email password w).2.appState
          = w.appState ∧
        (AuthServiceJs.autenticacionService.iniciarSesion email password w).2.localStorage
          = w.localStorage ∧
        (AuthServiceJs.autenticacionService.iniciarSesion email password w).2.sessionStorage
          = w.sessionStorage) := by
  refine ⟨?_, ?_, ?_, ?_⟩
  · intro status hr h1 h2
    have hok : w.respuestaOk = true := by simp [Mundo.respuestaOk, hr, Respuesta.ok, h1, h2]
    rw [ApiServiceJs.apiService.realizarPeticion_ok p json w hok]
    exact ⟨rfl, rfl⟩
  · intro status hr hno
    have hno2 : (Respuesta.estado status).ok = false := by
      simp only [Respuesta.ok, Bool.and_eq_false_iff, decide_eq_false_iff_not]
      by_cases h1 : 200 ≤ status
      · exact Or.inr (fun h2 => hno ⟨h1, h2⟩)
      · exact Or.inl h1
    simp [ApiServiceJs.apiService.realizarPeticion, fetch, hr, hno2,
      ApiServiceJs.apiService.mostrarCargando, ApiServiceJs.apiService.mostrarAlerta]
  · intro hr
    simp [ApiServiceJs.apiService.realizarPeticion, fetch, hr, Respuesta.ok,
      ApiServiceJs.apiService.mostrarCargando, ApiServiceJs.apiService.mostrarAlerta]
  · intro email password e h
    have hprop := authJs_iniciarSesion_propagates email password w e h
    exact ⟨hprop, authJs_iniciarSesion_error_frame email password w e hprop⟩

/-- The initial world with a network that answers the next request with
status 503: the wrapper throws `Error HTTP: 503` and shows one alert. -/
theorem realizarPeticion_status_503_example :
    (ApiServiceJs.apiService.realizarPeticion (.get .users) (fun s => s.tabla .users)
        { mundoInicial with red := [.estado 503] }).1
        = .error (.http 503 "Error HTTP: 503") ∧
      (ApiServiceJs.apiService.realizarPeticion (.get .users) (fun s => s.tabla .users)
        { mundoInicial with red := [.estado 503] }).2.alertas
        = [{ mensaje := "Error en la operación", tipo := "error" }] :=
  ⟨rfl, rfl⟩

/-! ## Form validation -/

/-- The pattern `[clase]+ resto` matches exactly the inputs that split into a
non-empty run of characters of the class and a rest that `resto` matches. -/
theorem Patron.unoOMas_iff (clase : Char → Bool) (resto : Coincidencia) (s : List Char) :
    Patron.unoOMas clase resto s = true ↔
      ∃ a b, s = a ++ b ∧ a ≠ [] ∧ (∀ x ∈ a, clase x = true) ∧ resto b = true := by
  induction s with
  | nil =>
    simp [Patron.unoOMas]
  | cons c cs ih =>
    simp only [Patron.unoOMas, Bool.and_eq_true, Bool.or_eq_true, ih]
    constructor
    · rintro ⟨hc, ⟨a, b, rfl, -, ha, hb⟩ | hb⟩
      · exact ⟨c :: a, b, rfl, by simp, by simpa [hc] using ha, hb⟩
      · exact ⟨[c], cs, rfl, by simp, by simpa using hc, hb⟩
    · rintro ⟨a, b, hab, hne, ha, hb⟩
      cases a with
      | nil => exact absurd rfl hne
      | cons x xs =>
        simp only [List.cons_append, List.cons.injEq] at hab
        obtain ⟨rfl, rfl⟩ := hab
        refine ⟨ha c (by simp), ?_⟩
        cases xs with
        | nil => right; simpa using hb
        | cons y ys =>
          left
          exact ⟨y :: ys, b, rfl, by simp, fun z hz => ha z (by simp at hz ⊢; tauto), hb⟩

/-- A literal matches exactly the inputs that start with it. -/
theorem Patron.literal_iff (c : Char) (resto : Coincidencia) (s : List Char) :
    Patron.literal c resto s = true ↔ ∃ b, s = c :: b ∧ resto b = true := by
  cases s with
  | nil => simp [Patron.literal]
  | cons d ds =>
    simp only [Patron.literal, Bool.and_eq_true, beq_iff_eq, List.cons.injEq]
    constructor
    · rintro ⟨rfl, h⟩
      exact ⟨ds, ⟨rfl, rfl⟩, h⟩
    · rintro ⟨b, ⟨rfl, rfl⟩, h⟩
      exact ⟨rfl, h⟩

/-- The end assertion matches the empty rest only. -/
theorem Patron.fin_iff (s : List Char) : Patron.fin s = true ↔ s = [] := by
  cases s <;> simp [Patron.fin]

/-- The email pattern matches exactly the strings `a@b.c` with `a`, `b`, `c`
non-empty and free of white space and of "@". -/
theorem Patron.correo_iff (s : List Char) :
    Patron.correo s = true ↔
      ∃ a b c, s = a ++ '@' :: (b ++ '.' :: c) ∧ a ≠ [] ∧ b ≠ [] ∧ c ≠ [] ∧
        (∀ x ∈ a, Patron.niEspacioNiArroba x = true) ∧
        (∀ x ∈ b, Patron.niEspacioNiArroba x = true) ∧
        (∀ x ∈ c, Patron.niEspacioNiArroba x = true) := by
  unfold Patron.correo
  simp only [Patron.unoOMas_iff, Patron.literal_iff, Patron.fin_iff]
  constructor
  · rintro ⟨a, r1, rfl, ha, hA, r2, rfl, b, r3, rfl, hb, hB, r4, rfl, c, r5, rfl, hc, hC, rfl⟩
    exact ⟨a, b, c, by simp, ha, hb, hc, hA, hB, hC⟩
  · rintro ⟨a, b, c, rfl, ha, hb, hc, hA, hB, hC⟩
    exact ⟨a, _, rfl, ha, hA, _, rfl, b, _, rfl, hb, hB, _, rfl, c, [], by simp, hc, hC, rfl⟩

/-- The email pattern in the words of the spec: no white space, exactly one
"@", something before it, and after it a "." with something on both sides. -/
theorem Patron.correo_caracterizacion (s : List Char) :
    Patron.correo s = true ↔
      (∀ ch ∈ s, esEspacio ch = false) ∧ s.count '@' = 1 ∧
      ∃ a r, s = a ++ '@' :: r ∧ a ≠ [] ∧ ∃ b c, r = b ++ '.' :: c ∧ b ≠ [] ∧ c ≠ [] := by
  rw [Patron.correo_iff]
  have hclase : ∀ x : Char, Patron.niEspacioNiArroba x = true ↔ esEspacio x = false ∧ x ≠ '@' := by
    intro x
    simp [Patron.niEspacioNiArroba]
  have harroba : esEspacio '@' = false := by decide
  have hpunto : esEspacio '.' = false := by decide
  constructor
  · rintro ⟨a, b, c, rfl, ha, hb, hc, hA, hB, hC⟩
    have hA0 : List.count '@' a = 0 :=
      List.count_eq_zero.mpr (fun h => ((hclase _).mp (hA _ h)).2 rfl)
    have hB0 : List.count '@' b = 0 :=
      List.count_eq_zero.mpr (fun h => ((hclase _).mp (hB _ h)).2 rfl)
    have hC0 : List.count '@' c = 0 :=
      List.count_eq_zero.mpr (fun h => ((hclase _).mp (hC _ h)).2 rfl)
    refine ⟨?_, ?_, a, _, rfl, ha, b, c, rfl, hb, hc⟩
    · intro ch hch
      simp only [List.mem_append, List.mem_cons] at hch
      rcases hch with h | rfl | h | rfl | h
      · exact ((hclase _).mp (hA _ h)).1
      · exact harroba
      · exact ((hclase _).mp (hB _ h)).1
      · exact hpunto
      · exact ((hclase _).mp (hC _ h)).1
    · simp [List.count_append, List.count_cons, hA0, hB0, hC0]
  · rintro ⟨hws, hcount, a, r, rfl, ha, b, c, rfl, hb, hc⟩
    have hsum : List.count '@' a + List.count '@' b + List.count '@' c = 0 := by
      simp [List.count_append, List.count_cons] at hcount
      omega
    have hA0 : '@' ∉ a := List.count_eq_zero.mp (by omega)
    have hB0 : '@' ∉ b := List.count_eq_zero.mp (by omega)
    have hC0 : '@' ∉ c := List.count_eq_zero.mp (by omega)
    refine ⟨a, b, c, rfl, ha, hb, hc, ?_, ?_, ?_⟩
    · intro x hx
      exact (hclase x).mpr ⟨hws x (by simp [hx]), fun h => hA0 (h ▸ hx)⟩
    · intro x hx
      exact (hclase x).mpr ⟨hws x (by simp [hx]), fun h => hB0 (h ▸ hx)⟩
    · intro x hx
      exact (hclase x).mpr ⟨hws x (by simp [hx]), fun h => hC0 (h ▸ hx)⟩

/-- C25: for every string, each email validator (`validarCorreoElectronico` of
validation-utils.js, `validateEmail` and `validacionUtils.validarCorreoElectronico`
of main.js) returns true if and only if the string has no white space
character, has exactly one "@", and splits as a non-empty part, the "@", and a
rest that holds a "." with at least one character before it and at least one
after it. -/
theorem c25_email_validator_characterisation (s : String) :
    (ValidationUtilsJs.validacionUtils.validarCorreoElectronico s = true ↔
      (∀ ch ∈ s.data, esEspacio ch = false) ∧ s.data.count '@' = 1 ∧
      ∃ a r, s.data = a ++ '@' :: r ∧ a ≠ [] ∧ ∃ b c, r = b ++ '.' :: c ∧ b ≠ [] ∧ c ≠ []) ∧
    (PlantillaMainJs.validateEmail s = true ↔
      (∀ ch ∈ s.data, esEspacio ch = false) ∧ s.data.count '@' = 1 ∧
      ∃ a r, s.data = a ++ '@' :: r ∧ a ≠ [] ∧ ∃ b c, r = b ++ '.' :: c ∧ b ≠ [] ∧ c ≠ []) ∧
    (PlantillaMainJs.validacionUtils.validarCorreoElectronico s = true ↔
      (∀ ch ∈ s.data, esEspacio ch = false) ∧ s.data.count '@' = 1 ∧
      ∃ a r, s.data = a ++ '@' :: r ∧ a ≠ [] ∧ ∃ b c, r = b ++ '.' :: c ∧ b ≠ [] ∧ c ≠ []) :=
  ⟨Patron.correo_caracterizacion s.data, Patron.correo_caracterizacion s.data,
   Patron.correo_caracterizacion s.data⟩

/-- The validators on sample addresses. -/
theorem validarCorreoElectronico_examples :
    ValidationUtilsJs.validacionUtils.validarCorreoElectronico "juan@email.com" = true ∧
    ValidationUtilsJs.validacionUtils.validarCorreoElectronico "juan@email" = false ∧
    ValidationUtilsJs.validacionUtils.validarCorreoElectronico "juan@@email.com" = false ∧
    ValidationUtilsJs.validacionUtils.validarCorreoElectronico "ju an@email.com" = false ∧
    ValidationUtilsJs.validacionUtils.validarCorreoElectronico "@email.com" = false ∧
    ValidationUtilsJs.validacionUtils.validarCorreoElectronico "juan@.com" = false ∧
    ValidationUtilsJs.validacionUtils.validarCorreoElectronico "juan@email." = false ∧
    ValidationUtilsJs.validacionUtils.validarCorreoElectronico "a.b@c.d.e" = true := by
  decide

/-- The call `trim()` gives the empty string exactly on the strings made of
white space only. -/
theorem trim_eq_empty_iff (s : String) :
    trim s = "" ↔ ∀ c ∈ s.data, esEspacio c = true := by
  unfold trim
  have h1 : ∀ l : List Char, String.mk l = "" ↔ l = [] := by
    intro l
    constructor
    · intro h
      have := congrArg String.data h
      simpa using this
    · rintro rfl
      rfl
  rw [h1, List.reverse_eq_nil_iff, List.dropWhile_eq_nil_iff]
  constructor
  · intro h c hc
    rw [← List.takeWhile_append_dropWhile esEspacio s.data] at hc
    rcases List.mem_append.mp hc with hc | hc
    · exact List.mem_takeWhile_imp hc
    · exact h c (List.mem_reverse.mpr hc)
  · intro h c hc
    exact h c ((List.dropWhile_sublist _).subset (List.mem_reverse.mp hc))

/-- A `forEach` loop that pushes `f x` for the elements that satisfy `p`. -/
theorem foldl_push_eq {α β : Type} (p : α → Bool) (f : α → β) (l : List α) :
    ∀ inicio : List β,
      l.foldl (fun acc x => if p x then acc ++ [f x] else acc) inicio
        = inicio ++ (l.filter p).map f := by
  induction l with
  | nil => simp
  | cons x xs ih =>
    intro inicio
    simp only [List.foldl_cons, ih]
    by_cases hp : p x = true
    · simp [hp, List.filter_cons]
    · simp [hp, List.filter_cons]

/-- The test `!valor || valor.trim() === ""` on a string: no character other
than white space. -/
theorem enBlanco_iff (valor : String) :
    (valor == "" || trim valor == "") = !valor.data.any (fun c => !esEspacio c) := by
  rw [Bool.eq_iff_iff]
  simp only [Bool.or_eq_true, beq_iff_eq, trim_eq_empty_iff, Bool.not_eq_true', List.any_eq_false,
    Bool.not_eq_true, Bool.not_eq_false']
  constructor
  · rintro (rfl | h)
    · simp
    · simpa using h
  · intro h
    right
    simpa using h

/-- The required-field messages of validation-utils.js: one per blank field,
in the order of the field list. -/
theorem validationUtilsJs_validarCamposRequeridos_eq (datos : Formulario)
    (campos : List String) :
    ValidationUtilsJs.validacionUtils.validarCamposRequeridos datos campos
      = (campos.filter (fun campo => !datos.tieneContenido campo)).map
          (fun campo => "El campo " ++ campo ++ " es requerido") := by
  unfold ValidationUtilsJs.validacionUtils.validarCamposRequeridos
  rw [foldl_push_eq (fun campo => match datos.campo campo with
        | none => true
        | some valor => valor == "" || trim valor == "")
      (fun campo => "El campo " ++ campo ++ " es requerido")]
  simp only [List.nil_append]
  congr 2
  funext campo
  unfold Formulario.tieneContenido
  cases datos.campo campo with
  | none => rfl
  | some valor => simp only [enBlanco_iff]

/-- The list that `validarFormularioCompleto` of validation-utils.js returns:
the required-field messages, then the email message, then the password
message, each present exactly when its rule is violated. -/
theorem validationUtilsJs_validarFormularioCompleto_eq (datos : Formulario)
    (campos : List String) :
    ValidationUtilsJs.validacionUtils.validarFormularioCompleto datos campos
      = (campos.filter (fun campo => !datos.tieneContenido campo)).map
          (fun campo => "El campo " ++ campo ++ " es requerido")
        ++ (match datos.campo "email" with
            | some email =>
              if email ≠ "" ∧ ValidationUtilsJs.validacionUtils.validarCorreoElectronico email = false
              then ["El formato del correo electrónico no es válido"] else []
            | none => [])
        ++ (match datos.campo "password" with
            | some password =>
              if password ≠ "" ∧ longitud password < 6
              then ["La contraseña debe tener al menos 6 caracteres"] else []
            | none => []) := by
  unfold ValidationUtilsJs.validacionUtils.validarFormularioCompleto
  rw [validationUtilsJs_validarCamposRequeridos_eq]
  cases datos.campo "email" with
  | none =>
    cases datos.campo "password" with
    | none => simp
    | some password =>
      by_cases h1 : password = "" <;> by_cases h2 : longitud password < 6 <;> simp [h1, h2]
  | some email =>
    cases datos.campo "password" with
    | none =>
      by_cases h3 : email = "" <;>
        cases h4 : ValidationUtilsJs.validacionUtils.validarCorreoElectronico email <;>
        simp [h3, h4]
    | some password =>
      by_cases h1 : password = "" <;> by_cases h2 : longitud password < 6 <;>
        by_cases h3 : email = "" <;>
        cases h4 : ValidationUtilsJs.validacionUtils.validarCorreoElectronico email <;>
        simp [h1, h2, h3, h4]

/-- The validator of validation-utils.js returns the empty list exactly when
every required field has content, a non-empty email is well formed and a
non-empty password has at least 6 code units. -/
theorem validationUtilsJs_validarFormularioCompleto_vacio_iff
    (datos : Formulario) (campos : List String) :
    ValidationUtilsJs.validacionUtils.validarFormularioCompleto datos campos = [] ↔
      (∀ campo ∈ campos, datos.tieneContenido campo = true) ∧
      (∀ email, datos.campo "email" = some email → email ≠ "" →
        ValidationUtilsJs.validacionUtils.validarCorreoElectronico email = true) ∧
      (∀ password, datos.campo "password" = some password → password ≠ "" →
        6 ≤ longitud password) := by
  rw [validationUtilsJs_validarFormularioCompleto_eq]
  simp only [List.append_eq_nil, List.map_eq_nil_iff, List.filter_eq_nil_iff, and_assoc]
  refine and_congr ?_ (and_congr ?_ ?_)
  · simp
  · cases datos.campo "email" with
    | none => simp
    | some email =>
      by_cases h3 : email = "" <;>
        cases h4 : ValidationUtilsJs.validacionUtils.validarCorreoElectronico email <;>
        simp [h3, h4]
  · cases datos.campo "password" with
    | none => simp
    | some password =>
      by_cases h1 : password = "" <;> by_cases h2 : longitud password < 6 <;> simp [h1, h2]
      omega

/-- The list that `validarFormularioCompleto` of main.js returns: the
required-field messages, then the email message.  The password takes part as
a required field only. -/
theorem mainJs_validarFormularioCompleto_eq (datos : Formulario)
    (campos : List String) :
    PlantillaMainJs.validacionUtils.validarFormularioCompleto datos campos
      = (campos.filter (fun campo => !datos.tieneContenido campo)).map
          (fun campo => "El campo " ++ campo ++ " es requerido")
        ++ (match datos.campo "email" with
            | some email =>
              if email ≠ "" ∧ PlantillaMainJs.validacionUtils.validarCorreoElectronico email = false
              then ["El email no tiene un formato válido"] else []
            | none => []) := by
  unfold PlantillaMainJs.validacionUtils.validarFormularioCompleto
  rw [foldl_push_eq (fun campo => !PlantillaMainJs.validacionUtils.validarCampoRequerido
        (datos.campo campo))
      (fun campo => "El campo " ++ campo ++ " es requerido")]
  have hblank : (fun campo => !PlantillaMainJs.validacionUtils.validarCampoRequerido
      (datos.campo campo)) = (fun campo => !datos.tieneContenido campo) := by
    funext campo
    unfold PlantillaMainJs.validacionUtils.validarCampoRequerido Formulario.tieneContenido
    cases datos.campo campo with
    | none => rfl
    | some valor =>
      have h := enBlanco_iff valor
      simp only [bne, ← Bool.not_or, h, Bool.not_not]
  rw [hblank]
  cases datos.campo "email" with
  | none => simp
  | some email =>
    by_cases h3 : email = "" <;>
      cases h4 : PlantillaMainJs.validacionUtils.validarCorreoElectronico email <;>
      simp [h3, h4]

/-- C21, evaluated on the registration form with the password "abc" and every
other input well formed: `validacionUtils.validarFormularioCompleto` of main.js,
the function that `manejarRegistro` calls, returns the empty list, while the
function of the same name of validation-utils.js returns the password message;
and `manejarRegistro` of main.js goes on to register the user with the
three-character password. -/
theorem c21_mainJs_validator_has_no_password_rule :
    PlantillaMainJs.validacionUtils.validarFormularioCompleto
        (PlantillaMainJs.manejadorEventos.datosUsuario formularioClaveCorta)
        ["name", "email", "password", "phone", "enrollNumber"] = [] ∧
    ValidationUtilsJs.validacionUtils.validarFormularioCompleto
        (PlantillaMainJs.manejadorEventos.datosUsuario formularioClaveCorta)
        ["name", "email", "password", "phone", "enrollNumber"]
      = ["La contraseña debe tener al menos 6 caracteres"] ∧
    (∃ w2, PlantillaMainJs.manejadorEventos.manejarRegistro 1 formularioClaveCorta mundoInicial
        = some (.ok w2) ∧
      w2.servidor.users = mundoInicial.servidor.users ++
        [{ id := 3, name := "Ana", email := "ana@email.com", password := "abc",
           role := "visitor", phone := "3009998877", enrollNumber := "0003",
           dateOfAdmission := "6/11/2026" }] ∧
      w2.alertas = [{ mensaje := "Usuario registrado exitosamente", tipo := "success" }]) := by
  refine ⟨by decide, by decide, ?_⟩
  exact ⟨_, rfl, rfl, rfl⟩

/-! ## Persisted state layout -/

/-- A key that was just written holds the written document. -/
theorem Almacen.getItem_setItem (a : Almacen) (clave : String) (valor : ValorJson) :
    (a.setItem clave valor).getItem clave = some valor := by
  simp [Almacen.getItem, Almacen.setItem]

/-- Writing a key leaves the other keys as they were. -/
theorem Almacen.getItem_setItem_ne (a : Almacen) (clave otra : String) (valor : ValorJson)
    (h : clave ≠ otra) :
    (a.setItem clave valor).getItem otra = a.getItem otra := by
  simp only [Almacen.getItem, Almacen.setItem]
  rw [List.find?_cons_of_neg _ (by simpa using h)]
  congr 1
  induction a with
  | nil => rfl
  | cons x xs ih =>
    by_cases hx : x.1 = clave
    · have hx2 : ¬ x.1 = otra := fun h2 => h (hx ▸ h2)
      have hx3 : (x.1 == otra) = false := by simpa using hx2
      rw [List.find?_cons_of_neg _ (by simpa using hx2)]
      simpa [List.filter_cons, hx] using ih
    · have hf : List.filter (fun p : String × ValorJson => p.1 != clave) (x :: xs)
          = x :: List.filter (fun p => p.1 != clave) xs := by
        simp [List.filter_cons, hx]
      rw [hf]
      by_cases hx2 : x.1 = otra
      · rw [List.find?_cons_of_pos _ (by simpa using hx2),
          List.find?_cons_of_pos _ (by simpa using hx2)]
      · rw [List.find?_cons_of_neg _ (by simpa using hx2),
          List.find?_cons_of_neg _ (by simpa using hx2)]
        exact ih

/-- C22, amended: whenever `iniciarSesion` returns a user, the login of
main.js leaves that user under the key "currentUser" of the durable store and
`true` under the key "isAuthenticated" of the session store; the login of
auth-service.js leaves them under the keys "usuarioActual" and
"estaAutenticado", and what the two stores hold under "currentUser" and
"isAuthenticated" is what they held before the login. -/
theorem c22_login_persists_session (email password : String) (w : Mundo) (u : User) :
    ((PlantillaMainJs.autenticacionService.iniciarSesion email password w).1 = .ok u →
      (PlantillaMainJs.autenticacionService.iniciarSesion email password
          w).2.localStorage.getItem "currentUser" = some (.usuario u) ∧
        (PlantillaMainJs.autenticacionService.iniciarSesion email password
          w).2.sessionStorage.getItem "isAuthenticated" = some (.booleano true)) ∧
    ((AuthServiceJs.autenticacionService.iniciarSesion email password w).1 = .ok u →
      (AuthServiceJs.autenticacionService.iniciarSesion email password
          w).2.localStorage.getItem "usuarioActual" = some (.usuario u) ∧
        (AuthServiceJs.autenticacionService.iniciarSesion email password
          w).2.sessionStorage.getItem "estaAutenticado" = some (.booleano true) ∧
        (AuthServiceJs.autenticacionService.iniciarSesion email password
          w).2.localStorage.getItem "currentUser" = w.localStorage.getItem "currentUser" ∧
        (AuthServiceJs.autenticacionService.iniciarSesion email password
          w).2.sessionStorage.getItem "isAuthenticated"
            = w.sessionStorage.getItem "isAuthenticated") := by
  constructor
  · cases hred : w.respuestaOk with
    | false =>
      obtain ⟨e2, -, he2⟩ := PlantillaMainJs.apiService.solicitar_error (.get .users)
        (fun s => s.tabla .users) "Error al cargar los datos" w hred
      simp [PlantillaMainJs.autenticacionService.iniciarSesion, PlantillaMainJs.apiService.get,
        he2]
    | true =>
      simp only [PlantillaMainJs.autenticacionService.iniciarSesion,
        PlantillaMainJs.apiService.get,
        PlantillaMainJs.apiService.solicitar_ok _ _ _ w hred]
      cases hfind : List.find? (fun u => u.email == email && u.password == password)
          ((w.servidor.aplicar (.get .users)).tabla .users) with
      | none => simp
      | some v =>
        simp only [Except.ok.injEq]
        rintro rfl
        simp [PlantillaMainJs.storage.setLocal, PlantillaMainJs.storage.setSession,
          PlantillaMainJs.apiService.mostrarAlerta, Almacen.getItem_setItem]
  · cases hred : w.respuestaOk with
    | false =>
      obtain ⟨e2, -, he2⟩ := ApiServiceJs.apiService.realizarPeticion_error (.get .users)
        (fun s => s.tabla .users) w hred
      simp [AuthServiceJs.autenticacionService.iniciarSesion,
        ApiServiceJs.apiService.obtenerDatos, he2,
        AuthServiceJs.autenticacionService.alCapturar]
    | true =>
      simp only [AuthServiceJs.autenticacionService.iniciarSesion,
        ApiServiceJs.apiService.obtenerDatos,
        ApiServiceJs.apiService.realizarPeticion_ok _ _ w hred]
      cases hfind : List.find? (fun u => u.email == email && u.password == password)
          ((w.servidor.aplicar (.get .users)).tabla .users) with
      | none => simp [AuthServiceJs.autenticacionService.alCapturar]
      | some v =>
        simp only [Except.ok.injEq]
        rintro rfl
        simp [StorageServiceJs.almacenamientoService.guardarEnLocal,
          StorageServiceJs.almacenamientoService.guardarEnSesion,
          ApiServiceJs.apiService.mostrarAlerta, Almacen.getItem_setItem,
          Almacen.getItem_setItem_ne, Mundo.trasExito]

/-- Witness of C22: the visitor of the sample backend logs in from the
initial world. -/
theorem c22_login_persists_session_witness :
    ((PlantillaMainJs.autenticacionService.iniciarSesion "juan@email.com" "123456"
          mundoInicial).2.localStorage.getItem "currentUser" = some (.usuario usuarioJuan) ∧
        (PlantillaMainJs.autenticacionService.iniciarSesion "juan@email.com" "123456"
          mundoInicial).2.sessionStorage.getItem "isAuthenticated" = some (.booleano true)) ∧
    ((AuthServiceJs.autenticacionService.iniciarSesion "juan@email.com" "123456"
          mundoInicial).2.localStorage.getItem "usuarioActual" = some (.usuario usuarioJuan) ∧
        (AuthServiceJs.autenticacionService.iniciarSesion "juan@email.com" "123456"
          mundoInicial).2.sessionStorage.getItem "estaAutenticado" = some (.booleano true) ∧
        (AuthServiceJs.autenticacionService.iniciarSesion "juan@email.com" "123456"
          mundoInicial).2.localStorage.getItem "currentUser"
            = mundoInicial.localStorage.getItem "currentUser" ∧
        (AuthServiceJs.autenticacionService.iniciarSesion "juan@email.com" "123456"
          mundoInicial).2.sessionStorage.getItem "isAuthenticated"
            = mundoInicial.sessionStorage.getItem "isAuthenticated") :=
  ⟨(c22_login_persists_session "juan@email.com" "123456" mundoInicial usuarioJuan).1 rfl,
   (c22_login_persists_session "juan@email.com" "123456" mundoInicial usuarioJuan).2 rfl⟩

/-- C22 as stated fails for auth-service.js: after the successful login of the
visitor from the initial world the durable store has nothing under
"currentUser" and the session store has nothing under "isAuthenticated"; the
only entries are "usuarioActual" and "estaAutenticado". -/
theorem c22_authJs_login_leaves_currentUser_key_absent :
    (AuthServiceJs.autenticacionService.iniciarSesion "juan@email.com" "123456"
        mundoInicial).1 = .ok usuarioJuan ∧
      (AuthServiceJs.autenticacionService.iniciarSesion "juan@email.com" "123456"
        mundoInicial).2.localStorage.getItem "currentUser" = none ∧
      (AuthServiceJs.autenticacionService.iniciarSesion "juan@email.com" "123456"
        mundoInicial).2.sessionStorage.getItem "isAuthenticated" = none ∧
      (AuthServiceJs.autenticacionService.iniciarSesion "juan@email.com" "123456"
        mundoInicial).2.localStorage = [("usuarioActual", .usuario usuarioJuan)] ∧
      (AuthServiceJs.autenticacionService.iniciarSesion "juan@email.com" "123456"
        mundoInicial).2.sessionStorage = [("estaAutenticado", .booleano true)] :=
  ⟨rfl, rfl, rfl, rfl, rfl⟩

/-! ## Active navigation link -/

/-- C23, evaluated on the session of the visitor with the four links of the
menu: after `navegacionService.navegarA("/courses")` of main.js the courses
view is rendered without a redirect and `appState.currentRoute` is "/courses",
but the link marked active is the one with href "/" (the value that
`estadoAplicacion.rutaActual` has had since the script was loaded), and the
link with href "/courses" is not marked.  On the same input the router of
navigation-service.js and the function `navigateTo` of main.js mark the link
with href "/courses". -/
theorem c23_mainJs_active_link_ignores_route :
    (∃ w2, PlantillaMainJs.navegacionService.navegarA 1 "/courses" (mundoConSesion usuarioJuan)
        = some (.ok w2) ∧
      w2.vistas = [Vista.cursos] ∧ w2.historial = ["/courses"] ∧
      w2.appState.currentRoute = "/courses" ∧
      w2.estadoAplicacion.rutaActual = "/" ∧
      w2.dom.enlacesActivos = ["/"]) ∧
    (∃ w2, NavigationServiceJs.navegacionService.navegarA 1 "/courses"
        (mundoConSesion usuarioJuan) = some (.ok w2) ∧
      w2.vistas = [Vista.cursos] ∧ w2.dom.enlacesActivos = ["/courses"]) ∧
    (∃ w2, PlantillaMainJs.navigateTo 1 "/courses" (mundoConSesion usuarioJuan)
        = some (.ok w2) ∧
      w2.vistas = [Vista.cursos] ∧ w2.dom.enlacesActivos = ["/courses"]) :=
  ⟨⟨_, rfl, rfl, rfl, rfl, rfl, rfl⟩, ⟨_, rfl, rfl, rfl⟩, ⟨_, rfl, rfl, rfl⟩⟩

/-- The active links after `navegarA("/courses")` of main.js in an
authenticated session: the courses view is rendered without a redirect, and
the links marked are those whose href equals `estadoAplicacion.rutaActual`,
a field that the navigation does not write. -/
theorem mainJs_navegarA_courses_enlaces (n : Nat) (u : User) (w : Mundo)
    (hauth1 : w.appState.isAuthenticated = true)
    (hauth : w.estadoAplicacion.estaAutenticado = true)
    (huser : w.estadoAplicacion.usuarioActual = some u) :
    ∃ w2, PlantillaMainJs.navegacionService.navegarA (n + 1) "/courses" w = some (.ok w2) ∧
      w2.vistas = w.vistas ++ [Vista.cursos] ∧
      w2.historial = w.historial ++ ["/courses"] ∧
      w2.appState.currentRoute = "/courses" ∧
      w2.estadoAplicacion.rutaActual = w.estadoAplicacion.rutaActual ∧
      w2.dom.enlaces = w.dom.enlaces.map (fun enlace =>
        { enlace with activo := enlace.href == w.estadoAplicacion.rutaActual }) := by
  simp [PlantillaMainJs.navegacionService.navegarA,
    PlantillaMainJs.navegacionService.renderizarContenido,
    PlantillaMainJs.navegacionService.fijarRuta,
    PlantillaMainJs.navegacionService.actualizarInterfazUsuario,
    PlantillaMainJs.navegacionService.actualizarEnlaceActivo,
    PlantillaMainJs.navegacionService.esUsuarioAdministrador, pushState, renderizar,
    hauth1, hauth, huser]
  split <;> simp

/-! ## Router: termination and agreement of the two policies -/

/-- A route is one of the seven routes of the router, or none of them. -/
theorem ruta_casos (r : String) :
    r = "/login" ∨ r = "/register" ∨ r = "/" ∨ r = "/dashboard" ∨ r = "/users" ∨
      r = "/courses" ∨ r = "/enrollments" ∨
      (r ≠ "/login" ∧ r ≠ "/register" ∧ r ≠ "/" ∧ r ≠ "/dashboard" ∧ r ≠ "/users" ∧
        r ≠ "/courses" ∧ r ≠ "/enrollments") := by
  tauto

/-- C26: for every world (every route string and every session) in which
`estadoAplicacion.estaAutenticado` implies that `estadoAplicacion.usuarioActual`
is present, `renderizarContenido` with at least two nested calls allowed
returns normally, has called exactly one page renderer, and has pushed either
no history entry or exactly one, "/login" or "/": `navegarA` was called at most
once.  First part: navigation-service.js; second part: main.js, for every value
of `appState`. -/
theorem c26_render_terminates_after_one_redirect (n : Nat) (w : Mundo)
    (huser : w.estadoAplicacion.estaAutenticado = true →
      w.estadoAplicacion.usuarioActual ≠ none) :
    (∃ w2 v, NavigationServiceJs.navegacionService.renderizarContenido (n + 2) w
        = some (.ok w2) ∧
      w2.vistas = w.vistas ++ [v] ∧
      (w2.historial = w.historial ∨ w2.historial = w.historial ++ ["/login"] ∨
        w2.historial = w.historial ++ ["/"])) ∧
    (∃ w2 v, PlantillaMainJs.navegacionService.renderizarContenido (n + 2) w
        = some (.ok w2) ∧
      w2.vistas = w.vistas ++ [v] ∧
      (w2.historial = w.historial ∨ w2.historial = w.historial ++ ["/login"] ∨
        w2.historial = w.historial ++ ["/"])) := by
  constructor
  · cases ha : w.estadoAplicacion.estaAutenticado with
    | false =>
      rcases ruta_casos w.estadoAplicacion.rutaActual with
        h | h | h | h | h | h | h | ⟨h1, h2, h3, h4, h5, h6, h7⟩ <;>
      simp [NavigationServiceJs.navegacionService.renderizarContenido,
        NavigationServiceJs.navegacionService.esRutaPublica,
        NavigationServiceJs.navegacionService.fijarRuta,
        NavigationServiceJs.navegacionService.actualizarNavegacion, pushState, renderizar,
        ha, *]
    | true =>
      obtain ⟨u, hu⟩ := Option.ne_none_iff_exists'.mp (huser ha)
      rcases ruta_casos w.estadoAplicacion.rutaActual with
        h | h | h | h | h | h | h | ⟨h1, h2, h3, h4, h5, h6, h7⟩ <;>
      by_cases hrole : u.role = "admin" <;>
      by_cases hvis : u.role = "visitor" <;>
      simp [NavigationServiceJs.navegacionService.renderizarContenido,
        NavigationServiceJs.navegacionService.esRutaPublica,
        NavigationServiceJs.navegacionService.fijarRuta,
        NavigationServiceJs.navegacionService.actualizarNavegacion,
        NavigationServiceJs.navegacionService.actualizarEnlaceActivo,
        NavigationServiceJs.navegacionService.esUsuarioAdministrador,
        NavigationServiceJs.navegacionService.esUsuarioVisitante, pushState, renderizar,
        ha, hu, *]
  · cases ha : w.estadoAplicacion.estaAutenticado with
    | false =>
      rcases ruta_casos w.appState.currentRoute with
        h | h | h | h | h | h | h | ⟨h1, h2, h3, h4, h5, h6, h7⟩ <;>
      cases hb : w.appState.isAuthenticated <;>
      cases hu : w.estadoAplicacion.usuarioActual <;>
      simp [PlantillaMainJs.navegacionService.renderizarContenido,
        PlantillaMainJs.navegacionService.fijarRuta,
        PlantillaMainJs.navegacionService.actualizarInterfazUsuario,
        PlantillaMainJs.navegacionService.esUsuarioAdministrador, pushState, renderizar,
        ha, hb, hu, *] <;>
      split <;> simp
    | true =>
      obtain ⟨u, hu⟩ := Option.ne_none_iff_exists'.mp (huser ha)
      rcases ruta_casos w.appState.currentRoute with
        h | h | h | h | h | h | h | ⟨h1, h2, h3, h4, h5, h6, h7⟩ <;>
      cases hb : w.appState.isAuthenticated <;>
      by_cases hrole : u.role = "admin" <;>
      simp [PlantillaMainJs.navegacionService.renderizarContenido,
        PlantillaMainJs.navegacionService.fijarRuta,
        PlantillaMainJs.navegacionService.actualizarInterfazUsuario,
        PlantillaMainJs.navegacionService.actualizarEnlaceActivo,
        PlantillaMainJs.navegacionService.esUsuarioAdministrador, pushState, renderizar,
        ha, hb, hu, *]

/-- Witness of C26: the administrator standing on "/enrollments". -/
theorem c26_render_terminates_after_one_redirect_witness :
    (∃ w2 v, NavigationServiceJs.navegacionService.renderizarContenido 2
        (mundoSesionEnRuta usuarioAdmin "/enrollments") = some (.ok w2) ∧
      w2.vistas = (mundoSesionEnRuta usuarioAdmin "/enrollments").vistas ++ [v] ∧
      (w2.historial = (mundoSesionEnRuta usuarioAdmin "/enrollments").historial ∨
        w2.historial = (mundoSesionEnRuta usuarioAdmin "/enrollments").historial ++ ["/login"] ∨
        w2.historial = (mundoSesionEnRuta usuarioAdmin "/enrollments").historial ++ ["/"])) ∧
    (∃ w2 v, PlantillaMainJs.navegacionService.renderizarContenido 2
        (mundoSesionEnRuta usuarioAdmin "/enrollments") = some (.ok w2) ∧
      w2.vistas = (mundoSesionEnRuta usuarioAdmin "/enrollments").vistas ++ [v] ∧
      (w2.historial = (mundoSesionEnRuta usuarioAdmin "/enrollments").historial ∨
        w2.historial = (mundoSesionEnRuta usuarioAdmin "/enrollments").historial ++ ["/login"] ∨
        w2.historial = (mundoSesionEnRuta usuarioAdmin "/enrollments").historial ++ ["/"])) :=
  c26_render_terminates_after_one_redirect 0 (mundoSesionEnRuta usuarioAdmin "/enrollments")
    (fun _ => by simp [mundoSesionEnRuta])

/-- Without the hypothesis of C26 no view is dispatched: an authenticated
session without a user ends in the `TypeError` of the welcome text. -/
theorem render_sin_usuario_example :
    NavigationServiceJs.navegacionService.renderizarContenido 2
        { mundoEnRuta "/courses" with
          estadoAplicacion := { usuarioActual := none, rutaActual := "/courses",
                                estaAutenticado := true } }
      = some (.error .typeError) := by
  rfl

/-- C28: for every world whose two state objects hold the same route, flag and
user and whose session is unauthenticated or has a user with role "admin" or
"visitor", the router of navigation-service.js, the router
`navegacionService.renderizarContenido` of main.js and the function
`renderContent` of main.js, each with at least two nested calls allowed, return
normally, end on the same route, have called the same single page renderer and
have pushed the same history entries. -/
theorem c28_routers_agree_on_declared_roles (n : Nat) (w : Mundo)
    (hruta : w.appState.currentRoute = w.estadoAplicacion.rutaActual)
    (hauth : w.appState.isAuthenticated = w.estadoAplicacion.estaAutenticado)
    (huser : w.appState.currentUser = w.estadoAplicacion.usuarioActual)
    (hsesion : w.estadoAplicacion.estaAutenticado = false ∨
      ∃ u, w.estadoAplicacion.usuarioActual = some u ∧ (u.role = "admin" ∨ u.role = "visitor")) :
    ∃ wa wb wc ruta v,
      NavigationServiceJs.navegacionService.renderizarContenido (n + 2) w = some (.ok wa) ∧
      PlantillaMainJs.navegacionService.renderizarContenido (n + 2) w = some (.ok wb) ∧
      PlantillaMainJs.renderContent (n + 2) w = some (.ok wc) ∧
      wa.estadoAplicacion.rutaActual = ruta ∧ wb.appState.currentRoute = ruta ∧
      wc.appState.currentRoute = ruta ∧
      wa.vistas = w.vistas ++ [v] ∧ wb.vistas = w.vistas ++ [v] ∧ wc.vistas = w.vistas ++ [v] ∧
      wb.historial = wa.historial ∧ wc.historial = wa.historial := by
  cases ha : w.estadoAplicacion.estaAutenticado with
  | false =>
    have hb : w.appState.isAuthenticated = false := by rw [hauth, ha]
    rcases ruta_casos w.estadoAplicacion.rutaActual with
      h | h | h | h | h | h | h | ⟨h1, h2, h3, h4, h5, h6, h7⟩ <;>
    simp [NavigationServiceJs.navegacionService.renderizarContenido,
      NavigationServiceJs.navegacionService.esRutaPublica,
      NavigationServiceJs.navegacionService.fijarRuta,
      NavigationServiceJs.navegacionService.actualizarNavegacion,
      PlantillaMainJs.navegacionService.renderizarContenido,
      PlantillaMainJs.navegacionService.fijarRuta,
      PlantillaMainJs.navegacionService.actualizarInterfazUsuario,
      PlantillaMainJs.renderContent, PlantillaMainJs.updateNavigation,
      pushState, renderizar, ha, hb, hruta, *]
  | true =>
    have hb : w.appState.isAuthenticated = true := by rw [hauth, ha]
    rw [ha] at hsesion
    obtain ⟨u, hu, hrole⟩ := hsesion.resolve_left (by simp)
    have hu2 : w.appState.currentUser = some u := by rw [huser, hu]
    rcases hrole with hrole | hrole <;>
    rcases ruta_casos w.estadoAplicacion.rutaActual with
      h | h | h | h | h | h | h | ⟨h1, h2, h3, h4, h5, h6, h7⟩ <;>
    simp [NavigationServiceJs.navegacionService.renderizarContenido,
      NavigationServiceJs.navegacionService.esRutaPublica,
      NavigationServiceJs.navegacionService.fijarRuta,
      NavigationServiceJs.navegacionService.actualizarNavegacion,
      NavigationServiceJs.navegacionService.actualizarEnlaceActivo,
      NavigationServiceJs.navegacionService.esUsuarioAdministrador,
      NavigationServiceJs.navegacionService.esUsuarioVisitante,
      PlantillaMainJs.navegacionService.renderizarContenido,
      PlantillaMainJs.navegacionService.fijarRuta,
      PlantillaMainJs.navegacionService.actualizarInterfazUsuario,
      PlantillaMainJs.navegacionService.actualizarEnlaceActivo,
      PlantillaMainJs.navegacionService.esUsuarioAdministrador,
      PlantillaMainJs.renderContent, PlantillaMainJs.updateNavigation,
      PlantillaMainJs.updateActiveNavLink, PlantillaMainJs.rolActualEs,
      pushState, renderizar, ha, hb, hu, hu2, hruta, hrole, *]

/-- Witness of C28: the visitor standing on "/enrollments". -/
theorem c28_routers_agree_on_declared_roles_witness :
    ∃ wa wb wc ruta v,
      NavigationServiceJs.navegacionService.renderizarContenido 2
        (mundoSesionEnRuta usuarioJuan "/enrollments") = some (.ok wa) ∧
      PlantillaMainJs.navegacionService.renderizarContenido 2
        (mundoSesionEnRuta usuarioJuan "/enrollments") = some (.ok wb) ∧
      PlantillaMainJs.renderContent 2 (mundoSesionEnRuta usuarioJuan "/enrollments")
        = some (.ok wc) ∧
      wa.estadoAplicacion.rutaActual = ruta ∧ wb.appState.currentRoute = ruta ∧
      wc.appState.currentRoute = ruta ∧
      wa.vistas = (mundoSesionEnRuta usuarioJuan "/enrollments").vistas ++ [v] ∧
      wb.vistas = (mundoSesionEnRuta usuarioJuan "/enrollments").vistas ++ [v] ∧
      wc.vistas = (mundoSesionEnRuta usuarioJuan "/enrollments").vistas ++ [v] ∧
      wb.historial = wa.historial ∧ wc.historial = wa.historial :=
  c28_routers_agree_on_declared_roles 0 (mundoSesionEnRuta usuarioJuan "/enrollments")
    rfl rfl rfl (Or.inr ⟨usuarioJuan, rfl, Or.inr rfl⟩)

/-- Outside the declared roles the two policies differ: for a user with the
role "teacher" on "/enrollments" the router of navigation-service.js redirects
to "/" and the router of main.js renders the enrollments view. -/
theorem routers_differ_on_other_role_example :
    (∃ wa, NavigationServiceJs.navegacionService.renderizarContenido 2
        (mundoSesionEnRuta usuarioDocente "/enrollments") = some (.ok wa) ∧
      wa.estadoAplicacion.rutaActual = "/" ∧ wa.vistas = [Vista.dashboard]) ∧
    (∃ wb, PlantillaMainJs.navegacionService.renderizarContenido 2
        (mundoSesionEnRuta usuarioDocente "/enrollments") = some (.ok wb) ∧
      wb.appState.currentRoute = "/enrollments" ∧ wb.vistas = [Vista.inscripciones]) :=
  ⟨⟨_, rfl, rfl, rfl⟩, ⟨_, rfl, rfl, rfl⟩⟩

/-! ## Session consistency -/

/-- The logout of main.js with one call of the router allowed returns for
every world, with the session closed in both state objects and both keys
removed. -/
theorem mainJs_cerrarSesion_efecto (w : Mundo) :
    ∃ w2, PlantillaMainJs.autenticacionService.cerrarSesion 1 w = some (.ok w2) ∧
      w2.estadoAplicacion.usuarioActual = none ∧
      w2.estadoAplicacion.estaAutenticado = false ∧
      w2.appState.currentUser = none ∧
      w2.appState.isAuthenticated = false ∧
      w2.localStorage.getItem "currentUser" = none ∧
      w2.sessionStorage.getItem "isAuthenticated" = none := by
  simp [PlantillaMainJs.autenticacionService.cerrarSesion,
    PlantillaMainJs.navegacionService.navegarA,
    PlantillaMainJs.navegacionService.renderizarContenido,
    PlantillaMainJs.navegacionService.fijarRuta,
    PlantillaMainJs.navegacionService.actualizarInterfazUsuario,
    PlantillaMainJs.storage.removeLocal, PlantillaMainJs.storage.removeSession,
    PlantillaMainJs.apiService.mostrarAlerta, pushState, renderizar,
    Almacen.getItem_removeItem]

/-- The login of main.js: when it returns a user, both state objects hold that
user and the flag, and the two stores hold the user and the flag under the
keys of main.js. -/
theorem mainJs_iniciarSesion_ok_efecto (email password : String) (w : Mundo) (u : User)
    (h : (PlantillaMainJs.autenticacionService.iniciarSesion email password w).1 = .ok u) :
    (PlantillaMainJs.autenticacionService.iniciarSesion email password
        w).2.estadoAplicacion.usuarioActual = some u ∧
      (PlantillaMainJs.autenticacionService.iniciarSesion email password
        w).2.estadoAplicacion.estaAutenticado = true ∧
      (PlantillaMainJs.autenticacionService.iniciarSesion email password
        w).2.appState.currentUser = some u ∧
      (PlantillaMainJs.autenticacionService.iniciarSesion email password
        w).2.appState.isAuthenticated = true ∧
      (PlantillaMainJs.autenticacionService.iniciarSesion email password
        w).2.localStorage.getItem "currentUser" = some (.usuario u) ∧
      (PlantillaMainJs.autenticacionService.iniciarSesion email password
        w).2.sessionStorage.getItem "isAuthenticated" = some (.booleano true) := by
  revert h
  cases hred : w.respuestaOk with
  | false =>
    obtain ⟨e2, -, he2⟩ := PlantillaMainJs.apiService.solicitar_error (.get .users)
      (fun s => s.tabla .users) "Error al cargar los datos" w hred
    simp [PlantillaMainJs.autenticacionService.iniciarSesion, PlantillaMainJs.apiService.get,
      he2]
  | true =>
    simp only [PlantillaMainJs.autenticacionService.iniciarSesion,
      PlantillaMainJs.apiService.get,
      PlantillaMainJs.apiService.solicitar_ok _ _ _ w hred]
    cases hfind : List.find? (fun u => u.email == email && u.password == password)
        ((w.servidor.aplicar (.get .users)).tabla .users) with
    | none => simp
    | some v =>
      simp only [Except.ok.injEq]
      rintro rfl
      simp [PlantillaMainJs.storage.setLocal, PlantillaMainJs.storage.setSession,
        PlantillaMainJs.apiService.mostrarAlerta, Almacen.getItem_setItem]

/-- The invariant of the session of main.js: the two state objects agree, the
flag is set exactly when a user is present, and the stores follow the
persisted layout. -/
theorem sesion_invariante_paso (op : OperacionSesion) (w : Mundo)
    (h1 : w.appState.isAuthenticated = w.estadoAplicacion.estaAutenticado)
    (h2 : w.appState.currentUser = w.estadoAplicacion.usuarioActual)
    (h3 : w.estadoAplicacion.estaAutenticado = true ↔ w.estadoAplicacion.usuarioActual ≠ none)
    (h4 : w.layoutValido "currentUser" "isAuthenticated" = true) :
    (OperacionSesion.ejecutar w op).appState.isAuthenticated
        = (OperacionSesion.ejecutar w op).estadoAplicacion.estaAutenticado ∧
      (OperacionSesion.ejecutar w op).appState.currentUser
        = (OperacionSesion.ejecutar w op).estadoAplicacion.usuarioActual ∧
      ((OperacionSesion.ejecutar w op).estadoAplicacion.estaAutenticado = true ↔
        (OperacionSesion.ejecutar w op).estadoAplicacion.usuarioActual ≠ none) ∧
      (OperacionSesion.ejecutar w op).layoutValido "currentUser" "isAuthenticated" = true := by
  cases op with
  | iniciarSesion email password =>
    simp only [OperacionSesion.ejecutar]
    cases hres : (PlantillaMainJs.autenticacionService.iniciarSesion email password w).1 with
    | error e =>
      obtain ⟨f1, f2, f3, f4⟩ := mainJs_iniciarSesion_error_frame email password w e hres
      simp only [Mundo.layoutValido, f1, f2, f3, f4]
      exact ⟨h1, h2, h3, h4⟩
    | ok u =>
      obtain ⟨f1, f2, f3, f4, f5, f6⟩ := mainJs_iniciarSesion_ok_efecto email password w u hres
      simp [Mundo.layoutValido, f1, f2, f3, f4, f5, f6]
  | cerrarSesion =>
    obtain ⟨w2, hw2, f1, f2, f3, f4, f5, f6⟩ := mainJs_cerrarSesion_efecto w
    simp [OperacionSesion.ejecutar, hw2, Mundo.layoutValido, f1, f2, f3, f4, f5, f6]
  | verificarAutenticacion =>
    simp only [OperacionSesion.ejecutar]
    cases hres : (PlantillaMainJs.autenticacionService.verificarAutenticacion w).1 with
    | false =>
      rw [(mainJs_verificarAutenticacion_casos w).2.1 hres]
      exact ⟨h1, h2, h3, h4⟩
    | true =>
      obtain ⟨u, hu1, hu2⟩ := ((mainJs_verificarAutenticacion_casos w).2.2 h4).mp hres
      obtain ⟨-, f1, f2, f3, f4⟩ := (mainJs_verificarAutenticacion_casos w).1 u hu1 hu2
      refine ⟨by rw [f4, f2], by rw [f3, f1], by simp [f1, f2], ?_⟩
      have hls : (PlantillaMainJs.autenticacionService.verificarAutenticacion w).2.localStorage
          = w.localStorage := by
        simp only [PlantillaMainJs.autenticacionService.verificarAutenticacion]
        split <;> rfl
      have hss : (PlantillaMainJs.autenticacionService.verificarAutenticacion w).2.sessionStorage
          = w.sessionStorage := by
        simp only [PlantillaMainJs.autenticacionService.verificarAutenticacion]
        split <;> rfl
      simpa [Mundo.layoutValido, hls, hss] using h4

/-- C27: start from any world in which `estadoAplicacion` and `appState` have
the values that main.js declares (no user, not authenticated, route "/") and
whose stores follow the persisted layout.  After any sequence of
`iniciarSesion` (returning or throwing), `cerrarSesion` and
`verificarAutenticacion` of main.js, each run to completion,
`appState.isAuthenticated` equals `estadoAplicacion.estaAutenticado`,
`appState.currentUser` equals `estadoAplicacion.usuarioActual`, and the flag is
set if and only if a user is present.  The logout returns normally from every
world with one call of the router allowed. -/
theorem c27_session_objects_agree (ops : List OperacionSesion) (w0 : Mundo)
    (hestado : w0.estadoAplicacion
      = { usuarioActual := none, rutaActual := "/", estaAutenticado := false })
    (happ : w0.appState = { currentRoute := "/", isAuthenticated := false, currentUser := none })
    (hlayout : w0.layoutValido "currentUser" "isAuthenticated" = true) :
    (ops.foldl OperacionSesion.ejecutar w0).appState.isAuthenticated
        = (ops.foldl OperacionSesion.ejecutar w0).estadoAplicacion.estaAutenticado ∧
      (ops.foldl OperacionSesion.ejecutar w0).appState.currentUser
        = (ops.foldl OperacionSesion.ejecutar w0).estadoAplicacion.usuarioActual ∧
      ((ops.foldl OperacionSesion.ejecutar w0).estadoAplicacion.estaAutenticado = true ↔
        (ops.foldl OperacionSesion.ejecutar w0).estadoAplicacion.usuarioActual ≠ none) ∧
      (∀ w, ∃ w2, PlantillaMainJs.autenticacionService.cerrarSesion 1 w = some (.ok w2)) := by
  have hgen : ∀ (ops : List OperacionSesion) (w : Mundo),
      w.appState.isAuthenticated = w.estadoAplicacion.estaAutenticado →
      w.appState.currentUser = w.estadoAplicacion.usuarioActual →
      (w.estadoAplicacion.estaAutenticado = true ↔ w.estadoAplicacion.usuarioActual ≠ none) →
      w.layoutValido "currentUser" "isAuthenticated" = true →
      (ops.foldl OperacionSesion.ejecutar w).appState.isAuthenticated
          = (ops.foldl OperacionSesion.ejecutar w).estadoAplicacion.estaAutenticado ∧
        (ops.foldl OperacionSesion.ejecutar w).appState.currentUser
          = (ops.foldl OperacionSesion.ejecutar w).estadoAplicacion.usuarioActual ∧
        ((ops.foldl OperacionSesion.ejecutar w).estadoAplicacion.estaAutenticado = true ↔
          (ops.foldl OperacionSesion.ejecutar w).estadoAplicacion.usuarioActual ≠ none) := by
    intro ops
    induction ops with
    | nil => intro w h1 h2 h3 _; exact ⟨h1, h2, h3⟩
    | cons op resto ih =>
      intro w h1 h2 h3 h4
      obtain ⟨g1, g2, g3, g4⟩ := sesion_invariante_paso op w h1 h2 h3 h4
      exact ih _ g1 g2 g3 g4
  obtain ⟨r1, r2, r3⟩ := hgen ops w0 (by rw [hestado, happ]) (by rw [hestado, happ])
    (by rw [hestado]; simp) hlayout
  exact ⟨r1, r2, r3, fun w => (mainJs_cerrarSesion_efecto w).imp (fun _ h => h.1)⟩

/-- Witness of C27: from the initial world, a restore, a login of the visitor,
a login with a wrong password and a restore. -/
theorem c27_session_objects_agree_witness :
    ([OperacionSesion.verificarAutenticacion,
      OperacionSesion.iniciarSesion "juan@email.com" "123456",
      OperacionSesion.iniciarSesion "juan@email.com" "otra",
      OperacionSesion.verificarAutenticacion].foldl OperacionSesion.ejecutar
        mundoInicial).appState.isAuthenticated
        = ([OperacionSesion.verificarAutenticacion,
      OperacionSesion.iniciarSesion "juan@email.com" "123456",
      OperacionSesion.iniciarSesion "juan@email.com" "otra",
      OperacionSesion.verificarAutenticacion].foldl OperacionSesion.ejecutar
        mundoInicial).estadoAplicacion.estaAutenticado ∧
      ([OperacionSesion.verificarAutenticacion,
      OperacionSesion.iniciarSesion "juan@email.com" "123456",
      OperacionSesion.iniciarSesion "juan@email.com" "otra",
      OperacionSesion.verificarAutenticacion].foldl OperacionSesion.ejecutar
        mundoInicial).appState.currentUser
        = ([OperacionSesion.verificarAutenticacion,
      OperacionSesion.iniciarSesion "juan@email.com" "123456",
      OperacionSesion.iniciarSesion "juan@email.com" "otra",
      OperacionSesion.verificarAutenticacion].foldl OperacionSesion.ejecutar
        mundoInicial).estadoAplicacion.usuarioActual ∧
      (([OperacionSesion.verificarAutenticacion,
      OperacionSesion.iniciarSesion "juan@email.com" "123456",
      OperacionSesion.iniciarSesion "juan@email.com" "otra",
      OperacionSesion.verificarAutenticacion].foldl OperacionSesion.ejecutar
        mundoInicial).estadoAplicacion.estaAutenticado = true ↔
        ([OperacionSesion.verificarAutenticacion,
      OperacionSesion.iniciarSesion "juan@email.com" "123456",
      OperacionSesion.iniciarSesion "juan@email.com" "otra",
      OperacionSesion.verificarAutenticacion].foldl OperacionSesion.ejecutar
        mundoInicial).estadoAplicacion.usuarioActual ≠ none) ∧
      (∀ w, ∃ w2, PlantillaMainJs.autenticacionService.cerrarSesion 1 w = some (.ok w2)) :=
  c27_session_objects_agree _ mundoInicial rfl rfl rfl

/-- Sample runs of the session manager of main.js: a failed login keeps the
open session, a restore after a logout finds nothing, and a restore after a
page reload brings back the stored user. -/
theorem sesion_secuencia_example :
    ([OperacionSesion.iniciarSesion "juan@email.com" "123456",
      OperacionSesion.iniciarSesion "juan@email.com" "otra"].foldl OperacionSesion.ejecutar
        mundoInicial).estadoAplicacion.usuarioActual = some usuarioJuan ∧
    ([OperacionSesion.iniciarSesion "juan@email.com" "123456",
      OperacionSesion.cerrarSesion,
      OperacionSesion.verificarAutenticacion].foldl OperacionSesion.ejecutar
        mundoInicial).estadoAplicacion.usuarioActual = none ∧
    ([OperacionSesion.verificarAutenticacion].foldl OperacionSesion.ejecutar
        mundoRecargado).appState.currentUser = some usuarioJuan := by
  refine ⟨rfl, rfl, rfl⟩

/-! ## Enrollments: no duplicates, frame of the course deletion -/

/-- One operation on the enrollments keeps the (userId, courseId) pairs free
of repetitions. -/
theorem inscripciones_sin_duplicados_paso (op : OperacionInscripcion) (w : Mundo)
    (h : w.servidor.paresInscritos.Nodup) :
    (OperacionInscripcion.ejecutar w op).servidor.paresInscritos.Nodup := by
  cases op with
  | procesarInscripcionEnCurso idCurso =>
    simp only [OperacionInscripcion.ejecutar]
    rw [explicacion_procesarInscripcionEnCurso_sin_efecto]
    exact h
  | cancelarInscripcion idInscripcion => exact h

/-- C29: if no two stored enrollments have the same (userId, courseId), then
after any sequence of `gestorCrud.procesarInscripcionEnCurso` and
`inscripcionService.cancelarInscripcion` calls of explicacion/main.js, each run
to completion and whatever the network answers, no two stored enrollments have
the same (userId, courseId). -/
theorem c29_no_duplicate_enrollments_invariant (ops : List OperacionInscripcion) (w : Mundo)
    (h : w.servidor.paresInscritos.Nodup) :
    (ops.foldl OperacionInscripcion.ejecutar w).servidor.paresInscritos.Nodup := by
  induction ops generalizing w with
  | nil => exact h
  | cons op resto ih => exact ih _ (inscripciones_sin_duplicados_paso op w h)

/-- Witness of C29: the visitor asks for course 2 twice, cancels enrollment 1
and asks for course 1. -/
theorem c29_no_duplicate_enrollments_invariant_witness :
    ([OperacionInscripcion.procesarInscripcionEnCurso 2,
      OperacionInscripcion.procesarInscripcionEnCurso 2,
      OperacionInscripcion.cancelarInscripcion 1,
      OperacionInscripcion.procesarInscripcionEnCurso 1].foldl OperacionInscripcion.ejecutar
        (mundoConSesion usuarioJuan)).servidor.paresInscritos.Nodup :=
  c29_no_duplicate_enrollments_invariant _ (mundoConSesion usuarioJuan) (by decide)

/-- The pairs that the sequence of the witness leaves: the operations of
explicacion/main.js throw before any request, so the list is as before. -/
theorem inscripciones_secuencia_example :
    ([OperacionInscripcion.procesarInscripcionEnCurso 2,
      OperacionInscripcion.procesarInscripcionEnCurso 2,
      OperacionInscripcion.cancelarInscripcion 1,
      OperacionInscripcion.procesarInscripcionEnCurso 1].foldl OperacionInscripcion.ejecutar
        (mundoConSesion usuarioJuan)).servidor.paresInscritos = [(2, 1)] := by
  rfl

/-- C30: when the ids of the stored enrollments are keys (no two stored
enrollments share an id), `confirmarEliminacionCurso(idCurso)` with the
confirmation accepted, whatever the network answers, leaves the enrollments
whose courseId differs from `idCurso` as they were, in order, leaves the
courses whose id differs from `idCurso` as they were, and leaves the users as
they were; with the confirmation declined it returns the world unchanged, so
it issues no request. -/
theorem c30_course_deletion_frame (idCurso : Int) (w : Mundo)
    (hids : ∀ a ∈ w.servidor.enrollments, ∀ b ∈ w.servidor.enrollments, a.id = b.id → a = b) :
    (ExplicacionMainJs.gestorCrud.confirmarEliminacionCurso true idCurso
        w).servidor.enrollments.filter (fun e => e.courseId != idCurso)
      = w.servidor.enrollments.filter (fun e => e.courseId != idCurso) ∧
    (ExplicacionMainJs.gestorCrud.confirmarEliminacionCurso true idCurso
        w).servidor.courses.filter (fun c => c.id != idCurso)
      = w.servidor.courses.filter (fun c => c.id != idCurso) ∧
    (ExplicacionMainJs.gestorCrud.confirmarEliminacionCurso true idCurso w).servidor.users
      = w.servidor.users ∧
    ExplicacionMainJs.gestorCrud.confirmarEliminacionCurso false idCurso w = w := by
  rw [explicacion_confirmarEliminacionCurso_sin_efecto,
    explicacion_confirmarEliminacionCurso_sin_efecto]
  exact ⟨rfl, rfl, rfl, rfl⟩

/-- Witness of C30: course 1 of a backend that also holds an enrollment of
course 2. -/
theorem c30_course_deletion_frame_witness :
    (ExplicacionMainJs.gestorCrud.confirmarEliminacionCurso true 1
        mundoConInactiva).servidor.enrollments.filter (fun e => e.courseId != 1)
      = mundoConInactiva.servidor.enrollments.filter (fun e => e.courseId != 1) ∧
    (ExplicacionMainJs.gestorCrud.confirmarEliminacionCurso true 1
        mundoConInactiva).servidor.courses.filter (fun c => c.id != 1)
      = mundoConInactiva.servidor.courses.filter (fun c => c.id != 1) ∧
    (ExplicacionMainJs.gestorCrud.confirmarEliminacionCurso true 1 mundoConInactiva).servidor.users
      = mundoConInactiva.servidor.users ∧
    ExplicacionMainJs.gestorCrud.confirmarEliminacionCurso false 1 mundoConInactiva
      = mundoConInactiva :=
  c30_course_deletion_frame 1 mundoConInactiva (by decide)

/-- The backend after the accepted deletion of course 1 in the world of the
witness: the handler stops at its first service call, so the enrollment of
course 2 and course 2 remain (and so does everything else). -/
theorem confirmarEliminacionCurso_frame_example :
    (ExplicacionMainJs.gestorCrud.confirmarEliminacionCurso true 1
        mundoConInactiva).servidor.enrollments.filter (fun e => e.courseId != 1)
      = [{ id := 2, userId := 1, courseId := 2, enrollmentDate := "4/1/2024",
           status := "inactive" }] ∧
    (ExplicacionMainJs.gestorCrud.confirmarEliminacionCurso true 1
        mundoConInactiva).servidor.courses.map (fun c => c.id) = [1, 2] := by
  decide

/-! ## The user form of the modal -/

/-- An edit through the user form with the password input left empty, when the
request is answered: the body of the PUT carries no password, and every stored
record with the id is replaced by the record of the body, which has no
password and no admission date. -/
theorem manejarEnvioUsuario_clave_vacia
    (f : PlantillaMainJs.gestorModales.FormularioUsuario) (id : Int) (w : Mundo)
    (hid : id ≠ 0) (hvacia : f.password = "") (hok : w.respuestaOk = true) :
    (PlantillaMainJs.gestorModales.manejarEnvioUsuario f (some id) w).peticiones
        = w.peticiones ++ [.put .users id (.usuarioFormulario
            { name := f.name, email := f.email, role := f.role, phone := f.phone,
              enrollNumber := f.enrollNumber, password := none })] ∧
      (PlantillaMainJs.gestorModales.manejarEnvioUsuario f (some id) w).servidor.users
        = w.servidor.users.map (fun u =>
            if u.id = id then
              { id := id, name := f.name, email := f.email, password := "", role := f.role,
                phone := f.phone, enrollNumber := f.enrollNumber, dateOfAdmission := "" }
            else u) ∧
      (PlantillaMainJs.gestorModales.manejarEnvioUsuario f (some id) w).alertas
        = w.alertas ++ [{ mensaje := "Usuario actualizado exitosamente", tipo := "success" }] := by
  simp only [PlantillaMainJs.gestorModales.manejarEnvioUsuario, hid, ne_eq, not_false_eq_true,
    if_true, PlantillaMainJs.usuarioService.actualizarUsuario,
    PlantillaMainJs.apiService.solicitar_ok _ _ _ w hok, hvacia]
  simp [PlantillaMainJs.renderizadorPaginas.cargarListaUsuarios,
    PlantillaMainJs.apiService.mostrarAlerta, Servidor.aplicar,
    DatosFormularioUsuario.registro]

/-- C24, evaluated on the sample backend: the administrator edits the visitor
(stored password "123456") through the user form with the password input left
empty, every request answered.  The PUT carries no password, the stored record
of the visitor comes out without the password "123456" (and without its
admission date), and the visitor can no longer log in with "123456". -/
theorem c24_mainJs_edit_with_empty_password_drops_password :
    (PlantillaMainJs.gestorModales.manejarEnvioUsuario formularioEdicionJuan (some 2)
        (mundoConSesion usuarioAdmin)).peticiones
      = [.put .users 2 (.usuarioFormulario
          { name := "Juan", email := "juan@email.com", role := "visitor",
            phone := "3001112233", enrollNumber := "0002", password := none })] ∧
    (PlantillaMainJs.gestorModales.manejarEnvioUsuario formularioEdicionJuan (some 2)
        (mundoConSesion usuarioAdmin)).servidor.users
      = [usuarioAdmin,
         { id := 2, name := "Juan", email := "juan@email.com", password := "",
           role := "visitor", phone := "3001112233", enrollNumber := "0002",
           dateOfAdmission := "" }] ∧
    (∀ u ∈ (PlantillaMainJs.gestorModales.manejarEnvioUsuario formularioEdicionJuan (some 2)
        (mundoConSesion usuarioAdmin)).servidor.users, u.id = 2 → u.password ≠ "123456") ∧
    (PlantillaMainJs.autenticacionService.iniciarSesion "juan@email.com" "123456"
        (mundoConSesion usuarioAdmin)).1 = .ok usuarioJuan ∧
    (PlantillaMainJs.autenticacionService.iniciarSesion "juan@email.com" "123456"
        (PlantillaMainJs.gestorModales.manejarEnvioUsuario formularioEdicionJuan (some 2)
          (mundoConSesion usuarioAdmin))).1 = .error (.mensaje "Credenciales inválidas") := by
  refine ⟨rfl, rfl, by decide, rfl, rfl⟩

/-- With a password typed in the form the same edit stores the typed
password. -/
theorem manejarEnvioUsuario_clave_nueva_example :
    (PlantillaMainJs.gestorModales.manejarEnvioUsuario
        { formularioEdicionJuan with password := "nueva123" } (some 2)
        (mundoConSesion usuarioAdmin)).servidor.users.map (fun u => u.password)
      = ["admin123", "nueva123"] := by
  rfl

end Simulacro
